import Mathlib

/-!
Map view of the fishing-log application: `index.js`.

A shallow embedding of the script `src/index.js` and the properties of its
coordinate validator, host messaging bridge, marker handling and dual-surface
view-state synchronizer.

Conventions of the embedding

* A JavaScript number is a `JSNum`: `NaN`, the two infinities, or a finite value.
  A finite double is represented by the rational it denotes and arithmetic on finite
  values is exact (rounding of IEEE-754 results and the sign of zero are not
  modelled).  Comparisons follow IEEE-754: every comparison with `NaN` is false.
* Module-level variables, the two `mapboxgl.Map` objects, the two container elements
  and the host channel are fields of one explicit `State`.
* Calls into the map SDK are modelled by their contract: a position handed to the SDK
  (`setLngLat`, `easeTo`, `setCenter`) goes through its `LngLat` constructor, which
  throws for `NaN` and for a latitude outside [-90, 90]; `setZoom` clamps the zoom to
  the `minZoom: 0` / `maxZoom: 24` given to the map constructors; `setCenter` and
  `setZoom` store the camera they are given. Adjustments of the camera that depend on
  the size of the viewport are not modelled, nor are the notifications the SDK issues
  for such a programmatic jump (their handlers re-read the camera just stored).
* `console.log` / `console.warn` / `console.error` have no effect on the state.
-/

namespace MeteoblueMap

/-! ## JavaScript numbers -/

/-- A JavaScript number value. -/
inductive JSNum where
  | nan
  | posInf
  | negInf
  | fin (q : ℚ)
  deriving DecidableEq

namespace JSNum

/-- The global `isNaN` on a number. -/
def isNaN : JSNum → Bool
  | nan => true
  | _ => false

/-- The operator `x <= y` on numbers. -/
def le : JSNum → JSNum → Bool
  | nan, _ => false
  | _, nan => false
  | negInf, _ => true
  | _, posInf => true
  | posInf, _ => false
  | _, negInf => false
  | fin a, fin b => decide (a ≤ b)

/-- The operator `x >= y` on numbers. -/
def ge (x y : JSNum) : Bool := le y x

/-- The operator `x < y` on numbers. -/
def lt : JSNum → JSNum → Bool
  | nan, _ => false
  | _, nan => false
  | posInf, _ => false
  | _, negInf => false
  | negInf, _ => true
  | _, posInf => true
  | fin a, fin b => decide (a < b)

/-- The operator `x > y` on numbers. -/
def gt (x y : JSNum) : Bool := lt y x

/-- The function `Math.max` on two numbers. -/
def max (x y : JSNum) : JSNum :=
  if isNaN x || isNaN y then nan else if lt x y then y else x

/-- The function `Math.min` on two numbers. -/
def min (x y : JSNum) : JSNum :=
  if isNaN x || isNaN y then nan else if lt y x then y else x

/-- Unary minus. -/
def neg : JSNum → JSNum
  | nan => nan
  | posInf => negInf
  | negInf => posInf
  | fin a => fin (-a)

/-- The operator `x + y` on numbers. -/
def add : JSNum → JSNum → JSNum
  | nan, _ => nan
  | _, nan => nan
  | posInf, negInf => nan
  | negInf, posInf => nan
  | posInf, _ => posInf
  | negInf, _ => negInf
  | _, posInf => posInf
  | _, negInf => negInf
  | fin a, fin b => fin (a + b)

/-- The operator `x - y` on numbers. -/
def sub (x y : JSNum) : JSNum := add x (neg y)

/-- An infinity with the sign of `positive`. -/
def infOfSign (positive : Bool) : JSNum := if positive then posInf else negInf

/-- The product of an infinity (positive when `positive`) with a finite value. -/
def mulInf (positive : Bool) (a : ℚ) : JSNum :=
  if a = 0 then nan else infOfSign (positive == decide (0 < a))

/-- The operator `x * y` on numbers. -/
def mul : JSNum → JSNum → JSNum
  | nan, _ => nan
  | _, nan => nan
  | posInf, posInf => posInf
  | posInf, negInf => negInf
  | negInf, posInf => negInf
  | negInf, negInf => posInf
  | posInf, fin a => mulInf true a
  | negInf, fin a => mulInf false a
  | fin a, posInf => mulInf true a
  | fin a, negInf => mulInf false a
  | fin a, fin b => fin (a * b)

/-- A number lies in the closed interval `[lo, hi]` of the real line: it is finite
(neither `NaN` nor an infinity) and between the two bounds. -/
def InRange (lo hi : ℚ) (x : JSNum) : Prop :=
  ∃ q : ℚ, x = fin q ∧ lo ≤ q ∧ q ≤ hi

end JSNum

/-! ## Coordinate validator -/

/-- The function `areCoordinatesValid({ lat, lng })`. -/
def areCoordinatesValid (lat lng : JSNum) : Bool :=
  !JSNum.isNaN lat &&
  !JSNum.isNaN lng &&
  JSNum.ge lat (JSNum.fin (-90)) &&
  JSNum.le lat (JSNum.fin 90) &&
  JSNum.ge lng (JSNum.fin (-180)) &&
  JSNum.le lng (JSNum.fin 180)

/-! ## JSON values and the coercions applied to message fields -/

/-- A value produced by `JSON.parse`. An object is the list of its own properties. -/
inductive Json where
  | null
  | bool (b : Bool)
  | num (n : JSNum)
  | str (s : String)
  | arr (items : List Json)
  | obj (fields : List (String × Json))

/-- The text produced by `JSON.stringify`, represented by the value that the text
denotes (the value `JSON.parse` gives back for it). -/
structure JsonText where
  decoded : Json

/-- A number as it appears in JSON text: `JSON.stringify` writes `null` for `NaN` and
for the infinities. -/
def stringifyNumber : JSNum → Json
  | JSNum.fin q => Json.num (JSNum.fin q)
  | _ => Json.null

/-- The expression `JSON.stringify({ type: "mapClick", lat: lat, lng: lng })`. -/
def stringifyMapClick (lat lng : JSNum) : JsonText :=
  { decoded := Json.obj [("type", Json.str "mapClick"),
                         ("lat", stringifyNumber lat),
                         ("lng", stringifyNumber lng)] }

/-- Reading one of the properties `type`, `lat`, `lng`, `unitType`, `temperatureUnit`,
`speedUnit` of a non-null parsed value: `none` is `undefined`. Only objects carry
such a property; strings, numbers, booleans and arrays have none of these names. -/
def Json.getProp (data : Json) (key : String) : Option Json :=
  match data with
  | Json.obj fields => fields.lookup key
  | _ => none

/-- JavaScript truthiness (`ToBoolean`) of a property value. -/
def truthy : Option Json → Bool
  | none => false
  | some Json.null => false
  | some (Json.bool b) => b
  | some (Json.num JSNum.nan) => false
  | some (Json.num (JSNum.fin q)) => decide (q ≠ 0)
  | some (Json.num _) => true
  | some (Json.str s) => decide (s ≠ "")
  | some (Json.arr _) => true
  | some (Json.obj _) => true

/-- The expression `v === "moveToLocation"`. -/
def isMoveToLocation : Option Json → Bool
  | some (Json.str s) => decide (s = "moveToLocation")
  | _ => false

/-- ECMAScript `WhiteSpace` and `LineTerminator` code points, which `parseFloat`
strips from the start of its input. -/
def isStrWhiteSpace (c : Char) : Bool :=
  let n := c.toNat
  n = 0x09 || n = 0x0A || n = 0x0B || n = 0x0C || n = 0x0D || n = 0x20 || n = 0xA0 ||
  n = 0x1680 || (0x2000 ≤ n && n ≤ 0x200A) || n = 0x2028 || n = 0x2029 ||
  n = 0x202F || n = 0x205F || n = 0x3000 || n = 0xFEFF

/-- The value of a run of decimal digits. -/
def digitsValue (ds : List Char) : Nat :=
  ds.foldl (fun acc c => 10 * acc + (c.toNat - 48)) 0

/-- The digits following an optional exponent sign, as an exponent; `none` when no
digit follows (then there is no `ExponentPart`). -/
def signedInteger (cs : List Char) : Option Int :=
  match cs with
  | '+' :: r => if r.takeWhile Char.isDigit = [] then none
                else some (digitsValue (r.takeWhile Char.isDigit))
  | '-' :: r => if r.takeWhile Char.isDigit = [] then none
                else some (-(digitsValue (r.takeWhile Char.isDigit) : Int))
  | r => if r.takeWhile Char.isDigit = [] then none
         else some (digitsValue (r.takeWhile Char.isDigit))

/-- The power of ten denoted by the longest `ExponentPart` at the start of `cs`
(`1` when there is none). -/
def exponentFactor (cs : List Char) : ℚ :=
  match cs with
  | c :: r =>
    if c = 'e' ∨ c = 'E' then
      match signedInteger r with
      | some e => (10 : ℚ) ^ e
      | none => 1
    else 1
  | [] => 1

/-- The longest prefix of `cs` that is a `StrUnsignedDecimalLiteral`, as a number;
`none` when no prefix is one. -/
def strUnsignedDecimalLiteral (cs : List Char) : Option JSNum :=
  if "Infinity".toList.isPrefixOf cs then some JSNum.posInf
  else
    let ip := cs.takeWhile Char.isDigit
    match cs.dropWhile Char.isDigit with
    | '.' :: r =>
      let fp := r.takeWhile Char.isDigit
      if ip = [] ∧ fp = [] then none
      else some (JSNum.fin (((digitsValue ip : ℚ) + (digitsValue fp : ℚ) / (10 : ℚ) ^ fp.length)
                  * exponentFactor (r.dropWhile Char.isDigit)))
    | r =>
      if ip = [] then none
      else some (JSNum.fin ((digitsValue ip : ℚ) * exponentFactor r))

/-- The longest prefix of `cs` that is a `StrDecimalLiteral`, as a number; `NaN` when
no prefix is one. -/
def strDecimalLiteral (cs : List Char) : JSNum :=
  match cs with
  | '+' :: r => (strUnsignedDecimalLiteral r).getD JSNum.nan
  | '-' :: r => JSNum.neg ((strUnsignedDecimalLiteral r).getD JSNum.nan)
  | r => (strUnsignedDecimalLiteral r).getD JSNum.nan

/-- The global `parseFloat` applied to a string. -/
def parseFloatString (s : String) : JSNum :=
  strDecimalLiteral (s.toList.dropWhile isStrWhiteSpace)

/-- The global `parseFloat` applied to a parsed JSON value: the value is converted to
a string, of which the longest numeric prefix is read.
A number prints as a decimal that reads back as the same number. `null`, booleans and
objects print as `null`, `true` / `false` and `[object Object]`, none of which starts
with a numeral. An array prints its elements separated by commas, so its numeric
prefix is that of its first element (none for an empty array). -/
def parseFloatJson : Json → JSNum
  | Json.null => JSNum.nan
  | Json.bool _ => JSNum.nan
  | Json.num n => n
  | Json.str s => parseFloatString s
  | Json.arr [] => JSNum.nan
  | Json.arr (x :: _) => parseFloatJson x
  | Json.obj _ => JSNum.nan

/-- The global `parseFloat` applied to a property value (`undefined` reads as `NaN`). -/
def parseFloat : Option Json → JSNum
  | none => JSNum.nan
  | some v => parseFloatJson v

/-! ## Program state -/

/-- The two `mapboxgl.Map` objects of the script: `meteoblueMapboxMap` (the plugin
surface, in container `#map_container`) and `noaaMapboxMap` (the reference surface, in
container `#map_container_noaa`). -/
inductive Surface where
  | meteoblueMapboxMap
  | noaaMapboxMap
  deriving DecidableEq

/-- A geographic position as the map SDK holds it. -/
structure LngLat where
  lng : JSNum
  lat : JSNum
  deriving DecidableEq

/-- The two marker styles of the script. -/
inductive MarkerStyle where
  /-- Options `{ color: "#007bff", scale: 1.2 }` of the location marker. -/
  | location
  /-- Options `{ color: "#ff6b6b" }` of a catch marker. -/
  | catchPin
  deriving DecidableEq

/-- What the HTML of a catch popup is built from: the species, the date (`none` when
the record has none) and the image source (`none` when `item.media` is falsy and no
`img` element is written). -/
structure PopupContent where
  species : String
  date : Option String
  image : Option String
  deriving DecidableEq

/-- A `mapboxgl.Marker` object that has been added to a map. `uid` is the identity of
the object; `popup` is the popup given to it with `setPopup`. -/
structure Marker where
  uid : Nat
  style : MarkerStyle
  lngLat : LngLat
  map : Surface
  popup : Option PopupContent := none
  deriving DecidableEq

/-- A record of the array returned by `fetchUserCatches`. `latitude` and `longitude`
are the numbers the SDK reads from `item.latitude` and `item.longitude` (`NaN` when the
field is missing or not numeric); `date` is `none` when the record has no `catchDate`;
`media` is `none` when the field is missing. -/
structure CatchRecord where
  id : String
  species : String
  date : Option String
  latitude : JSNum
  longitude : JSNum
  media : Option String
  deriving DecidableEq

/-- The elements of one menu option that a click can land on: the `div.map-selector`
itself, the icon `span`, the `svg` inside the icon span, an element directly inside the
`svg` (a `path`), and the label `span`. -/
inductive MenuPart where
  | selector
  | iconSpan
  | svg
  | path
  | labelSpan
  deriving DecidableEq

/-- An element of the menu: a part of the option whose `div.map-selector` has the id
`option`. -/
structure MenuElement where
  option : String
  part : MenuPart
  deriving DecidableEq

/-- The `meteoblueMapsPlugin` object: the unit values its inventory URL was built from
and the map ids passed to `setMap`, oldest first. -/
structure MapsPlugin where
  temperatureUnit : Option Json
  velocityUnit : Option Json
  lengthUnit : Option Json
  setMapCalls : List String

/-- The options of one `easeTo` call. -/
structure EaseToOptions where
  center : LngLat
  duration : Nat
  deriving DecidableEq

/-- What the script reads from and writes to one `mapboxgl.Map` object. -/
structure MapState where
  /-- Value of `getCenter()`. -/
  center : LngLat
  /-- Value of `getZoom()`. -/
  zoom : JSNum
  /-- Value of `getBounds().getNorth()`. -/
  north : JSNum
  /-- Value of `getBounds().getSouth()`. -/
  south : JSNum
  /-- Number of handlers registered with `on("zoomend", ...)`. -/
  zoomendListeners : Nat
  /-- Number of handlers registered with `on("moveend", ...)`. -/
  moveendListeners : Nat
  /-- The options of every `easeTo` call made on the map, oldest first. -/
  easeToCalls : List EaseToOptions
  /-- The style last given to the map (constructor option or `setStyle`). -/
  style : Option String
  deriving DecidableEq

/-- The inline style properties the script sets on a map container element. -/
structure ContainerStyle where
  visibility : String
  zIndex : Option Int
  deriving DecidableEq

/-- The object returned by `getUrlParams()`: `none` is the `null` that
`URLSearchParams.get` returns for an absent parameter. -/
structure UrlParams where
  userId : Option String
  lat : Option String
  lon : Option String
  env : Option String
  deriving DecidableEq

/-- The mutable state of the page. -/
structure State where
  /-- Variable `mapboxMap` (`none` while it is still `undefined`). -/
  mapboxMap : Option Surface
  /-- Variable `locationMarker` (`none` is `null`). -/
  locationMarker : Option Marker
  /-- Variable `defaultCenter`. -/
  defaultCenter : LngLat
  /-- Variable `defaultZoom`. -/
  defaultZoom : JSNum
  /-- The map object `meteoblueMapboxMap`. -/
  meteoblue : MapState
  /-- The map object `noaaMapboxMap`. -/
  noaa : MapState
  /-- Inline style of the element `#map_container`. -/
  mapContainer : ContainerStyle
  /-- Inline style of the element `#map_container_noaa`. -/
  mapContainerNoaa : ContainerStyle
  /-- The markers currently attached to a map, in order of attachment. -/
  markers : List Marker
  /-- Identity given to the next marker object constructed. -/
  nextUid : Nat
  /-- Whether `window.ReactNativeWebView` exists. -/
  reactNativeWebView : Bool
  /-- The messages passed to `window.ReactNativeWebView.postMessage`, oldest first. -/
  posted : List JsonText
  /-- The query parameters of `window.location.search`. -/
  urlParams : UrlParams
  /-- Variable `catchMarkers`. -/
  catchMarkers : List Marker
  /-- Variable `catches`. -/
  catches : List CatchRecord
  /-- Variable `speedUnit` (`none` is `undefined`). -/
  speedUnit : Option Json
  /-- Variable `temperatureUnit` (`none` is `undefined`). -/
  temperatureUnit : Option Json
  /-- Variable `lengthUnit` (`none` is `undefined`). -/
  lengthUnit : Option Json
  /-- Variable `mapsPlugin` (`none` while it is still `undefined`). -/
  mapsPlugin : Option MapsPlugin
  /-- The ids of the `div.map-selector` children of `mapSelection`, in menu order. -/
  menuOptions : List String
  /-- The menu elements whose class list contains `active`. -/
  activeElements : List MenuElement
  /-- Whether the class list of `customMenu` contains `open`. -/
  menuOpen : Bool
  /-- The inline `display` of the element `menuToggle`. -/
  menuToggleDisplay : String
  /-- Whether the class list of the wrapper of `myCatchesToggle` contains `active`. -/
  myCatchesActive : Bool
  /-- Whether the class list of `loadingIndicator` contains `show`. -/
  loadingShown : Bool
  /-- The URLs passed to `fetch`, oldest first. -/
  fetchCalls : List String
  /-- Number of `fetchUserCatches` calls of `loadUserCatches` that have not settled. -/
  pendingCatchFetches : Nat

/-- The state of a statement sequence after it completed or threw: `threw` tells
that an exception is propagating, `state` is the state reached at that point. -/
structure Outcome where
  state : State
  threw : Bool

/-- Normal completion. -/
def Outcome.ok (s : State) : Outcome := { state := s, threw := false }

/-- Abrupt completion by a thrown exception. -/
def Outcome.error (s : State) : Outcome := { state := s, threw := true }

/-- Sequencing: the next statement runs only after normal completion. -/
def Outcome.andThen (o : Outcome) (f : State → Outcome) : Outcome :=
  if o.threw then o else f o.state

/-- The map object a surface name denotes. -/
def State.getMap (s : State) : Surface → MapState
  | Surface.meteoblueMapboxMap => s.meteoblue
  | Surface.noaaMapboxMap => s.noaa

/-- Update of one map object. -/
def State.modifyMap (s : State) (m : Surface) (f : MapState → MapState) : State :=
  match m with
  | Surface.meteoblueMapboxMap => { s with meteoblue := f s.meteoblue }
  | Surface.noaaMapboxMap => { s with noaa := f s.noaa }

/-- The function `getUrlParams()`. -/
def getUrlParams (s : State) : UrlParams := s.urlParams

/-- A query parameter as a JavaScript value: a string, or `null`. -/
def paramValue (p : Option String) : Option Json :=
  some (match p with
        | some v => Json.str v
        | none => Json.null)

/-! ## Contract of the map SDK -/

/-- The constructor of the SDK class `LngLat`, through which every position given to
`setLngLat`, `easeTo` and `setCenter` passes: it throws when a component is `NaN` and
when the latitude is above 90 or below -90. -/
def lngLatAccepted (lng lat : JSNum) : Bool :=
  !(JSNum.isNaN lng || JSNum.isNaN lat) &&
  !(JSNum.gt lat (JSNum.fin 90) || JSNum.lt lat (JSNum.fin (-90)))

/-- The zoom a map constructed with `minZoom: 0, maxZoom: 24` stores for `setZoom(z)`:
`Math.min(Math.max(z, minZoom), maxZoom)`. -/
def clampZoom (z : JSNum) : JSNum :=
  JSNum.min (JSNum.max z (JSNum.fin 0)) (JSNum.fin 24)

/-! ## Markers -/

/-- The method `marker.remove()`: detaches that marker object from its map. -/
def Marker.remove (mk : Marker) (s : State) : State :=
  { s with markers := s.markers.filter (fun x => x.uid != mk.uid) }

/-- The statement `if (locationMarker) { locationMarker.remove(); }`. -/
def removeLocationMarker (s : State) : State :=
  match s.locationMarker with
  | some old => old.remove s
  | none => s

/-- The function `displayLocationMarker(lat, lon)`. The marker object is constructed,
`setLngLat([lon, lat])` throws when the SDK rejects the position, and
`addTo(mapboxMap)` throws when `mapboxMap` is `undefined`; in both cases
`locationMarker` is not assigned. -/
def displayLocationMarker (lat lon : JSNum) (s : State) : Outcome :=
  let s1 := removeLocationMarker s
  let s2 := { s1 with nextUid := s1.nextUid + 1 }
  if lngLatAccepted lon lat then
    match s2.mapboxMap with
    | none => Outcome.error s2
    | some m =>
      let created : Marker :=
        { uid := s1.nextUid, style := MarkerStyle.location,
          lngLat := { lng := lon, lat := lat }, map := m }
      Outcome.ok { s2 with markers := s2.markers ++ [created],
                           locationMarker := some created }
  else Outcome.error s2

/-- The function `clearLocationMarker()`. -/
def clearLocationMarker (s : State) : State :=
  match s.locationMarker with
  | some _ => { removeLocationMarker s with locationMarker := none }
  | none => s

/-- The location markers currently attached to a map. -/
def State.locationMarkers (s : State) : List Marker :=
  s.markers.filter (fun x => decide (x.style = MarkerStyle.location))

/-! ## Host messaging bridge and camera offset -/

/-- The function `sendMessageToApp(message)`. -/
def sendMessageToApp (message : JsonText) (s : State) : State :=
  if s.reactNativeWebView then { s with posted := s.posted ++ [message] } else s

/-- The function `movePositionToTopCenter({ lat, lng })`. Reading the bounds of
`mapboxMap` throws when it is `undefined`; the `easeTo` call throws when the SDK
rejects the center it is given. -/
def movePositionToTopCenter (lat lng : JSNum) (s : State) : Outcome :=
  match s.mapboxMap with
  | none => Outcome.error s
  | some m =>
    let latRange := JSNum.sub (s.getMap m).north (s.getMap m).south
    let offsetLat := JSNum.sub lat (JSNum.mul latRange (JSNum.fin 0.4))
    let s1 := s.modifyMap m (fun ms =>
      { ms with easeToCalls := ms.easeToCalls ++
          [{ center := { lng := lng, lat := offsetLat }, duration := 500 }] })
    if lngLatAccepted lng offsetLat then Outcome.ok s1 else Outcome.error s1

/-- The body of the `try` block of a message listener. `parsed` is the completion of
`JSON.parse(event.data)`: `none` when it throws; reading `data.type` throws when the
parsed value is `null`. -/
def messageTryBlock (parsed : Option Json) (s : State) : Outcome :=
  match parsed with
  | none => Outcome.error s
  | some Json.null => Outcome.error s
  | some data =>
    if isMoveToLocation (data.getProp "type") && truthy (data.getProp "lat") &&
        truthy (data.getProp "lng") then
      let lat := parseFloat (data.getProp "lat")
      let lng := parseFloat (data.getProp "lng")
      if areCoordinatesValid lat lng then
        (displayLocationMarker lat lng s).andThen (movePositionToTopCenter lat lng)
      else Outcome.ok s
    else Outcome.ok s

/-- The `message` listener on `window`: the `catch` clause logs the exception and the
listener completes normally. -/
def windowMessageListener (parsed : Option Json) (s : State) : Outcome :=
  Outcome.ok (messageTryBlock parsed s).state

/-- The `message` listener on `document`, which exists only when
`window.ReactNativeWebView` does. -/
def documentMessageListener (parsed : Option Json) (s : State) : Outcome :=
  if s.reactNativeWebView then Outcome.ok (messageTryBlock parsed s).state
  else Outcome.ok s

/-! ## Click handlers -/

/-- The `click` handler of `meteoblueMapboxMap`, for `e.lngLat = { lng, lat }`. -/
def meteoblueMapboxMapClick (lat lng : JSNum) (s : State) : Outcome :=
  (displayLocationMarker lat lng s).andThen fun s1 =>
  (movePositionToTopCenter lat lng s1).andThen fun s2 =>
  Outcome.ok (sendMessageToApp (stringifyMapClick lat lng) s2)

/-- The `click` handler of `noaaMapboxMap`, for `e.lngLat = { lng, lat }`. -/
def noaaMapboxMapClick (lat lng : JSNum) (s : State) : Outcome :=
  (displayLocationMarker lat lng s).andThen fun s1 =>
  (movePositionToTopCenter lat lng s1).andThen fun s2 =>
  Outcome.ok (sendMessageToApp (stringifyMapClick lat lng) s2)

/-- The click handler registered on a surface. -/
def clickHandler : Surface → JSNum → JSNum → State → Outcome
  | Surface.meteoblueMapboxMap => meteoblueMapboxMapClick
  | Surface.noaaMapboxMap => noaaMapboxMapClick

/-! ## View-state synchronizer -/

/-- The handler `() => { const currentZoom = map.getZoom(); defaultZoom = currentZoom; }`
that a surface switch registers on the map `m`. -/
def zoomendHandler (m : Surface) (s : State) : State :=
  { s with defaultZoom := (s.getMap m).zoom }

/-- The handler `() => { const center = map.getCenter(); defaultCenter = center; }`
that a surface switch registers on the map `m`. -/
def moveendHandler (m : Surface) (s : State) : State :=
  { s with defaultCenter := (s.getMap m).center }

/-- The function `setNoaaMap()`. `setCenter` throws when the SDK rejects
`defaultCenter`. -/
def setNoaaMap (s : State) : Outcome :=
  let s1 := { s with mapboxMap := some Surface.noaaMapboxMap }
  let s2 := s1.modifyMap Surface.noaaMapboxMap
              (fun ms => { ms with zoomendListeners := ms.zoomendListeners + 1 })
  let s3 := s2.modifyMap Surface.noaaMapboxMap
              (fun ms => { ms with moveendListeners := ms.moveendListeners + 1 })
  if lngLatAccepted s3.defaultCenter.lng s3.defaultCenter.lat then
    let s4 := s3.modifyMap Surface.noaaMapboxMap (fun ms => { ms with center := s3.defaultCenter })
    let s5 := s4.modifyMap Surface.noaaMapboxMap
                (fun ms => { ms with zoom := clampZoom s4.defaultZoom })
    let s6 := { s5 with mapContainer := { visibility := "hidden", zIndex := some (-1) } }
    let s7 := { s6 with mapContainerNoaa := { visibility := "visible", zIndex := some 10 } }
    let s8 := s7.modifyMap Surface.noaaMapboxMap
                (fun ms => { ms with style := some "./style_v1.json" })
    let params := getUrlParams s8
    if truthy (paramValue params.lat) && truthy (paramValue params.lon) then
      let lat := parseFloat (paramValue params.lat)
      let lon := parseFloat (paramValue params.lon)
      if !JSNum.isNaN lat && !JSNum.isNaN lon then displayLocationMarker lat lon s8
      else Outcome.ok s8
    else Outcome.ok s8
  else Outcome.error s3

/-- The function `resetNoaaMap()`. `setCenter` throws when the SDK rejects
`defaultCenter`. -/
def resetNoaaMap (s : State) : Outcome :=
  let s1 := { s with mapboxMap := some Surface.meteoblueMapboxMap }
  let s2 := s1.modifyMap Surface.meteoblueMapboxMap
              (fun ms => { ms with zoomendListeners := ms.zoomendListeners + 1 })
  let s3 := s2.modifyMap Surface.meteoblueMapboxMap
              (fun ms => { ms with moveendListeners := ms.moveendListeners + 1 })
  if lngLatAccepted s3.defaultCenter.lng s3.defaultCenter.lat then
    let s4 := s3.modifyMap Surface.meteoblueMapboxMap
                (fun ms => { ms with center := s3.defaultCenter })
    let s5 := s4.modifyMap Surface.meteoblueMapboxMap
                (fun ms => { ms with zoom := clampZoom s4.defaultZoom })
    let s6 := { s5 with mapContainer := { visibility := "visible", zIndex := some 10 } }
    let s7 := { s6 with mapContainerNoaa := { visibility := "hidden", zIndex := some (-1) } }
    let params := getUrlParams s7
    if truthy (paramValue params.lat) && truthy (paramValue params.lon) then
      let lat := parseFloat (paramValue params.lat)
      let lon := parseFloat (paramValue params.lon)
      if !JSNum.isNaN lat && !JSNum.isNaN lon then displayLocationMarker lat lon s7
      else Outcome.ok s7
    else Outcome.ok s7
  else Outcome.error s3

/-- A surface switch. -/
inductive Switch where
  | setNoaaMap
  | resetNoaaMap
  deriving DecidableEq

/-- The function a switch calls. -/
def Switch.run : Switch → State → Outcome
  | Switch.setNoaaMap => MeteoblueMap.setNoaaMap
  | Switch.resetNoaaMap => MeteoblueMap.resetNoaaMap

/-- The surface a switch makes active. -/
def Switch.target : Switch → Surface
  | Switch.setNoaaMap => Surface.noaaMapboxMap
  | Switch.resetNoaaMap => Surface.meteoblueMapboxMap

/-- The state after a sequence of surface switches. Each switch is called from an
event handler of its own (the `load` handler or a menu click), so a switch runs in the
state its predecessor left, also when that one threw. -/
def runSwitches : List Switch → State → State
  | [], s => s
  | sw :: rest, s => runSwitches rest (sw.run s).state

/-- The event `zoomend` of the map `m`, reported once its zoom has settled at `z`:
every handler registered for it on `m` runs. -/
def zoomend (m : Surface) (z : JSNum) (s : State) : State :=
  let s1 := s.modifyMap m (fun ms => { ms with zoom := z })
  Nat.iterate (zoomendHandler m) (s1.getMap m).zoomendListeners s1

/-- The event `moveend` of the map `m`, reported once its center has settled at `c`:
every handler registered for it on `m` runs. -/
def moveend (m : Surface) (c : LngLat) (s : State) : State :=
  let s1 := s.modifyMap m (fun ms => { ms with center := c })
  Nat.iterate (moveendHandler m) (s1.getMap m).moveendListeners s1

/-! ## Page load -/

/-- What the page provides when the script starts. -/
structure PageConfig where
  urlParams : UrlParams
  reactNativeWebView : Bool
  /-- Style of `#map_container` before the script touches it. -/
  mapContainer : ContainerStyle
  /-- Style of `#map_container_noaa` before the script touches it. -/
  mapContainerNoaa : ContainerStyle
  /-- Latitude bounds of the viewport of `meteoblueMapboxMap`. -/
  meteoblueNorth : JSNum
  meteoblueSouth : JSNum
  /-- Latitude bounds of the viewport of `noaaMapboxMap`. -/
  noaaNorth : JSNum
  noaaSouth : JSNum

/-- The top-level statements that compute `defaultCenter` and `defaultZoom` from the
URL parameters. -/
def defaultCamera (params : UrlParams) : LngLat × JSNum :=
  if truthy (paramValue params.lat) && truthy (paramValue params.lon) then
    let lat := parseFloat (paramValue params.lat)
    let lon := parseFloat (paramValue params.lon)
    if !JSNum.isNaN lat && !JSNum.isNaN lon &&
        JSNum.ge lat (JSNum.fin (-90)) && JSNum.le lat (JSNum.fin 90) &&
        JSNum.ge lon (JSNum.fin (-180)) && JSNum.le lon (JSNum.fin 180) then
      ({ lng := lon, lat := lat }, JSNum.fin 10)
    else ({ lng := JSNum.fin (-71.13483215584), lat := JSNum.fin 42.3142475 }, JSNum.fin 8)
  else ({ lng := JSNum.fin (-71.13483215584), lat := JSNum.fin 42.3142475 }, JSNum.fin 8)

/-- The state once the top-level statements of the script have run: the module
variables hold their initial values and both maps have been constructed with
`center: defaultCenter, zoom: defaultZoom`. -/
def init (cfg : PageConfig) : State :=
  { mapboxMap := none
    locationMarker := none
    defaultCenter := (defaultCamera cfg.urlParams).1
    defaultZoom := (defaultCamera cfg.urlParams).2
    meteoblue :=
      { center := (defaultCamera cfg.urlParams).1, zoom := (defaultCamera cfg.urlParams).2,
        north := cfg.meteoblueNorth, south := cfg.meteoblueSouth,
        zoomendListeners := 0, moveendListeners := 0, easeToCalls := [], style := none }
    noaa :=
      { center := (defaultCamera cfg.urlParams).1, zoom := (defaultCamera cfg.urlParams).2,
        north := cfg.noaaNorth, south := cfg.noaaSouth,
        zoomendListeners := 0, moveendListeners := 0, easeToCalls := [],
        style := some "./style_v1.json" }
    mapContainer := cfg.mapContainer
    mapContainerNoaa := cfg.mapContainerNoaa
    markers := []
    nextUid := 0
    reactNativeWebView := cfg.reactNativeWebView
    posted := []
    urlParams := cfg.urlParams
    catchMarkers := []
    catches := []
    speedUnit := some (Json.str "mph")
    temperatureUnit := some (Json.str "F")
    lengthUnit := some (Json.str "imperial")
    mapsPlugin := none
    menuOptions := []
    activeElements := []
    menuOpen := false
    menuToggleDisplay := "none"
    myCatchesActive := false
    loadingShown := false
    fetchCalls := []
    pendingCatchFetches := 0 }

/-- A page opened without query parameters, inside the host shell when
`reactNativeWebView` is set, with a viewport spanning latitudes -10 to 10. -/
def samplePage (reactNativeWebView : Bool) : PageConfig :=
  { urlParams := { userId := none, lat := none, lon := none, env := none }
    reactNativeWebView := reactNativeWebView
    mapContainer := { visibility := "", zIndex := none }
    mapContainerNoaa := { visibility := "", zIndex := none }
    meteoblueNorth := JSNum.fin 10
    meteoblueSouth := JSNum.fin (-10)
    noaaNorth := JSNum.fin 10
    noaaSouth := JSNum.fin (-10) }

/-- The sample page after its `load` handler has called `setNoaaMap()`. -/
def sampleState (reactNativeWebView : Bool) : State :=
  (setNoaaMap (init (samplePage reactNativeWebView))).state

/-! ## Catch markers -/

/-- The function `clearCatchMarkers()`. -/
def clearCatchMarkers (s : State) : State :=
  { s.catchMarkers.foldl (fun st mk => mk.remove st) s with catchMarkers := [] }

/-- The popup built for a record by the callback of `displayCatchMarkers`. -/
def popupContent (item : CatchRecord) : PopupContent :=
  { species := item.species
    date := item.date
    image := if truthy (paramValue item.media) then item.media else none }

/-- One call of the callback that `displayCatchMarkers` passes to `forEach`: the popup
and the marker object are constructed, `setLngLat([item.longitude, item.latitude])`
throws when the SDK rejects the position, `addTo(mapboxMap)` throws when `mapboxMap` is
`undefined`, and only then is the marker pushed onto `catchMarkers`. -/
def addCatchMarker (item : CatchRecord) (s : State) : Outcome :=
  let s1 := { s with nextUid := s.nextUid + 1 }
  if lngLatAccepted item.longitude item.latitude then
    match s1.mapboxMap with
    | none => Outcome.error s1
    | some m =>
      let marker : Marker :=
        { uid := s.nextUid, style := MarkerStyle.catchPin,
          lngLat := { lng := item.longitude, lat := item.latitude }, map := m,
          popup := some (popupContent item) }
      Outcome.ok { s1 with markers := s1.markers ++ [marker],
                           catchMarkers := s1.catchMarkers ++ [marker] }
  else Outcome.error s1

/-- The call `catches.forEach(...)` of `displayCatchMarkers`: the callback runs on the
records in order, and an exception thrown by one call ends the iteration. -/
def forEachCatch : List CatchRecord → State → Outcome
  | [], s => Outcome.ok s
  | item :: rest, s => (addCatchMarker item s).andThen (forEachCatch rest)

/-- The function `displayCatchMarkers(catches)`: the `catch` clause logs an exception
of the `try` block and the function completes normally. -/
def displayCatchMarkers (catches : List CatchRecord) (s : State) : Outcome :=
  Outcome.ok (forEachCatch catches (clearCatchMarkers s)).state

/-- The catch markers attached to a map. -/
def State.attachedCatchMarkers (s : State) : List Marker :=
  s.markers.filter (fun x => decide (x.style = MarkerStyle.catchPin))

/-! ## Menu, catch toggle and preferences -/

/-- The function `closeMenu()`. -/
def closeMenu (s : State) : State :=
  if s.menuOpen then { s with menuOpen := false } else s

/-- The `click` listener of `menuToggle`. -/
def menuToggleClick (s : State) : State :=
  if s.menuOpen then { s with menuOpen := false } else { s with menuOpen := true }

/-- The expression `env?.startsWith("prod") ? ... : env?.startsWith("local") ? ... : ...`
that selects the base URL of the REST API. -/
def baseApi (env : Option String) : String :=
  match env with
  | some e =>
    if "prod".isPrefixOf e then "https://api-v2.log.fish"
    else if "local".isPrefixOf e then "http://localhost:8000"
    else "https://api-dta.log.fish"
  | none => "https://api-dta.log.fish"

/-- The text a template literal writes for a query parameter. -/
def paramText (p : Option String) : String :=
  match p with
  | some v => v
  | none => "null"

/-- The function `loadUserCatches()` up to the point where it awaits
`fetchUserCatches(params.userId)`. -/
def loadUserCatches (s : State) : State :=
  let params := getUrlParams s
  if !truthy (paramValue params.userId) then s
  else
    { s with
      loadingShown := true
      fetchCalls := s.fetchCalls ++ [baseApi params.env ++ "/catch/" ++ paramText params.userId]
      pendingCatchFetches := s.pendingCatchFetches + 1 }

/-- The rest of `loadUserCatches()` once `fetchUserCatches` has settled: `result` is
the array it returned, or `none` when the promise was rejected. -/
def loadUserCatchesSettled (result : Option (List CatchRecord)) (s : State) : State :=
  let s1 := { s with pendingCatchFetches := s.pendingCatchFetches - 1 }
  let s2 := match result with
            | some records => (displayCatchMarkers records { s1 with catches := records }).state
            | none => s1
  { s2 with loadingShown := false }

/-- The `toggleChange` listener of `myCatchesToggle`, for `event.detail.isActive`. -/
def myCatchesToggleChange (isActive : Bool) (s : State) : State :=
  closeMenu (if isActive then loadUserCatches s
             else { clearCatchMarkers s with catches := [] })

/-- The `click` listener of the toggle wrapper: the class `active` is toggled and the
event `toggleChange` is dispatched with the new value. -/
def toggleWrapperClick (s : State) : State :=
  myCatchesToggleChange (!s.myCatchesActive) { s with myCatchesActive := !s.myCatchesActive }

/-- A menu option of the array `maps`. -/
structure MapOption where
  value : String
  label : String
  deriving DecidableEq

/-- The array `maps` (the `icon` markup of each entry is an `svg` element with `path`
elements inside). -/
def maps : List MapOption :=
  [ { value := "noaaMap", label := "NOAA Map" },
    { value := "windAnimation", label := "Wind" },
    { value := "radar", label := "Radar" },
    { value := "cloudsAndPrecipitation", label := "Clouds & Precipitation" },
    { value := "satellite", label := "Satellite" },
    { value := "temperature", label := "Temperature" },
    { value := "waveHeight", label := "Wave Height" },
    { value := "wavePeriod", label := "Wave Period" },
    { value := "salinity", label := "Sea Water Salinity" },
    { value := "seaSurfaceTemperature", label := "Sea Surface Temperature" },
    { value := "oceanCurrents", label := "Ocean Currents" } ]

/-- The function `setupMapMenu()`: the previous children of `mapSelection` are
removed, and a fresh `div.map-selector` is appended for every entry of `maps`, the one
of "noaaMap" with the class `active`. -/
def setupMapMenu (s : State) : State :=
  { s with
    menuOptions := maps.map (fun o => o.value)
    activeElements := (maps.filter (fun o => decide (o.value = "noaaMap"))).map
      (fun o => { option := o.value, part := MenuPart.selector })
    menuToggleDisplay := "flex" }

/-- The property `parentElement` of a menu element below a `div.map-selector`: the
spans lie directly in the `div`, the `svg` in the icon span and a `path` in the `svg`.
(The parent of the `div` itself is never read.) -/
def MenuElement.parentElement (e : MenuElement) : MenuElement :=
  match e.part with
  | MenuPart.selector => e
  | MenuPart.iconSpan => { e with part := MenuPart.selector }
  | MenuPart.labelSpan => { e with part := MenuPart.selector }
  | MenuPart.svg => { e with part := MenuPart.iconSpan }
  | MenuPart.path => { e with part := MenuPart.svg }

/-- The property `id` of a menu element: `setupMapMenu` gives an id to the
`div.map-selector` only, every other element has the empty id. -/
def MenuElement.id (e : MenuElement) : String :=
  match e.part with
  | MenuPart.selector => e.option
  | _ => ""

/-- The expression `classList.contains("map-selector")` of a menu element. -/
def MenuElement.isMapSelector (e : MenuElement) : Bool :=
  decide (e.part = MenuPart.selector)

/-- The method `classList.add("active")` on a menu element. -/
def addActive (e : MenuElement) (s : State) : State :=
  if e ∈ s.activeElements then s else { s with activeElements := s.activeElements ++ [e] }

/-- The value `selectedMapId` that `changeMap` computes for `event.target`. -/
def selectedMapId (target : MenuElement) : String :=
  if target.isMapSelector then target.id else target.parentElement.id

/-- The function `changeMap(event)` for `event.target = target`. Calling
`mapsPlugin.setMap` throws when `mapsPlugin` is `undefined`. -/
def changeMap (target : MenuElement) (s : State) : Outcome :=
  let s1 := { s with activeElements :=
                s.activeElements.filter (fun e => !e.isMapSelector) }
  let s2 := if target.isMapSelector then addActive target s1
            else addActive target.parentElement s1
  let switched :=
    if selectedMapId target = "noaaMap" then setNoaaMap s2
    else
      match s2.mapsPlugin with
      | none => Outcome.error s2
      | some plugin =>
        let called : MapsPlugin :=
          { plugin with setMapCalls := plugin.setMapCalls ++ [selectedMapId target] }
        resetNoaaMap { s2 with mapsPlugin := some called }
  switched.andThen fun s3 =>
    (if s3.catches.length ≠ 0 then displayCatchMarkers s3.catches s3
     else Outcome.ok s3).andThen fun s4 =>
      Outcome.ok (closeMenu s4)

/-- The expression `v === text` for a string `text`. -/
def strictEqualsString (v : Option Json) (text : String) : Bool :=
  match v with
  | some (Json.str t) => decide (t = text)
  | _ => false

/-- The function `getMapsPlugin()`: the plugin is constructed with the inventory URL
that `getInventoryUrl()` builds from the current unit variables. -/
def getMapsPlugin (s : State) : MapsPlugin :=
  { temperatureUnit := s.temperatureUnit
    velocityUnit := s.speedUnit
    lengthUnit := s.lengthUnit
    setMapCalls := [] }

/-- The function `getUserPreferences()` up to the point where it awaits the response
of `fetch`. -/
def getUserPreferences (s : State) : State :=
  let params := getUrlParams s
  { s with fetchCalls := s.fetchCalls ++ [baseApi params.env ++ "/user/" ++ paramText params.userId] }

/-- The rest of `getUserPreferences()` once `response.json()` has produced `data`. -/
def getUserPreferencesSettled (data : Json) (s : State) : State :=
  let s1 :=
    if truthy (some data) then
      let s2 := { s with lengthUnit := data.getProp "unitType" }
      let s3 := { s2 with temperatureUnit := data.getProp "temperatureUnit" }
      if strictEqualsString (data.getProp "speedUnit") "kts" then
        { s3 with speedUnit := some (Json.str "kn") }
      else if strictEqualsString (data.getProp "speedUnit") "kph" then
        { s3 with speedUnit := some (Json.str "km/h") }
      else { s3 with speedUnit := data.getProp "speedUnit" }
    else s
  { s1 with mapsPlugin := some (getMapsPlugin s1) }

/-- The `load` handler of `noaaMapboxMap`. -/
def noaaMapboxMapLoad (s : State) : Outcome :=
  (setNoaaMap (setupMapMenu s)).andThen fun s1 =>
    if truthy (paramValue (getUrlParams s1).userId) then
      Outcome.ok (loadUserCatches { getUserPreferences s1 with myCatchesActive := true })
    else Outcome.ok s1

/-! ## Event sequences -/

/-- An operation on the location marker: a call of `displayLocationMarker`, or a
surface switch. -/
inductive MarkerOp where
  | display (lat lon : JSNum)
  | switch (sw : Switch)

/-- The state an operation on the location marker leaves. -/
def MarkerOp.run : MarkerOp → State → State
  | MarkerOp.display lat lon, s => (displayLocationMarker lat lon s).state
  | MarkerOp.switch sw, s => (sw.run s).state

/-- The state after a sequence of operations on the location marker, each made from
an event handler of its own. -/
def runMarkerOps : List MarkerOp → State → State
  | [], s => s
  | op :: rest, s => runMarkerOps rest (op.run s)

/-- An event of the catch display: a click on the "My Catches" toggle, or the
settling of a pending `fetchUserCatches` call (with the array it returned, or `none`
when it was rejected). -/
inductive CatchEvent where
  | toggleClick
  | fetchSettled (result : Option (List CatchRecord))

/-- The state a catch event leaves. A fetch can settle only while one is pending. -/
def CatchEvent.run : CatchEvent → State → State
  | CatchEvent.toggleClick, s => toggleWrapperClick s
  | CatchEvent.fetchSettled result, s =>
    if s.pendingCatchFetches = 0 then s else loadUserCatchesSettled result s

/-- The state after a sequence of catch events. -/
def runCatchEvents : List CatchEvent → State → State
  | [], s => s
  | ev :: rest, s => runCatchEvents rest (ev.run s)

/-! ## Well-formed states -/

/-- Every location marker attached to a map is the object held by the variable
`locationMarker`. -/
def LocationTracked (s : State) : Prop :=
  ∀ x ∈ s.markers, x.style = MarkerStyle.location →
    ∃ y, s.locationMarker = some y ∧ x.uid = y.uid

/-! ## Auxiliary definitions used in the statements -/

/-- The marker object that `displayLocationMarker(lat, lon)` constructs in state `s`
for the surface `m`. -/
def newLocationMarker (lat lon : JSNum) (s : State) (m : Surface) : Marker :=
  { uid := s.nextUid, style := MarkerStyle.location,
    lngLat := { lng := lon, lat := lat }, map := m }

/-- The latitude `offsetLat` that `movePositionToTopCenter` computes for the target
latitude `lat` and the viewport bounds `north` and `south`. -/
def offsetLat (lat north south : JSNum) : JSNum :=
  JSNum.sub lat (JSNum.mul (JSNum.sub north south) (JSNum.fin 0.4))

/-- The `easeTo` options that `movePositionToTopCenter` computes for the viewport
bounds `north` and `south`. -/
def recenterOptions (lat lng north south : JSNum) : EaseToOptions :=
  { center := { lng := lng, lat := offsetLat lat north south }, duration := 500 }

/-- The state after the statements of `setNoaaMap` that precede the re-display of the
location marker. -/
def setNoaaMapCamera (s : State) : State :=
  { s with
    mapboxMap := some Surface.noaaMapboxMap
    noaa := { s.noaa with
              zoomendListeners := s.noaa.zoomendListeners + 1
              moveendListeners := s.noaa.moveendListeners + 1
              center := s.defaultCenter
              zoom := clampZoom s.defaultZoom
              style := some "./style_v1.json" }
    mapContainer := { visibility := "hidden", zIndex := some (-1) }
    mapContainerNoaa := { visibility := "visible", zIndex := some 10 } }

/-- The state after the statements of `resetNoaaMap` that precede the re-display of
the location marker. -/
def resetNoaaMapCamera (s : State) : State :=
  { s with
    mapboxMap := some Surface.meteoblueMapboxMap
    meteoblue := { s.meteoblue with
                   zoomendListeners := s.meteoblue.zoomendListeners + 1
                   moveendListeners := s.meteoblue.moveendListeners + 1
                   center := s.defaultCenter
                   zoom := clampZoom s.defaultZoom }
    mapContainer := { visibility := "visible", zIndex := some 10 }
    mapContainerNoaa := { visibility := "hidden", zIndex := some (-1) } }

/-- The message `{"type":"moveToLocation","lat":lat,"lng":lng}` after `JSON.parse`. -/
def moveToLocationMessage (lat lng : Json) : Json :=
  Json.obj [("type", Json.str "moveToLocation"), ("lat", lat), ("lng", lng)]

/-- The condition under which `setNoaaMap` and `resetNoaaMap` call
`displayLocationMarker`: both launch parameters `lat` and `lon` are present and
`parseFloat` reads a number from each. -/
def redisplaysMarker (params : UrlParams) : Bool :=
  (truthy (paramValue params.lat) && truthy (paramValue params.lon)) &&
  (!JSNum.isNaN (parseFloat (paramValue params.lat)) &&
    !JSNum.isNaN (parseFloat (paramValue params.lon)))

/-- The state after the statements of a surface switch that precede the re-display of
the location marker. -/
def switchCamera : Switch → State → State
  | Switch.setNoaaMap => setNoaaMapCamera
  | Switch.resetNoaaMap => resetNoaaMapCamera

/-- The sample page opened with the launch parameters `lat` and `lon`. -/
def launchPage (lat lon : String) : PageConfig :=
  { samplePage true with
    urlParams := { userId := none, lat := some lat, lon := some lon, env := none } }

/-- The marker objects that `displayCatchMarkers` constructs for `records` on the
surface `m`, the first one with identity `base`. -/
def catchMarkersFor : List CatchRecord → Nat → Surface → List Marker
  | [], _, _ => []
  | item :: rest, base, m =>
    { uid := base, style := MarkerStyle.catchPin,
      lngLat := { lng := item.longitude, lat := item.latitude }, map := m,
      popup := some (popupContent item) } :: catchMarkersFor rest (base + 1) m

/-- The markers that `clearCatchMarkers` leaves attached: those that are not one of
the objects held by `catchMarkers`. -/
def keptMarkers (s : State) : List Marker :=
  s.markers.filter (fun x => !s.catchMarkers.any (fun mk => mk.uid == x.uid))

/-- The state after the statements of `changeMap` that move the class `active`. -/
def markActive (target : MenuElement) (s : State) : State :=
  if target.isMapSelector then
    addActive target
      { s with activeElements := s.activeElements.filter (fun e => !e.isMapSelector) }
  else
    addActive target.parentElement
      { s with activeElements := s.activeElements.filter (fun e => !e.isMapSelector) }

/-- The plugin object after the call `setMap({ map: id })`. -/
def MapsPlugin.setMap (plugin : MapsPlugin) (id : String) : MapsPlugin :=
  { plugin with setMapCalls := plugin.setMapCalls ++ [id] }

/-- The statements of `changeMap` that follow the surface switch. -/
def afterSwitch (s : State) : Outcome :=
  (if s.catches.length ≠ 0 then displayCatchMarkers s.catches s
   else Outcome.ok s).andThen fun s4 => Outcome.ok (closeMenu s4)

/-- A catch record at the given position. -/
def sampleCatch (latitude longitude : JSNum) : CatchRecord :=
  { id := "1", species := "Striped Bass", date := some "2024-06-01",
    latitude := latitude, longitude := longitude, media := none }

/-- A preference response in metric units with the speed unit "kts". -/
def samplePreferences : Json :=
  Json.obj [("unitType", Json.str "metric"), ("temperatureUnit", Json.str "C"),
            ("speedUnit", Json.str "kts")]

/-- The sample page opened with the query parameter `userId=u1`. -/
def userPage : PageConfig :=
  { samplePage true with
    urlParams := { userId := some "u1", lat := none, lon := none, env := none } }

/-- The page `userPage` once its `load` handler has run and the preference response
has arrived, so that the plugin exists; the catch request of the `load` handler is
still pending. -/
def readyState : State :=
  getUserPreferencesSettled samplePreferences (noaaMapboxMapLoad (init userPage)).state

/-- The state `readyState` once the pending catch request has delivered one record. -/
def catchState : State :=
  loadUserCatchesSettled (some [sampleCatch (JSNum.fin 42) (JSNum.fin (-71))]) readyState

/-- Every catch marker attached to a map is one of the objects held by the variable
`catchMarkers`. -/
def CatchTracked (s : State) : Prop :=
  ∀ x ∈ s.markers, x.style = MarkerStyle.catchPin → ∃ y ∈ s.catchMarkers, x.uid = y.uid

/-- A page without query parameters, inside the host shell, whose two maps are zoomed
out to the whole world: `getBounds()` reports the latitudes -85 to 85. -/
def worldPage : PageConfig :=
  { samplePage true with
    meteoblueNorth := JSNum.fin 85
    meteoblueSouth := JSNum.fin (-85)
    noaaNorth := JSNum.fin 85
    noaaSouth := JSNum.fin (-85) }

/-- The page `worldPage` after its `load` handler has called `setNoaaMap()`. -/
def worldState : State :=
  (setNoaaMap (init worldPage)).state

/-- The page opened with `lat=40&lon=40` after its `load` handler has called
`setNoaaMap()` and the reference surface has reported a click at (10, 30). -/
def launchClickState : State :=
  (clickHandler Surface.noaaMapboxMap (JSNum.fin 10) (JSNum.fin 30)
    (setNoaaMap (init (launchPage "40" "40"))).state).state

/-- The page `userPage` once its `load` handler has run and the catch request has
delivered one record, while the preference response has not arrived yet, so that the
plugin does not exist. -/
def earlyCatchState : State :=
  loadUserCatchesSettled (some [sampleCatch (JSNum.fin 42) (JSNum.fin (-71))])
    (noaaMapboxMapLoad (init userPage)).state

/-! ## Properties of the coordinate validator -/

theorem JSNum.inRange_fin (lo hi q : ℚ) :
    JSNum.InRange lo hi (JSNum.fin q) ↔ lo ≤ q ∧ q ≤ hi := by
  constructor
  · rintro ⟨r, hr, h1, h2⟩
    cases hr
    exact ⟨h1, h2⟩
  · intro h
    exact ⟨q, rfl, h.1, h.2⟩

theorem JSNum.not_inRange_nan (lo hi : ℚ) : ¬ JSNum.InRange lo hi JSNum.nan := by
  rintro ⟨r, hr, -⟩
  cases hr

theorem JSNum.not_inRange_posInf (lo hi : ℚ) : ¬ JSNum.InRange lo hi JSNum.posInf := by
  rintro ⟨r, hr, -⟩
  cases hr

theorem JSNum.not_inRange_negInf (lo hi : ℚ) : ¬ JSNum.InRange lo hi JSNum.negInf := by
  rintro ⟨r, hr, -⟩
  cases hr

theorem areCoordinatesValid_eq_true_iff (lat lng : JSNum) :
    areCoordinatesValid lat lng = true ↔
      JSNum.InRange (-90) 90 lat ∧ JSNum.InRange (-180) 180 lng := by
  cases lat <;> cases lng <;>
    simp [areCoordinatesValid, JSNum.isNaN, JSNum.le, JSNum.ge, JSNum.inRange_fin,
      JSNum.not_inRange_nan, JSNum.not_inRange_posInf, JSNum.not_inRange_negInf, and_assoc]

/-- C1: `areCoordinatesValid` returns true exactly when both coordinates are numbers
other than NaN with latitude in [-90, 90] and longitude in [-180, 180]; it returns
false exactly when a component is NaN or lies outside its range, which includes the
two infinities. -/
theorem areCoordinatesValid_spec (lat lng : JSNum) :
    (areCoordinatesValid lat lng = true ↔
      (lat ≠ JSNum.nan ∧ lng ≠ JSNum.nan ∧
        JSNum.InRange (-90) 90 lat ∧ JSNum.InRange (-180) 180 lng)) ∧
    (areCoordinatesValid lat lng = false ↔
      (lat = JSNum.nan ∨ lng = JSNum.nan ∨
        ¬ JSNum.InRange (-90) 90 lat ∨ ¬ JSNum.InRange (-180) 180 lng)) ∧
    ¬ JSNum.InRange (-90) 90 JSNum.posInf ∧ ¬ JSNum.InRange (-90) 90 JSNum.negInf ∧
    ¬ JSNum.InRange (-180) 180 JSNum.posInf ∧ ¬ JSNum.InRange (-180) 180 JSNum.negInf := by
  have key := areCoordinatesValid_eq_true_iff lat lng
  refine ⟨?_, ?_, JSNum.not_inRange_posInf _ _, JSNum.not_inRange_negInf _ _,
    JSNum.not_inRange_posInf _ _, JSNum.not_inRange_negInf _ _⟩
  · rw [key]
    constructor
    · rintro ⟨h1, h2⟩
      refine ⟨?_, ?_, h1, h2⟩
      · rintro rfl
        exact JSNum.not_inRange_nan _ _ h1
      · rintro rfl
        exact JSNum.not_inRange_nan _ _ h2
    · rintro ⟨-, -, h1, h2⟩
      exact ⟨h1, h2⟩
  · rw [← Bool.not_eq_true, key]
    constructor
    · intro h
      by_cases h1 : JSNum.InRange (-90) 90 lat
      · right; right; right
        exact fun h2 => h ⟨h1, h2⟩
      · right; right; left
        exact h1
    · rintro (rfl | rfl | h | h) ⟨h1, h2⟩
      · exact JSNum.not_inRange_nan _ _ h1
      · exact JSNum.not_inRange_nan _ _ h2
      · exact h h1
      · exact h h2

/-! ## Properties of the location marker -/

@[simp] theorem State.getMap_modifyMap_same (s : State) (m : Surface) (f : MapState → MapState) :
    (s.modifyMap m f).getMap m = f (s.getMap m) := by
  cases m <;> rfl

@[simp] theorem State.modifyMap_markers (s : State) (m : Surface) (f : MapState → MapState) :
    (s.modifyMap m f).markers = s.markers := by
  cases m <;> rfl

@[simp] theorem State.modifyMap_locationMarker (s : State) (m : Surface)
    (f : MapState → MapState) : (s.modifyMap m f).locationMarker = s.locationMarker := by
  cases m <;> rfl

@[simp] theorem State.modifyMap_mapboxMap (s : State) (m : Surface) (f : MapState → MapState) :
    (s.modifyMap m f).mapboxMap = s.mapboxMap := by
  cases m <;> rfl

@[simp] theorem State.modifyMap_posted (s : State) (m : Surface) (f : MapState → MapState) :
    (s.modifyMap m f).posted = s.posted := by
  cases m <;> rfl

@[simp] theorem State.modifyMap_reactNativeWebView (s : State) (m : Surface)
    (f : MapState → MapState) :
    (s.modifyMap m f).reactNativeWebView = s.reactNativeWebView := by
  cases m <;> rfl

@[simp] theorem State.modifyMap_defaultCenter (s : State) (m : Surface)
    (f : MapState → MapState) : (s.modifyMap m f).defaultCenter = s.defaultCenter := by
  cases m <;> rfl

@[simp] theorem State.modifyMap_defaultZoom (s : State) (m : Surface)
    (f : MapState → MapState) : (s.modifyMap m f).defaultZoom = s.defaultZoom := by
  cases m <;> rfl

@[simp] theorem State.modifyMap_urlParams (s : State) (m : Surface)
    (f : MapState → MapState) : (s.modifyMap m f).urlParams = s.urlParams := by
  cases m <;> rfl

@[simp] theorem removeLocationMarker_mapboxMap (s : State) :
    (removeLocationMarker s).mapboxMap = s.mapboxMap := by
  unfold removeLocationMarker
  cases s.locationMarker <;> rfl

@[simp] theorem removeLocationMarker_posted (s : State) :
    (removeLocationMarker s).posted = s.posted := by
  unfold removeLocationMarker
  cases s.locationMarker <;> rfl

@[simp] theorem removeLocationMarker_reactNativeWebView (s : State) :
    (removeLocationMarker s).reactNativeWebView = s.reactNativeWebView := by
  unfold removeLocationMarker
  cases s.locationMarker <;> rfl

@[simp] theorem removeLocationMarker_nextUid (s : State) :
    (removeLocationMarker s).nextUid = s.nextUid := by
  unfold removeLocationMarker
  cases s.locationMarker <;> rfl

@[simp] theorem removeLocationMarker_getMap (s : State) (m : Surface) :
    (removeLocationMarker s).getMap m = s.getMap m := by
  unfold removeLocationMarker
  cases s.locationMarker <;> cases m <;> rfl

@[simp] theorem removeLocationMarker_defaultCenter (s : State) :
    (removeLocationMarker s).defaultCenter = s.defaultCenter := by
  unfold removeLocationMarker
  cases s.locationMarker <;> rfl

@[simp] theorem removeLocationMarker_defaultZoom (s : State) :
    (removeLocationMarker s).defaultZoom = s.defaultZoom := by
  unfold removeLocationMarker
  cases s.locationMarker <;> rfl

/-- In a well-formed state, removing the tracked location marker leaves no location
marker on any map. -/
theorem removeLocationMarker_locationMarkers (s : State) (hwf : LocationTracked s) :
    (removeLocationMarker s).locationMarkers = [] := by
  unfold State.locationMarkers
  rw [List.filter_eq_nil_iff]
  intro x hx hstyle
  have hstyle' : x.style = MarkerStyle.location := by simpa using hstyle
  unfold removeLocationMarker at hx
  cases hloc : s.locationMarker with
  | none =>
    rw [hloc] at hx
    obtain ⟨y, hy, -⟩ := hwf x hx hstyle'
    rw [hloc] at hy
    cases hy
  | some old =>
    rw [hloc] at hx
    simp only [Marker.remove, List.mem_filter] at hx
    obtain ⟨y, hy, hxy⟩ := hwf x hx.1 hstyle'
    rw [hloc] at hy
    cases hy
    simp [hxy] at hx

/-- Only the list of attached markers is touched by `removeLocationMarker`. -/
theorem removeLocationMarker_eq (s : State) :
    removeLocationMarker s = { s with markers := (removeLocationMarker s).markers } := by
  have h : ∀ o : Option Marker,
      (match o with
        | some old => old.remove s
        | none => s) =
      { s with markers := (match o with
                           | some old => old.remove s
                           | none => s).markers } := by
    intro o
    cases o <;> rfl
  exact h s.locationMarker

/-- The state `displayLocationMarker` reaches when a surface is active and the SDK
accepts the position. -/
theorem displayLocationMarker_active (lat lon : JSNum) (s : State) (m : Surface)
    (haccept : lngLatAccepted lon lat = true) (hactive : s.mapboxMap = some m) :
    displayLocationMarker lat lon s =
      Outcome.ok
        { s with
          markers := (removeLocationMarker s).markers ++ [newLocationMarker lat lon s m]
          locationMarker := some (newLocationMarker lat lon s m)
          nextUid := s.nextUid + 1 } := by
  unfold displayLocationMarker newLocationMarker
  simp only [haccept, if_true, removeLocationMarker_mapboxMap, hactive,
    removeLocationMarker_nextUid]
  conv_lhs => rw [removeLocationMarker_eq s]

/-- Whatever `displayLocationMarker` does, it only touches the attached markers, the
variable `locationMarker` and the supply of marker identities. -/
theorem displayLocationMarker_frame (lat lon : JSNum) (s : State) :
    ∃ (ms : List Marker) (lm : Option Marker) (n : Nat) (t : Bool),
      displayLocationMarker lat lon s =
        { state := { s with markers := ms, locationMarker := lm, nextUid := n }, threw := t } := by
  unfold displayLocationMarker
  rw [removeLocationMarker_eq s]
  by_cases haccept : lngLatAccepted lon lat = true
  · cases hactive : s.mapboxMap with
    | none => simp only [haccept, if_true, hactive]; exact ⟨_, _, _, _, rfl⟩
    | some m => simp only [haccept, if_true, hactive]; exact ⟨_, _, _, _, rfl⟩
  · simp only [haccept]
    exact ⟨_, _, _, _, rfl⟩

/-- When `displayLocationMarker` throws, the old location marker has been removed and
none has been attached. -/
theorem displayLocationMarker_threw (lat lon : JSNum) (s : State)
    (hthrew : (displayLocationMarker lat lon s).threw = true) :
    (displayLocationMarker lat lon s).state.markers = (removeLocationMarker s).markers := by
  unfold displayLocationMarker at hthrew ⊢
  by_cases haccept : lngLatAccepted lon lat = true
  · cases hactive : s.mapboxMap with
    | none => simp [haccept, hactive, Outcome.error]
    | some m => simp [haccept, hactive, Outcome.ok] at hthrew
  · simp [haccept, Outcome.error]

/-- After `displayLocationMarker` on an active surface, with a position the SDK
accepts, exactly one location marker is attached, the new one. -/
theorem displayLocationMarker_locationMarkers (lat lon : JSNum) (s : State) (m : Surface)
    (haccept : lngLatAccepted lon lat = true) (hactive : s.mapboxMap = some m)
    (hwf : LocationTracked s) :
    (displayLocationMarker lat lon s).state.locationMarkers = [newLocationMarker lat lon s m] := by
  rw [displayLocationMarker_active lat lon s m haccept hactive]
  have h := removeLocationMarker_locationMarkers s hwf
  unfold State.locationMarkers at h ⊢
  simp [Outcome.ok, List.filter_append, h, newLocationMarker]

/-- `displayLocationMarker` keeps states well formed. -/
theorem displayLocationMarker_tracked (lat lon : JSNum) (s : State)
    (hwf : LocationTracked s) : LocationTracked (displayLocationMarker lat lon s).state := by
  have hnil := removeLocationMarker_locationMarkers s hwf
  unfold State.locationMarkers at hnil
  rw [List.filter_eq_nil_iff] at hnil
  cases hthrew : (displayLocationMarker lat lon s).threw with
  | true =>
    intro x hx hstyle
    rw [displayLocationMarker_threw lat lon s hthrew] at hx
    exact absurd (by simpa using hstyle) (hnil x hx)
  | false =>
    have haccept : lngLatAccepted lon lat = true := by
      by_contra hne
      simp [displayLocationMarker, hne, Outcome.error] at hthrew
    cases hactive : s.mapboxMap with
    | none => simp [displayLocationMarker, haccept, hactive, Outcome.error] at hthrew
    | some m =>
      rw [displayLocationMarker_active lat lon s m haccept hactive]
      intro x hx hstyle
      simp only [Outcome.ok, List.mem_append, List.mem_singleton] at hx
      rcases hx with hx | hx
      · exact absurd (by simpa using hstyle) (hnil x hx)
      · exact ⟨_, rfl, by rw [hx]⟩

/-! ## Properties of the click handlers -/

theorem movePositionToTopCenter_active (lat lng : JSNum) (s : State) (m : Surface)
    (hactive : s.mapboxMap = some m) :
    movePositionToTopCenter lat lng s =
      { state := s.modifyMap m (fun ms =>
          { ms with easeToCalls := ms.easeToCalls ++
              [recenterOptions lat lng (s.getMap m).north (s.getMap m).south] })
        threw := !lngLatAccepted lng (offsetLat lat (s.getMap m).north (s.getMap m).south) } := by
  unfold movePositionToTopCenter recenterOptions offsetLat
  simp only [hactive]
  split_ifs with h <;> simp [Outcome.ok, Outcome.error, h]

theorem clickHandler_same (lat lng : JSNum) (s : State) :
    clickHandler Surface.meteoblueMapboxMap lat lng s =
      clickHandler Surface.noaaMapboxMap lat lng s := rfl

theorem clickHandler_unfold (surface : Surface) (lat lng : JSNum) (s : State) :
    clickHandler surface lat lng s =
      (displayLocationMarker lat lng s).andThen fun s1 =>
        (movePositionToTopCenter lat lng s1).andThen fun s2 =>
          Outcome.ok (sendMessageToApp (stringifyMapClick lat lng) s2) := by
  cases surface <;> rfl

@[simp] theorem sendMessageToApp_getMap (msg : JsonText) (s : State) (m : Surface) :
    (sendMessageToApp msg s).getMap m = s.getMap m := by
  unfold sendMessageToApp
  split_ifs <;> cases m <;> rfl

@[simp] theorem sendMessageToApp_markers (msg : JsonText) (s : State) :
    (sendMessageToApp msg s).markers = s.markers := by
  unfold sendMessageToApp
  split_ifs <;> rfl

theorem sendMessageToApp_posted (msg : JsonText) (s : State) :
    (sendMessageToApp msg s).posted =
      s.posted ++ (if s.reactNativeWebView then [msg] else []) := by
  unfold sendMessageToApp
  split_ifs <;> simp

/-- What a click does to the camera and the host channel once a surface is active, for
a position the SDK accepts: `easeTo` is called on the active map; when the SDK accepts
the center, the handler completes and the message is handed to `sendMessageToApp`;
when it rejects the center, the handler throws and nothing is posted. -/
theorem clickHandler_active_calls (surface m : Surface) (lat lng : JSNum) (s : State)
    (haccept : lngLatAccepted lng lat = true) (hactive : s.mapboxMap = some m) :
    ((clickHandler surface lat lng s).state.getMap m).easeToCalls =
      (s.getMap m).easeToCalls ++
        [recenterOptions lat lng (s.getMap m).north (s.getMap m).south] ∧
    (lngLatAccepted lng (offsetLat lat (s.getMap m).north (s.getMap m).south) = true →
      (clickHandler surface lat lng s).threw = false ∧
      (clickHandler surface lat lng s).state.posted =
        s.posted ++ (if s.reactNativeWebView then [stringifyMapClick lat lng] else [])) ∧
    (lngLatAccepted lng (offsetLat lat (s.getMap m).north (s.getMap m).south) = false →
      (clickHandler surface lat lng s).threw = true ∧
      (clickHandler surface lat lng s).state.posted = s.posted) := by
  rw [clickHandler_unfold, displayLocationMarker_active lat lng s m haccept hactive]
  simp only [Outcome.ok, Outcome.andThen]
  rw [movePositionToTopCenter_active lat lng _ m (by exact hactive)]
  have hmap : ∀ (ms : List Marker) (lm : Option Marker) (n : Nat),
      ({ s with markers := ms, locationMarker := lm, nextUid := n } : State).getMap m =
        s.getMap m := by
    intro ms lm n
    cases m <;> rfl
  simp only [hmap]
  cases hoff : lngLatAccepted lng (offsetLat lat (s.getMap m).north (s.getMap m).south)
  · simp [hmap]
  · simp [hmap, sendMessageToApp_posted]

@[simp] theorem movePositionToTopCenter_markers (lat lng : JSNum) (s : State) :
    (movePositionToTopCenter lat lng s).state.markers = s.markers := by
  unfold movePositionToTopCenter
  cases s.mapboxMap with
  | none => rfl
  | some m =>
    simp only
    split_ifs <;> simp [Outcome.ok, Outcome.error]

/-- A click handler leaves the attached markers as `displayLocationMarker` left
them. -/
theorem clickHandler_markers (surface : Surface) (lat lng : JSNum) (s : State) :
    (clickHandler surface lat lng s).state.markers =
      (displayLocationMarker lat lng s).state.markers := by
  rw [clickHandler_unfold]
  unfold Outcome.andThen
  cases (displayLocationMarker lat lng s).threw with
  | true => rfl
  | false =>
    simp only [Bool.false_eq_true, if_false]
    cases (movePositionToTopCenter lat lng (displayLocationMarker lat lng s).state).threw with
    | true => simp
    | false => simp [Outcome.ok]

/-- A click on an active surface, at a position the SDK accepts, leaves exactly one
location marker, the new one. -/
theorem clickHandler_active_markers (surface m : Surface) (lat lng : JSNum) (s : State)
    (haccept : lngLatAccepted lng lat = true) (hactive : s.mapboxMap = some m)
    (hwf : LocationTracked s) :
    (clickHandler surface lat lng s).state.locationMarkers = [newLocationMarker lat lng s m] := by
  have hloc := displayLocationMarker_locationMarkers lat lng s m haccept hactive hwf
  unfold State.locationMarkers at hloc ⊢
  rw [clickHandler_markers]
  exact hloc

/-- A position that passes `areCoordinatesValid` is accepted by the SDK. -/
theorem lngLatAccepted_of_valid (lat lng : JSNum) (h : areCoordinatesValid lat lng = true) :
    lngLatAccepted lng lat = true := by
  cases lat <;> cases lng <;>
    simp_all [areCoordinatesValid, lngLatAccepted, JSNum.isNaN, JSNum.le, JSNum.ge, JSNum.lt,
      JSNum.gt]

/-- A valid pair of coordinates is a pair of finite numbers. -/
theorem areCoordinatesValid_finite (lat lng : JSNum) (h : areCoordinatesValid lat lng = true) :
    ∃ a b : ℚ, lat = JSNum.fin a ∧ lng = JSNum.fin b := by
  obtain ⟨⟨a, ha, -⟩, ⟨b, hb, -⟩⟩ := (areCoordinatesValid_eq_true_iff lat lng).1 h
  exact ⟨a, b, ha, hb⟩

/-! ## Properties of the surface switches -/

/-- When the SDK accepts `defaultCenter`, the state `setNoaaMap` reaches is
`setNoaaMapCamera` apart from the location marker it re-displays. -/
theorem setNoaaMap_eq (s : State)
    (hcenter : lngLatAccepted s.defaultCenter.lng s.defaultCenter.lat = true) :
    ∃ (ms : List Marker) (lm : Option Marker) (n : Nat) (t : Bool),
      setNoaaMap s =
        { state := { setNoaaMapCamera s with markers := ms, locationMarker := lm, nextUid := n }
          threw := t } := by
  unfold setNoaaMap
  simp only [State.modifyMap, hcenter, if_true]
  split_ifs
  · obtain ⟨ms, lm, n, t, h⟩ := displayLocationMarker_frame
      (parseFloat (paramValue s.urlParams.lat)) (parseFloat (paramValue s.urlParams.lon))
      (setNoaaMapCamera s)
    exact ⟨ms, lm, n, t, h⟩
  · exact ⟨_, _, _, _, rfl⟩
  · exact ⟨_, _, _, _, rfl⟩

/-- When the SDK accepts `defaultCenter`, the state `resetNoaaMap` reaches is
`resetNoaaMapCamera` apart from the location marker it re-displays. -/
theorem resetNoaaMap_eq (s : State)
    (hcenter : lngLatAccepted s.defaultCenter.lng s.defaultCenter.lat = true) :
    ∃ (ms : List Marker) (lm : Option Marker) (n : Nat) (t : Bool),
      resetNoaaMap s =
        { state := { resetNoaaMapCamera s with markers := ms, locationMarker := lm, nextUid := n }
          threw := t } := by
  unfold resetNoaaMap
  simp only [State.modifyMap, hcenter, if_true]
  split_ifs
  · obtain ⟨ms, lm, n, t, h⟩ := displayLocationMarker_frame
      (parseFloat (paramValue s.urlParams.lat)) (parseFloat (paramValue s.urlParams.lon))
      (resetNoaaMapCamera s)
    exact ⟨ms, lm, n, t, h⟩
  · exact ⟨_, _, _, _, rfl⟩
  · exact ⟨_, _, _, _, rfl⟩

/-- Without a `lat` query parameter `setNoaaMap` re-displays nothing. -/
theorem setNoaaMap_no_params (s : State)
    (hcenter : lngLatAccepted s.defaultCenter.lng s.defaultCenter.lat = true)
    (hlat : s.urlParams.lat = none) :
    setNoaaMap s = Outcome.ok (setNoaaMapCamera s) := by
  unfold setNoaaMap
  simp [State.modifyMap, hcenter, getUrlParams, hlat, paramValue, truthy, setNoaaMapCamera]

/-- A zoom between `minZoom` and `maxZoom` is stored as it is. -/
theorem clampZoom_of_inRange (z : JSNum) (h : JSNum.InRange 0 24 z) : clampZoom z = z := by
  obtain ⟨q, rfl, h0, h24⟩ := h
  unfold clampZoom JSNum.max JSNum.min
  have h1 : ¬ q < 0 := not_lt.2 h0
  have h2 : ¬ (24 : ℚ) < q := not_lt.2 h24
  simp [JSNum.isNaN, JSNum.lt, h1, h2]

/-- The center computed at page load is one the SDK accepts. -/
theorem defaultCamera_accepted (params : UrlParams) :
    lngLatAccepted (defaultCamera params).1.lng (defaultCamera params).1.lat = true := by
  have hboston : lngLatAccepted (JSNum.fin (-71.13483215584)) (JSNum.fin 42.3142475) = true := by
    simp only [lngLatAccepted, JSNum.isNaN, JSNum.gt, JSNum.lt]
    norm_num
  unfold defaultCamera
  dsimp only
  split_ifs with h1 h2
  · exact lngLatAccepted_of_valid _ _ h2
  · exact hboston
  · exact hboston

/-- The zoom computed at page load lies between `minZoom` and `maxZoom`. -/
theorem defaultCamera_zoom (params : UrlParams) :
    JSNum.InRange 0 24 (defaultCamera params).2 := by
  unfold defaultCamera
  dsimp only
  split_ifs
  · exact ⟨10, rfl, by norm_num, by norm_num⟩
  · exact ⟨8, rfl, by norm_num, by norm_num⟩
  · exact ⟨8, rfl, by norm_num, by norm_num⟩

/-! ## Sample states -/

theorem sampleState_eq (b : Bool) :
    sampleState b = setNoaaMapCamera (init (samplePage b)) := by
  unfold sampleState
  rw [setNoaaMap_no_params _ (defaultCamera_accepted _) rfl]
  rfl

theorem sampleState_mapboxMap (b : Bool) :
    (sampleState b).mapboxMap = some Surface.noaaMapboxMap := by
  rw [sampleState_eq]
  rfl

theorem sampleState_markers (b : Bool) : (sampleState b).markers = [] := by
  rw [sampleState_eq]
  rfl

theorem sampleState_tracked (b : Bool) : LocationTracked (sampleState b) := by
  intro x hx
  rw [sampleState_markers] at hx
  cases hx

theorem sampleState_reactNativeWebView (b : Bool) :
    (sampleState b).reactNativeWebView = b := by
  rw [sampleState_eq]
  rfl

theorem sampleState_posted (b : Bool) : (sampleState b).posted = [] := by
  rw [sampleState_eq]
  rfl

theorem sampleState_nextUid (b : Bool) : (sampleState b).nextUid = 0 := by
  rw [sampleState_eq]
  rfl

theorem sampleState_noaa_bounds (b : Bool) :
    ((sampleState b).getMap Surface.noaaMapboxMap).north = JSNum.fin 10 ∧
    ((sampleState b).getMap Surface.noaaMapboxMap).south = JSNum.fin (-10) ∧
    ((sampleState b).getMap Surface.noaaMapboxMap).easeToCalls = [] := by
  rw [sampleState_eq]
  exact ⟨rfl, rfl, rfl⟩

theorem init_tracked (cfg : PageConfig) : LocationTracked (init cfg) := by
  intro x hx
  cases hx

/-- In the sample viewport, which spans the latitudes -10 to 10, the offset latitude
is the target latitude minus 8. -/
theorem offsetLat_sample (a : ℚ) :
    offsetLat (JSNum.fin a) (JSNum.fin 10) (JSNum.fin (-10)) = JSNum.fin (a - 8) := by
  simp only [offsetLat, JSNum.sub, JSNum.neg, JSNum.add, JSNum.mul]
  congr 1
  ring

/-! ## Claims about map clicks -/

/-- C3 (as amended): for a click reported by either surface while a surface is
active, at coordinates that pass the validator, the handler leaves exactly one location
marker, positioned at the clicked point on the active surface. When the center it
computes for the recenter is one the SDK accepts, the handler completes and posts
exactly one host message if `window.ReactNativeWebView` exists and none if it does
not. The JSON text of the message decodes to the object with `type` "mapClick" and the
clicked `lat` and `lng`, and the handlers of the two surfaces have the same effects. -/
theorem click_valid_effects (surface m : Surface) (lat lng : JSNum) (s : State)
    (hvalid : areCoordinatesValid lat lng = true) (hactive : s.mapboxMap = some m)
    (hwf : LocationTracked s) :
    (clickHandler surface lat lng s).state.locationMarkers =
      [{ uid := s.nextUid, style := MarkerStyle.location,
         lngLat := { lng := lng, lat := lat }, map := m }] ∧
    (lngLatAccepted lng
        (JSNum.sub lat (JSNum.mul (JSNum.sub (s.getMap m).north (s.getMap m).south)
          (JSNum.fin 0.4))) = true →
      (clickHandler surface lat lng s).threw = false ∧
      (clickHandler surface lat lng s).state.posted =
        s.posted ++ (if s.reactNativeWebView then [stringifyMapClick lat lng] else [])) ∧
    (stringifyMapClick lat lng).decoded =
      Json.obj [("type", Json.str "mapClick"), ("lat", Json.num lat), ("lng", Json.num lng)] ∧
    clickHandler Surface.meteoblueMapboxMap lat lng s =
      clickHandler Surface.noaaMapboxMap lat lng s := by
  have haccept := lngLatAccepted_of_valid lat lng hvalid
  obtain ⟨-, h2, -⟩ := clickHandler_active_calls surface m lat lng s haccept hactive
  obtain ⟨a, b, rfl, rfl⟩ := areCoordinatesValid_finite lat lng hvalid
  exact ⟨clickHandler_active_markers surface m _ _ s haccept hactive hwf, h2, rfl,
    clickHandler_same _ _ s⟩

/-- Witness for C3: a click at (40, -74) on the reference surface of the sample page
inside the host shell. -/
theorem click_valid_effects_witness :
    areCoordinatesValid (JSNum.fin 40) (JSNum.fin (-74)) = true ∧
    (sampleState true).mapboxMap = some Surface.noaaMapboxMap ∧
    (clickHandler Surface.noaaMapboxMap (JSNum.fin 40) (JSNum.fin (-74))
        (sampleState true)).state.locationMarkers =
      [{ uid := (sampleState true).nextUid, style := MarkerStyle.location,
         lngLat := { lng := JSNum.fin (-74), lat := JSNum.fin 40 },
         map := Surface.noaaMapboxMap }] :=
  ⟨by decide, sampleState_mapboxMap true,
    (click_valid_effects Surface.noaaMapboxMap Surface.noaaMapboxMap (JSNum.fin 40)
      (JSNum.fin (-74)) (sampleState true) (by decide) (sampleState_mapboxMap true)
      (sampleState_tracked true)).1⟩

/-- C3 (counterexample): outside the host shell the valid click at (40, -74)
completes and posts no message; before the first surface switch the handler throws and
leaves no location marker. -/
theorem click_without_host_or_active_surface :
    areCoordinatesValid (JSNum.fin 40) (JSNum.fin (-74)) = true ∧
    (clickHandler Surface.noaaMapboxMap (JSNum.fin 40) (JSNum.fin (-74))
        (sampleState false)).threw = false ∧
    (clickHandler Surface.noaaMapboxMap (JSNum.fin 40) (JSNum.fin (-74))
        (sampleState false)).state.posted = [] ∧
    (clickHandler Surface.noaaMapboxMap (JSNum.fin 40) (JSNum.fin (-74))
        (init (samplePage true))).threw = true ∧
    (clickHandler Surface.noaaMapboxMap (JSNum.fin 40) (JSNum.fin (-74))
        (init (samplePage true))).state.locationMarkers = [] := by
  obtain ⟨hn, hs, -⟩ := sampleState_noaa_bounds false
  have hoff : lngLatAccepted (JSNum.fin (-74))
      (offsetLat (JSNum.fin 40) ((sampleState false).getMap Surface.noaaMapboxMap).north
        ((sampleState false).getMap Surface.noaaMapboxMap).south) = true := by
    rw [hn, hs, offsetLat_sample]
    simp only [lngLatAccepted, JSNum.isNaN, JSNum.gt, JSNum.lt]
    norm_num
  obtain ⟨h1, h2⟩ := (clickHandler_active_calls Surface.noaaMapboxMap Surface.noaaMapboxMap
    (JSNum.fin 40) (JSNum.fin (-74)) (sampleState false) (by decide)
    (sampleState_mapboxMap false)).2.1 hoff
  refine ⟨by decide, h1, ?_, ?_, ?_⟩
  · rw [h2, sampleState_posted, sampleState_reactNativeWebView]
    rfl
  · simp [clickHandler, noaaMapboxMapClick, displayLocationMarker, removeLocationMarker, init,
      Outcome.andThen, Outcome.error]
  · simp [clickHandler, noaaMapboxMapClick, displayLocationMarker, removeLocationMarker, init,
      Outcome.andThen, Outcome.error, State.locationMarkers]

/-- C4 (as amended): map clicks are not passed through `areCoordinatesValid`. For
every click reported by either surface while a surface is active, at any position the
SDK can report, also one that fails the validator, the handler replaces the location
marker by one at the clicked point and calls `easeTo` on the active map; when the SDK
accepts the center of that call, the handler completes and hands the `mapClick`
message to `sendMessageToApp`. -/
theorem click_not_validated (surface m : Surface) (lat lng : JSNum) (s : State)
    (hreported : lngLatAccepted lng lat = true) (hactive : s.mapboxMap = some m)
    (hwf : LocationTracked s) :
    (clickHandler surface lat lng s).state.locationMarkers =
      [{ uid := s.nextUid, style := MarkerStyle.location,
         lngLat := { lng := lng, lat := lat }, map := m }] ∧
    ((clickHandler surface lat lng s).state.getMap m).easeToCalls =
      (s.getMap m).easeToCalls ++
        [{ center := { lng := lng,
                       lat := JSNum.sub lat
                         (JSNum.mul (JSNum.sub (s.getMap m).north (s.getMap m).south)
                           (JSNum.fin 0.4)) },
           duration := 500 }] ∧
    (lngLatAccepted lng
        (JSNum.sub lat (JSNum.mul (JSNum.sub (s.getMap m).north (s.getMap m).south)
          (JSNum.fin 0.4))) = true →
      (clickHandler surface lat lng s).threw = false ∧
      (clickHandler surface lat lng s).state.posted =
        s.posted ++ (if s.reactNativeWebView then [stringifyMapClick lat lng] else [])) := by
  obtain ⟨h1, h2, -⟩ := clickHandler_active_calls surface m lat lng s hreported hactive
  exact ⟨clickHandler_active_markers surface m lat lng s hreported hactive hwf, h1, h2⟩

/-- Witness for C4: a click at longitude 200 on the reference surface of the sample
page. -/
theorem click_not_validated_witness :
    lngLatAccepted (JSNum.fin 200) (JSNum.fin 40) = true ∧
    (sampleState true).mapboxMap = some Surface.noaaMapboxMap ∧
    (clickHandler Surface.noaaMapboxMap (JSNum.fin 40) (JSNum.fin 200)
        (sampleState true)).state.locationMarkers =
      [{ uid := (sampleState true).nextUid, style := MarkerStyle.location,
         lngLat := { lng := JSNum.fin 200, lat := JSNum.fin 40 },
         map := Surface.noaaMapboxMap }] :=
  ⟨by decide, sampleState_mapboxMap true,
    (click_not_validated Surface.noaaMapboxMap Surface.noaaMapboxMap (JSNum.fin 40)
      (JSNum.fin 200) (sampleState true) (by decide) (sampleState_mapboxMap true)
      (sampleState_tracked true)).1⟩

/-- C4 (counterexample): a click at (40, 200), whose longitude fails the validator,
still places the location marker there, calls `easeTo` and posts a message. -/
theorem click_invalid_longitude_has_effects :
    areCoordinatesValid (JSNum.fin 40) (JSNum.fin 200) = false ∧
    (sampleState true).locationMarkers = [] ∧
    (clickHandler Surface.noaaMapboxMap (JSNum.fin 40) (JSNum.fin 200)
        (sampleState true)).state.locationMarkers =
      [{ uid := 0, style := MarkerStyle.location,
         lngLat := { lng := JSNum.fin 200, lat := JSNum.fin 40 },
         map := Surface.noaaMapboxMap }] ∧
    ((sampleState true).getMap Surface.noaaMapboxMap).easeToCalls = [] ∧
    ((clickHandler Surface.noaaMapboxMap (JSNum.fin 40) (JSNum.fin 200)
        (sampleState true)).state.getMap Surface.noaaMapboxMap).easeToCalls =
      [{ center := { lng := JSNum.fin 200, lat := JSNum.fin 32 }, duration := 500 }] ∧
    (sampleState true).posted = [] ∧
    (clickHandler Surface.noaaMapboxMap (JSNum.fin 40) (JSNum.fin 200)
        (sampleState true)).state.posted = [stringifyMapClick (JSNum.fin 40) (JSNum.fin 200)] := by
  obtain ⟨hn, hs, he⟩ := sampleState_noaa_bounds true
  obtain ⟨h3, h4, -⟩ := clickHandler_active_calls Surface.noaaMapboxMap Surface.noaaMapboxMap
    (JSNum.fin 40) (JSNum.fin 200) (sampleState true) (by decide) (sampleState_mapboxMap true)
  have h2 := clickHandler_active_markers Surface.noaaMapboxMap Surface.noaaMapboxMap
    (JSNum.fin 40) (JSNum.fin 200) (sampleState true) (by decide) (sampleState_mapboxMap true)
    (sampleState_tracked true)
  have h32 : offsetLat (JSNum.fin 40) (JSNum.fin 10) (JSNum.fin (-10)) = JSNum.fin 32 := by
    rw [offsetLat_sample]
    norm_num
  rw [hn, hs, h32] at h4
  refine ⟨by decide, ?_, ?_, he, ?_, sampleState_posted true, ?_⟩
  · simp [State.locationMarkers, sampleState_markers]
  · rw [h2, newLocationMarker, sampleState_nextUid]
  · rw [h3, hn, hs, he, recenterOptions, h32]
    rfl
  · rw [(h4 (by decide)).2, sampleState_posted, sampleState_reactNativeWebView]
    rfl

/-! ## Claims about inbound messages -/

/-- The `try` block of a message listener leaves the state as it was unless the
payload is a `moveToLocation` whose coerced coordinates pass the validator. -/
theorem messageTryBlock_state_of_invalid (parsed : Option Json) (s : State)
    (h : parsed = none ∨
      (∃ data, parsed = some data ∧ isMoveToLocation (data.getProp "type") = false) ∨
      (∃ data, parsed = some data ∧
        areCoordinatesValid (parseFloat (data.getProp "lat"))
          (parseFloat (data.getProp "lng")) = false)) :
    (messageTryBlock parsed s).state = s := by
  rcases h with rfl | ⟨data, rfl, h⟩ | ⟨data, rfl, h⟩
  · rfl
  · cases data <;> simp_all [messageTryBlock, Outcome.error, Outcome.ok]
  · cases data <;> simp_all [messageTryBlock, Outcome.error, Outcome.ok]

@[simp] theorem movePositionToTopCenter_posted (lat lng : JSNum) (s : State) :
    (movePositionToTopCenter lat lng s).state.posted = s.posted := by
  unfold movePositionToTopCenter
  cases s.mapboxMap with
  | none => rfl
  | some m =>
    simp only
    split_ifs <;> simp [Outcome.ok, Outcome.error]

/-- The effects of a `moveToLocation` message that passes the guard and the validator
while a surface is active: the listener completes with one location marker at the
coerced coordinates and nothing posted to the host. -/
theorem moveToLocation_valid_effects (data : Json) (s : State) (m : Surface)
    (htype : isMoveToLocation (data.getProp "type") = true)
    (hlat : truthy (data.getProp "lat") = true) (hlng : truthy (data.getProp "lng") = true)
    (hvalid : areCoordinatesValid (parseFloat (data.getProp "lat"))
      (parseFloat (data.getProp "lng")) = true)
    (hactive : s.mapboxMap = some m) (hwf : LocationTracked s) :
    (windowMessageListener (some data) s).threw = false ∧
    (windowMessageListener (some data) s).state.locationMarkers =
      [{ uid := s.nextUid, style := MarkerStyle.location,
         lngLat := { lng := parseFloat (data.getProp "lng"),
                     lat := parseFloat (data.getProp "lat") },
         map := m }] ∧
    (windowMessageListener (some data) s).state.posted = s.posted := by
  have haccept := lngLatAccepted_of_valid _ _ hvalid
  have hloc := displayLocationMarker_locationMarkers (parseFloat (data.getProp "lat"))
    (parseFloat (data.getProp "lng")) s m haccept hactive hwf
  have hd := displayLocationMarker_active (parseFloat (data.getProp "lat"))
    (parseFloat (data.getProp "lng")) s m haccept hactive
  have hbody : messageTryBlock (some data) s =
      (displayLocationMarker (parseFloat (data.getProp "lat"))
        (parseFloat (data.getProp "lng")) s).andThen
        (movePositionToTopCenter (parseFloat (data.getProp "lat"))
          (parseFloat (data.getProp "lng"))) := by
    cases data <;> simp_all [messageTryBlock, Json.getProp, isMoveToLocation]
  rw [hd] at hloc
  unfold windowMessageListener
  rw [hbody, hd]
  unfold State.locationMarkers at hloc ⊢
  refine ⟨rfl, ?_, ?_⟩
  · simpa [Outcome.ok, Outcome.andThen] using hloc
  · simp [Outcome.ok, Outcome.andThen]

/-- C2 (evaluation at the failing input): the coordinates (0, 10) and (10, 0) pass the
validator, yet for the messages `{"type":"moveToLocation","lat":0,"lng":10}` and
`{"type":"moveToLocation","lat":10,"lng":0}` both listeners return with the state
untouched, so that the page still has no location marker; the same latitude sent as the
string "0" does place the marker. -/
theorem moveToLocation_number_zero_dropped :
    areCoordinatesValid (parseFloat (some (Json.num (JSNum.fin 0))))
      (parseFloat (some (Json.num (JSNum.fin 10)))) = true ∧
    areCoordinatesValid (parseFloat (some (Json.num (JSNum.fin 10))))
      (parseFloat (some (Json.num (JSNum.fin 0)))) = true ∧
    (windowMessageListener
      (some (moveToLocationMessage (Json.num (JSNum.fin 0)) (Json.num (JSNum.fin 10))))
      (sampleState true)).state.locationMarkers = [] ∧
    (windowMessageListener
      (some (moveToLocationMessage (Json.num (JSNum.fin 10)) (Json.num (JSNum.fin 0))))
      (sampleState true)).state.locationMarkers = [] ∧
    (documentMessageListener
      (some (moveToLocationMessage (Json.num (JSNum.fin 0)) (Json.num (JSNum.fin 10))))
      (sampleState true)).state.locationMarkers = [] ∧
    (windowMessageListener
      (some (moveToLocationMessage (Json.str "0") (Json.num (JSNum.fin 10))))
      (sampleState true)).state.locationMarkers =
      [{ uid := 0, style := MarkerStyle.location,
         lngLat := { lng := JSNum.fin 10, lat := JSNum.fin 0 },
         map := Surface.noaaMapboxMap }] := by
  have hempty : (sampleState true).locationMarkers = [] := by
    simp [State.locationMarkers, sampleState_markers]
  have huid : (sampleState true).nextUid = 0 := sampleState_nextUid true
  have hzero : parseFloat (some (Json.str "0")) = JSNum.fin 0 := by
    simp [parseFloat, parseFloatJson, parseFloatString, strDecimalLiteral,
      strUnsignedDecimalLiteral, digitsValue, exponentFactor, isStrWhiteSpace]
  refine ⟨by decide, by decide, ?_, ?_, ?_, ?_⟩
  · simpa [windowMessageListener, messageTryBlock, moveToLocationMessage, Json.getProp,
      List.lookup, isMoveToLocation, truthy, Outcome.ok] using hempty
  · simpa [windowMessageListener, messageTryBlock, moveToLocationMessage, Json.getProp,
      List.lookup, isMoveToLocation, truthy, Outcome.ok] using hempty
  · simpa [documentMessageListener, messageTryBlock, moveToLocationMessage, Json.getProp,
      List.lookup, isMoveToLocation, truthy, Outcome.ok] using hempty
  · have h := (moveToLocation_valid_effects
      (moveToLocationMessage (Json.str "0") (Json.num (JSNum.fin 10))) (sampleState true)
      Surface.noaaMapboxMap (by decide) (by decide) (by decide)
      (by
        simp only [moveToLocationMessage, Json.getProp, List.lookup]
        rw [show ("lat" == "type") = false by decide, show ("lng" == "type") = false by decide,
          show ("lng" == "lat") = false by decide]
        simp only [show ("lat" == "lat") = true by decide, show ("lng" == "lng") = true by decide]
        rw [hzero]
        decide)
      (sampleState_mapboxMap true) (sampleState_tracked true)).2.1
    rw [h, huid]
    simp only [moveToLocationMessage, Json.getProp, List.lookup]
    rw [show ("lat" == "type") = false by decide, show ("lng" == "type") = false by decide,
      show ("lng" == "lat") = false by decide]
    simp only [show ("lat" == "lat") = true by decide, show ("lng" == "lng") = true by decide]
    rw [hzero]
    rfl

/-- C5: a payload that does not parse as JSON, or whose `type` is not
"moveToLocation", or that is a `moveToLocation` whose coerced coordinates fail
`areCoordinatesValid`, is dropped: each message listener completes normally (no error
escapes) in exactly the state it started from, so the location marker, both cameras
and the messages posted to the host are as they were. -/
theorem invalid_payload_dropped (parsed : Option Json) (s : State)
    (h : parsed = none ∨
      (∃ data, parsed = some data ∧ isMoveToLocation (data.getProp "type") = false) ∨
      (∃ data, parsed = some data ∧ isMoveToLocation (data.getProp "type") = true ∧
        areCoordinatesValid (parseFloat (data.getProp "lat"))
          (parseFloat (data.getProp "lng")) = false)) :
    windowMessageListener parsed s = Outcome.ok s ∧
    documentMessageListener parsed s = Outcome.ok s := by
  have hstate : (messageTryBlock parsed s).state = s := by
    apply messageTryBlock_state_of_invalid
    rcases h with h | h | ⟨data, h1, -, h2⟩
    · exact Or.inl h
    · exact Or.inr (Or.inl h)
    · exact Or.inr (Or.inr ⟨data, h1, h2⟩)
  constructor
  · unfold windowMessageListener
    rw [hstate]
  · unfold documentMessageListener
    rw [hstate]
    simp

/-- Witness for C5: the `moveToLocation` message with latitude "95" reaches the
validator and is dropped. -/
theorem invalid_payload_dropped_witness :
    windowMessageListener
        (some (moveToLocationMessage (Json.str "95") (Json.str "10"))) (sampleState true) =
      Outcome.ok (sampleState true) ∧
    documentMessageListener
        (some (moveToLocationMessage (Json.str "95") (Json.str "10"))) (sampleState true) =
      Outcome.ok (sampleState true) :=
  invalid_payload_dropped
    (some (moveToLocationMessage (Json.str "95") (Json.str "10"))) (sampleState true)
    (Or.inr (Or.inr ⟨moveToLocationMessage (Json.str "95") (Json.str "10"), rfl, by decide, by
      have h95 : parseFloat (some (Json.str "95")) = JSNum.fin 95 := by
        simp [parseFloat, parseFloatJson, parseFloatString, strDecimalLiteral,
          strUnsignedDecimalLiteral, digitsValue, exponentFactor, isStrWhiteSpace]
      have h10 : parseFloat (some (Json.str "10")) = JSNum.fin 10 := by
        simp [parseFloat, parseFloatJson, parseFloatString, strDecimalLiteral,
          strUnsignedDecimalLiteral, digitsValue, exponentFactor, isStrWhiteSpace]
      have hlat : (moveToLocationMessage (Json.str "95") (Json.str "10")).getProp "lat" =
          some (Json.str "95") := by
        simp [moveToLocationMessage, Json.getProp, List.lookup]
      have hlng : (moveToLocationMessage (Json.str "95") (Json.str "10")).getProp "lng" =
          some (Json.str "10") := by
        simp [moveToLocationMessage, Json.getProp, List.lookup]
      rw [hlat, hlng, h95, h10]
      decide⟩))

/-! ## Claims about the camera offset -/

theorem JSNum.mul_swap (x y : JSNum) : JSNum.mul x y = JSNum.mul y x := by
  cases x <;> cases y <;> simp [JSNum.mul, mul_comm]

/-- C6: for every target point and every viewport of the active map, with bounds
`north` and `south`, `movePositionToTopCenter` calls `easeTo` on that map with a center
whose longitude is `lng` itself and whose latitude is `lat - 0.4 * (north - south)`;
for finite values the target then lies 0.4 of the latitude span above the requested
center. -/
theorem movePositionToTopCenter_center (lat lng : JSNum) (s : State) (m : Surface)
    (hactive : s.mapboxMap = some m) :
    ((movePositionToTopCenter lat lng s).state.getMap m).easeToCalls =
      (s.getMap m).easeToCalls ++
        [{ center :=
             { lng := lng,
               lat := JSNum.sub lat
                 (JSNum.mul (JSNum.fin 0.4) (JSNum.sub (s.getMap m).north (s.getMap m).south)) },
           duration := 500 }] ∧
    (∀ a n so : ℚ, lat = JSNum.fin a → (s.getMap m).north = JSNum.fin n →
      (s.getMap m).south = JSNum.fin so →
      ∃ c : ℚ,
        JSNum.sub lat
          (JSNum.mul (JSNum.fin 0.4) (JSNum.sub (s.getMap m).north (s.getMap m).south)) =
            JSNum.fin c ∧
        c = a - 0.4 * (n - so) ∧ a - c = 0.4 * (n - so)) := by
  rw [movePositionToTopCenter_active lat lng s m hactive]
  refine ⟨?_, ?_⟩
  · simp [recenterOptions, offsetLat, JSNum.mul_swap]
  · intro a n so ha hn hso
    refine ⟨a - 0.4 * (n - so), ?_, rfl, by ring⟩
    rw [ha, hn, hso]
    simp only [JSNum.sub, JSNum.neg, JSNum.add, JSNum.mul]
    congr 1
    ring

/-- Witness for C6: the point (40, -74) in the sample viewport, which spans the
latitudes -10 to 10. -/
theorem movePositionToTopCenter_center_witness :
    (sampleState true).mapboxMap = some Surface.noaaMapboxMap ∧
    ((movePositionToTopCenter (JSNum.fin 40) (JSNum.fin (-74)) (sampleState true)).state.getMap
        Surface.noaaMapboxMap).easeToCalls =
      [{ center := { lng := JSNum.fin (-74), lat := JSNum.fin 32 }, duration := 500 }] := by
  refine ⟨sampleState_mapboxMap true, ?_⟩
  rw [(movePositionToTopCenter_center (JSNum.fin 40) (JSNum.fin (-74)) (sampleState true)
    Surface.noaaMapboxMap (sampleState_mapboxMap true)).1]
  obtain ⟨hn, hs, he⟩ := sampleState_noaa_bounds true
  rw [hn, hs, he]
  simp only [JSNum.sub, JSNum.neg, JSNum.add, JSNum.mul, List.nil_append]
  norm_num

/-- The SDK accepts every position whose latitude lies in [-90, 90]. -/
theorem lngLatAccepted_fin (lng lat : ℚ) (h : -90 ≤ lat ∧ lat ≤ 90) :
    lngLatAccepted (JSNum.fin lng) (JSNum.fin lat) = true := by
  have h1 : ¬ (90 : ℚ) < lat := not_lt.2 h.2
  have h2 : ¬ lat < -90 := not_lt.2 h.1
  simp [lngLatAccepted, JSNum.isNaN, JSNum.gt, JSNum.lt, h1, h2]

/-- C7 (as amended): after a click at `(lat, lng)` the handler has called `easeTo` on
the active map with a center at latitude `c = lat - 0.4 * (north - south)`; with
latitude linear over the viewport and the latitude span unchanged by the recenter, the
new north bound lies `0.1 * (north - south)` above the clicked latitude, which
therefore appears 10% of the viewport height below the top edge. -/
theorem click_top_offset (surface m : Surface) (lat lng north south : ℚ) (s : State)
    (hreported : -90 ≤ lat ∧ lat ≤ 90) (hactive : s.mapboxMap = some m)
    (hnorth : (s.getMap m).north = JSNum.fin north)
    (hsouth : (s.getMap m).south = JSNum.fin south) :
    ∃ c : ℚ,
      ((clickHandler surface (JSNum.fin lat) (JSNum.fin lng) s).state.getMap m).easeToCalls =
        (s.getMap m).easeToCalls ++
          [{ center := { lng := JSNum.fin lng, lat := JSNum.fin c }, duration := 500 }] ∧
      ∀ north' south' : ℚ, (north' + south') / 2 = c → north' - south' = north - south →
        north' - lat = 0.1 * (north - south) := by
  refine ⟨lat - (north - south) * 0.4, ?_, ?_⟩
  · rw [(clickHandler_active_calls surface m (JSNum.fin lat) (JSNum.fin lng) s
      (lngLatAccepted_fin lng lat hreported) hactive).1, hnorth, hsouth]
    simp only [recenterOptions, offsetLat, JSNum.sub, JSNum.neg, JSNum.add, JSNum.mul]
    congr 5
    ring
  · intro north' south' hc hspan
    linarith

/-- Witness for C7: a click at (0, 0) in the sample viewport, which spans the
latitudes -10 to 10. -/
theorem click_top_offset_witness :
    ∃ c : ℚ,
      ((clickHandler Surface.noaaMapboxMap (JSNum.fin 0) (JSNum.fin 0)
          (sampleState true)).state.getMap Surface.noaaMapboxMap).easeToCalls =
        ((sampleState true).getMap Surface.noaaMapboxMap).easeToCalls ++
          [{ center := { lng := JSNum.fin 0, lat := JSNum.fin c }, duration := 500 }] ∧
      ∀ north' south' : ℚ, (north' + south') / 2 = c → north' - south' = 10 - (-10) →
        north' - 0 = 0.1 * (10 - (-10)) :=
  click_top_offset Surface.noaaMapboxMap Surface.noaaMapboxMap 0 0 10 (-10) (sampleState true)
    (by norm_num) (sampleState_mapboxMap true) (sampleState_noaa_bounds true).1
    (sampleState_noaa_bounds true).2.1

/-- C7 (counterexample): in the sample viewport, which spans the latitudes -10 to 10,
a click at (0, 0) requests the center latitude -8. The viewport of the same span
centered there has its north bound at 2, so the clicked latitude is 2 below the top
edge, not 0.4 * 20 = 8. -/
theorem click_top_offset_not_forty_percent :
    ((sampleState true).getMap Surface.noaaMapboxMap).north = JSNum.fin 10 ∧
    ((sampleState true).getMap Surface.noaaMapboxMap).south = JSNum.fin (-10) ∧
    ((clickHandler Surface.noaaMapboxMap (JSNum.fin 0) (JSNum.fin 0)
        (sampleState true)).state.getMap Surface.noaaMapboxMap).easeToCalls =
      [{ center := { lng := JSNum.fin 0, lat := JSNum.fin (-8) }, duration := 500 }] ∧
    ((2 : ℚ) + (-18)) / 2 = -8 ∧ (2 : ℚ) - (-18) = 10 - (-10) ∧
    (2 : ℚ) - 0 ≠ 0.4 * (10 - (-10)) := by
  obtain ⟨hn, hs, he⟩ := sampleState_noaa_bounds true
  refine ⟨hn, hs, ?_, by norm_num, by norm_num, by norm_num⟩
  rw [(clickHandler_active_calls Surface.noaaMapboxMap Surface.noaaMapboxMap (JSNum.fin 0)
    (JSNum.fin 0) (sampleState true) (by decide) (sampleState_mapboxMap true)).1, hn, hs, he,
    recenterOptions, offsetLat_sample]
  norm_num

/-! ## Claims about surface switches -/

/-- When the SDK rejects `defaultCenter`, `setNoaaMap` throws right after registering
its handlers. -/
theorem setNoaaMap_rejected (s : State)
    (hcenter : lngLatAccepted s.defaultCenter.lng s.defaultCenter.lat = false) :
    setNoaaMap s =
      Outcome.error
        { s with
          mapboxMap := some Surface.noaaMapboxMap
          noaa := { s.noaa with
                    zoomendListeners := s.noaa.zoomendListeners + 1
                    moveendListeners := s.noaa.moveendListeners + 1 } } := by
  unfold setNoaaMap
  simp [State.modifyMap, hcenter]

/-- When the SDK rejects `defaultCenter`, `resetNoaaMap` throws right after
registering its handlers. -/
theorem resetNoaaMap_rejected (s : State)
    (hcenter : lngLatAccepted s.defaultCenter.lng s.defaultCenter.lat = false) :
    resetNoaaMap s =
      Outcome.error
        { s with
          mapboxMap := some Surface.meteoblueMapboxMap
          meteoblue := { s.meteoblue with
                         zoomendListeners := s.meteoblue.zoomendListeners + 1
                         moveendListeners := s.meteoblue.moveendListeners + 1 } } := by
  unfold resetNoaaMap
  simp [State.modifyMap, hcenter]

/-- What every surface switch does, whether or not it completes: it makes its target
the value of `mapboxMap`, registers one more handler of each kind on the target map and
none on the other map, and leaves `defaultCenter` and `defaultZoom` alone. -/
theorem Switch.run_common (sw : Switch) (s : State) :
    (sw.run s).state.mapboxMap = some sw.target ∧
    (∀ m, ((sw.run s).state.getMap m).moveendListeners =
      (s.getMap m).moveendListeners + (if sw.target = m then 1 else 0)) ∧
    (∀ m, ((sw.run s).state.getMap m).zoomendListeners =
      (s.getMap m).zoomendListeners + (if sw.target = m then 1 else 0)) ∧
    (sw.run s).state.defaultCenter = s.defaultCenter ∧
    (sw.run s).state.defaultZoom = s.defaultZoom := by
  cases hcenter : lngLatAccepted s.defaultCenter.lng s.defaultCenter.lat
  · cases sw
    · simp only [Switch.run, Switch.target]
      rw [setNoaaMap_rejected s hcenter]
      refine ⟨rfl, ?_, ?_, rfl, rfl⟩ <;>
        (intro m; cases m <;> simp [Outcome.error, State.getMap])
    · simp only [Switch.run, Switch.target]
      rw [resetNoaaMap_rejected s hcenter]
      refine ⟨rfl, ?_, ?_, rfl, rfl⟩ <;>
        (intro m; cases m <;> simp [Outcome.error, State.getMap])
  · cases sw
    · obtain ⟨ms, lm, n, t, h⟩ := setNoaaMap_eq s hcenter
      simp only [Switch.run, Switch.target]
      rw [h]
      refine ⟨rfl, ?_, ?_, rfl, rfl⟩ <;>
        (intro m; cases m <;> simp [State.getMap, setNoaaMapCamera])
    · obtain ⟨ms, lm, n, t, h⟩ := resetNoaaMap_eq s hcenter
      simp only [Switch.run, Switch.target]
      rw [h]
      refine ⟨rfl, ?_, ?_, rfl, rfl⟩ <;>
        (intro m; cases m <;> simp [State.getMap, resetNoaaMapCamera])

/-- What a surface switch does to the containers and the camera of its target when the
SDK accepts `defaultCenter`. -/
theorem Switch.run_accepted (sw : Switch) (s : State)
    (hcenter : lngLatAccepted s.defaultCenter.lng s.defaultCenter.lat = true) :
    ((sw.run s).state.mapContainer =
      (if sw.target = Surface.meteoblueMapboxMap
        then { visibility := "visible", zIndex := some 10 }
        else { visibility := "hidden", zIndex := some (-1) })) ∧
    ((sw.run s).state.mapContainerNoaa =
      (if sw.target = Surface.noaaMapboxMap
        then { visibility := "visible", zIndex := some 10 }
        else { visibility := "hidden", zIndex := some (-1) })) ∧
    ((sw.run s).state.getMap sw.target).center = s.defaultCenter ∧
    ((sw.run s).state.getMap sw.target).zoom = clampZoom s.defaultZoom := by
  cases sw
  · obtain ⟨ms, lm, n, t, h⟩ := setNoaaMap_eq s hcenter
    simp only [Switch.run, Switch.target]
    rw [h]
    exact ⟨rfl, rfl, rfl, rfl⟩
  · obtain ⟨ms, lm, n, t, h⟩ := resetNoaaMap_eq s hcenter
    simp only [Switch.run, Switch.target]
    rw [h]
    exact ⟨rfl, rfl, rfl, rfl⟩

/-- C8: for every camera state, that is a center the SDK accepts and a zoom between
`minZoom` and `maxZoom`, `resetNoaaMap()` followed by `setNoaaMap()` with no pan or
zoom event in between leaves `defaultCenter` and `defaultZoom` at the values they had
before the first switch, with the center and zoom of the reference surface equal to
them. -/
theorem switch_twice_restores_camera (s : State)
    (hcenter : lngLatAccepted s.defaultCenter.lng s.defaultCenter.lat = true)
    (hzoom : JSNum.InRange 0 24 s.defaultZoom) :
    (setNoaaMap (resetNoaaMap s).state).state.defaultCenter = s.defaultCenter ∧
    (setNoaaMap (resetNoaaMap s).state).state.defaultZoom = s.defaultZoom ∧
    (setNoaaMap (resetNoaaMap s).state).state.noaa.center = s.defaultCenter ∧
    (setNoaaMap (resetNoaaMap s).state).state.noaa.zoom = s.defaultZoom := by
  obtain ⟨-, -, -, hc1, hz1⟩ := Switch.run_common Switch.resetNoaaMap s
  obtain ⟨-, -, -, hc2, hz2⟩ := Switch.run_common Switch.setNoaaMap (resetNoaaMap s).state
  simp only [Switch.run] at hc1 hz1 hc2 hz2
  have hcenter' : lngLatAccepted (resetNoaaMap s).state.defaultCenter.lng
      (resetNoaaMap s).state.defaultCenter.lat = true := by
    rw [hc1]
    exact hcenter
  obtain ⟨-, -, h3, h4⟩ := Switch.run_accepted Switch.setNoaaMap (resetNoaaMap s).state hcenter'
  simp only [Switch.run, Switch.target, State.getMap] at h3 h4
  refine ⟨hc2.trans hc1, hz2.trans hz1, h3.trans hc1, ?_⟩
  rw [h4, hz1]
  exact clampZoom_of_inRange _ hzoom

/-- Witness for C8: the sample page after its first `setNoaaMap()`. -/
theorem switch_twice_restores_camera_witness :
    (setNoaaMap (resetNoaaMap (sampleState true)).state).state.defaultCenter =
      (sampleState true).defaultCenter ∧
    (setNoaaMap (resetNoaaMap (sampleState true)).state).state.defaultZoom =
      (sampleState true).defaultZoom ∧
    (setNoaaMap (resetNoaaMap (sampleState true)).state).state.noaa.center =
      (sampleState true).defaultCenter ∧
    (setNoaaMap (resetNoaaMap (sampleState true)).state).state.noaa.zoom =
      (sampleState true).defaultZoom :=
  switch_twice_restores_camera (sampleState true)
    (by rw [sampleState_eq]; exact defaultCamera_accepted _)
    (by rw [sampleState_eq]; exact defaultCamera_zoom _)

/-- Surface switches never change `defaultCenter` or `defaultZoom`. -/
theorem runSwitches_camera (ops : List Switch) (s : State) :
    (runSwitches ops s).defaultCenter = s.defaultCenter ∧
    (runSwitches ops s).defaultZoom = s.defaultZoom := by
  induction ops generalizing s with
  | nil => exact ⟨rfl, rfl⟩
  | cons sw rest ih =>
    obtain ⟨-, -, -, hc, hz⟩ := Switch.run_common sw s
    exact ⟨(ih _).1.trans hc, (ih _).2.trans hz⟩

/-- A non-empty sequence of switches ends in the state its last switch leaves, and
that switch starts with the `defaultCenter` of the initial state. -/
theorem runSwitches_last (ops : List Switch) (s : State) (hne : ops ≠ []) :
    ∃ (sw : Switch) (s' : State),
      runSwitches ops s = (sw.run s').state ∧ s'.defaultCenter = s.defaultCenter := by
  induction ops generalizing s with
  | nil => exact absurd rfl hne
  | cons sw rest ih =>
    cases rest with
    | nil => exact ⟨sw, s, rfl, rfl⟩
    | cons sw' rest' =>
      obtain ⟨sw2, s2, h1, h2⟩ := ih (sw.run s).state (by simp)
      exact ⟨sw2, s2, h1, h2.trans (Switch.run_common sw s).2.2.2.1⟩

/-- The handlers registered on a map after a sequence of switches: one more of each
kind for every switch that made the map active. -/
theorem runSwitches_listeners (ops : List Switch) (s : State) (m : Surface) :
    ((runSwitches ops s).getMap m).moveendListeners =
      (s.getMap m).moveendListeners + (ops.filter (fun sw => decide (sw.target = m))).length ∧
    ((runSwitches ops s).getMap m).zoomendListeners =
      (s.getMap m).zoomendListeners + (ops.filter (fun sw => decide (sw.target = m))).length := by
  induction ops generalizing s with
  | nil => simp [runSwitches]
  | cons sw rest ih =>
    obtain ⟨-, hm, hz, -, -⟩ := Switch.run_common sw s
    simp only [runSwitches]
    rw [(ih _).1, (ih _).2, hm m, hz m]
    by_cases h : sw.target = m
    · simp [List.filter_cons, h]
      omega
    · simp [List.filter_cons, h]

/-- C9: after every non-empty sequence of surface switches, run from any state whose
`defaultCenter` the SDK accepts, exactly one container is visible with z-index 10 while
the other is hidden with z-index -1; the visible container is the one of the map that
`mapboxMap` refers to. -/
theorem containers_follow_active_surface (ops : List Switch) (s : State) (hne : ops ≠ [])
    (hcenter : lngLatAccepted s.defaultCenter.lng s.defaultCenter.lat = true) :
    ((runSwitches ops s).mapboxMap = some Surface.noaaMapboxMap ∧
        (runSwitches ops s).mapContainerNoaa = { visibility := "visible", zIndex := some 10 } ∧
        (runSwitches ops s).mapContainer = { visibility := "hidden", zIndex := some (-1) }) ∨
    ((runSwitches ops s).mapboxMap = some Surface.meteoblueMapboxMap ∧
        (runSwitches ops s).mapContainer = { visibility := "visible", zIndex := some 10 } ∧
        (runSwitches ops s).mapContainerNoaa = { visibility := "hidden", zIndex := some (-1) }) := by
  obtain ⟨sw, s', h, hsame⟩ := runSwitches_last ops s hne
  have hcenter' : lngLatAccepted s'.defaultCenter.lng s'.defaultCenter.lat = true := by
    rw [hsame]
    exact hcenter
  obtain ⟨h2, h3, -, -⟩ := Switch.run_accepted sw s' hcenter'
  have h1 := (Switch.run_common sw s').1
  rw [h, h1, h2, h3]
  cases sw
  · left
    simp [Switch.target]
  · right
    simp [Switch.target]

/-- Witness for C9: the switches made by selecting a plugin overlay and then the
reference map again, after the initial `setNoaaMap()`. -/
theorem containers_follow_active_surface_witness :
    ((runSwitches [Switch.setNoaaMap, Switch.resetNoaaMap, Switch.setNoaaMap]
          (init (samplePage true))).mapboxMap = some Surface.noaaMapboxMap ∧
        (runSwitches [Switch.setNoaaMap, Switch.resetNoaaMap, Switch.setNoaaMap]
          (init (samplePage true))).mapContainerNoaa =
          { visibility := "visible", zIndex := some 10 } ∧
        (runSwitches [Switch.setNoaaMap, Switch.resetNoaaMap, Switch.setNoaaMap]
          (init (samplePage true))).mapContainer =
          { visibility := "hidden", zIndex := some (-1) }) ∨
    ((runSwitches [Switch.setNoaaMap, Switch.resetNoaaMap, Switch.setNoaaMap]
          (init (samplePage true))).mapboxMap = some Surface.meteoblueMapboxMap ∧
        (runSwitches [Switch.setNoaaMap, Switch.resetNoaaMap, Switch.setNoaaMap]
          (init (samplePage true))).mapContainer =
          { visibility := "visible", zIndex := some 10 } ∧
        (runSwitches [Switch.setNoaaMap, Switch.resetNoaaMap, Switch.setNoaaMap]
          (init (samplePage true))).mapContainerNoaa =
          { visibility := "hidden", zIndex := some (-1) }) :=
  containers_follow_active_surface [Switch.setNoaaMap, Switch.resetNoaaMap, Switch.setNoaaMap]
    (init (samplePage true)) (by decide) (defaultCamera_accepted _)

/-! ## Claims about camera events -/

theorem iterate_idempotent (f : State → State) (hf : ∀ s, f (f s) = f s) (n : Nat) (s : State) :
    Nat.iterate f (n + 1) s = f s := by
  induction n generalizing s with
  | zero => rfl
  | succ k ih =>
    rw [Function.iterate_succ_apply, ih, hf]

/-- The effect of a `moveend` event on the shared camera state: with no handler
registered on the map nothing changes; otherwise `defaultCenter` becomes the center the
map reports. -/
theorem moveend_spec (m : Surface) (c : LngLat) (s : State) :
    (moveend m c s).defaultZoom = s.defaultZoom ∧
    ((s.getMap m).moveendListeners = 0 → (moveend m c s).defaultCenter = s.defaultCenter) ∧
    ((s.getMap m).moveendListeners ≠ 0 → (moveend m c s).defaultCenter = c) := by
  unfold moveend
  simp only [State.getMap_modifyMap_same]
  cases hn : (s.getMap m).moveendListeners with
  | zero => simp
  | succ k =>
    rw [iterate_idempotent (moveendHandler m) (fun t => by cases m <;> rfl)]
    simp [moveendHandler]

/-- The effect of a `zoomend` event on the shared camera state: with no handler
registered on the map nothing changes; otherwise `defaultZoom` becomes the zoom the map
reports. -/
theorem zoomend_spec (m : Surface) (z : JSNum) (s : State) :
    (zoomend m z s).defaultCenter = s.defaultCenter ∧
    ((s.getMap m).zoomendListeners = 0 → (zoomend m z s).defaultZoom = s.defaultZoom) ∧
    ((s.getMap m).zoomendListeners ≠ 0 → (zoomend m z s).defaultZoom = z) := by
  unfold zoomend
  simp only [State.getMap_modifyMap_same]
  cases hn : (s.getMap m).zoomendListeners with
  | zero => simp
  | succ k =>
    rw [iterate_idempotent (zoomendHandler m) (fun t => by cases m <;> rfl)]
    simp [zoomendHandler]

/-- C10 (as amended): in every state reached from page load by a sequence of
surface switches, a pan-end or zoom-end event reported by the inactive surface leaves
`defaultCenter` and `defaultZoom` unchanged when that surface has never been made
active; when it has been active before, its handlers are still registered, and the
event stores the center, respectively the zoom, of the inactive surface in
`defaultCenter`, respectively `defaultZoom`. -/
theorem inactive_surface_events (cfg : PageConfig) (ops : List Switch) (m : Surface)
    (c : LngLat) (z : JSNum) (hinactive : (runSwitches ops (init cfg)).mapboxMap ≠ some m) :
    (m ∉ ops.map Switch.target →
      (moveend m c (runSwitches ops (init cfg))).defaultCenter =
        (runSwitches ops (init cfg)).defaultCenter ∧
      (moveend m c (runSwitches ops (init cfg))).defaultZoom =
        (runSwitches ops (init cfg)).defaultZoom ∧
      (zoomend m z (runSwitches ops (init cfg))).defaultCenter =
        (runSwitches ops (init cfg)).defaultCenter ∧
      (zoomend m z (runSwitches ops (init cfg))).defaultZoom =
        (runSwitches ops (init cfg)).defaultZoom) ∧
    (m ∈ ops.map Switch.target →
      (moveend m c (runSwitches ops (init cfg))).defaultCenter = c ∧
      (moveend m c (runSwitches ops (init cfg))).defaultZoom =
        (runSwitches ops (init cfg)).defaultZoom ∧
      (zoomend m z (runSwitches ops (init cfg))).defaultCenter =
        (runSwitches ops (init cfg)).defaultCenter ∧
      (zoomend m z (runSwitches ops (init cfg))).defaultZoom = z) := by
  obtain ⟨hmove, hzoom⟩ := runSwitches_listeners ops (init cfg) m
  have hinit : ((init cfg).getMap m).moveendListeners = 0 ∧
      ((init cfg).getMap m).zoomendListeners = 0 := by
    cases m <;> exact ⟨rfl, rfl⟩
  rw [hinit.1, Nat.zero_add] at hmove
  rw [hinit.2, Nat.zero_add] at hzoom
  obtain ⟨hm1, hm2, hm3⟩ := moveend_spec m c (runSwitches ops (init cfg))
  obtain ⟨hz1, hz2, hz3⟩ := zoomend_spec m z (runSwitches ops (init cfg))
  constructor
  · intro hnot
    have hlen : (ops.filter (fun sw => decide (sw.target = m))).length = 0 := by
      rw [List.length_eq_zero, List.filter_eq_nil_iff]
      intro sw hsw htarget
      exact hnot (List.mem_map.2 ⟨sw, hsw, by simpa using htarget⟩)
    exact ⟨hm2 (by rw [hmove, hlen]), hm1, hz1, hz2 (by rw [hzoom, hlen])⟩
  · intro hmem
    obtain ⟨sw, hsw, htarget⟩ := List.mem_map.1 hmem
    have hlen : (ops.filter (fun sw => decide (sw.target = m))).length ≠ 0 := by
      rw [Ne, List.length_eq_zero, List.filter_eq_nil_iff]
      intro hall
      exact hall sw hsw (by simpa using htarget)
    exact ⟨hm3 (by rw [hmove]; exact hlen), hm1, hz1, hz3 (by rw [hzoom]; exact hlen)⟩

/-- Witness for C10: after the initial `setNoaaMap()` the plugin surface is inactive
and has never been active. -/
theorem inactive_surface_events_witness :
    (runSwitches [Switch.setNoaaMap] (init (samplePage true))).mapboxMap ≠
      some Surface.meteoblueMapboxMap ∧
    (moveend Surface.meteoblueMapboxMap { lng := JSNum.fin 0, lat := JSNum.fin 0 }
        (runSwitches [Switch.setNoaaMap] (init (samplePage true)))).defaultCenter =
      (runSwitches [Switch.setNoaaMap] (init (samplePage true))).defaultCenter := by
  have hinactive : (runSwitches [Switch.setNoaaMap] (init (samplePage true))).mapboxMap ≠
      some Surface.meteoblueMapboxMap := by
    show (Switch.setNoaaMap.run (init (samplePage true))).state.mapboxMap ≠ _
    rw [(Switch.run_common Switch.setNoaaMap _).1]
    decide
  exact ⟨hinactive,
    ((inactive_surface_events (samplePage true) [Switch.setNoaaMap] Surface.meteoblueMapboxMap
      { lng := JSNum.fin 0, lat := JSNum.fin 0 } (JSNum.fin 3) hinactive).1 (by decide)).1⟩

/-- C10 (counterexample): after `setNoaaMap()` and `resetNoaaMap()` the reference
surface is inactive, yet a pan-end event it reports at center (0, 0) replaces
`defaultCenter`, and a zoom-end event it reports at zoom 3 replaces `defaultZoom`. -/
theorem inactive_surface_event_updates_camera :
    (runSwitches [Switch.setNoaaMap, Switch.resetNoaaMap]
        (init (samplePage true))).mapboxMap = some Surface.meteoblueMapboxMap ∧
    (runSwitches [Switch.setNoaaMap, Switch.resetNoaaMap]
        (init (samplePage true))).defaultCenter =
      { lng := JSNum.fin (-71.13483215584), lat := JSNum.fin 42.3142475 } ∧
    (runSwitches [Switch.setNoaaMap, Switch.resetNoaaMap]
        (init (samplePage true))).defaultZoom = JSNum.fin 8 ∧
    (moveend Surface.noaaMapboxMap { lng := JSNum.fin 0, lat := JSNum.fin 0 }
        (runSwitches [Switch.setNoaaMap, Switch.resetNoaaMap]
          (init (samplePage true)))).defaultCenter =
      { lng := JSNum.fin 0, lat := JSNum.fin 0 } ∧
    (zoomend Surface.noaaMapboxMap (JSNum.fin 3)
        (runSwitches [Switch.setNoaaMap, Switch.resetNoaaMap]
          (init (samplePage true)))).defaultZoom = JSNum.fin 3 ∧
    ({ lng := JSNum.fin 0, lat := JSNum.fin 0 } : LngLat) ≠
      { lng := JSNum.fin (-71.13483215584), lat := JSNum.fin 42.3142475 } ∧
    JSNum.fin 3 ≠ JSNum.fin 8 := by
  obtain ⟨hc, hz⟩ := runSwitches_camera [Switch.setNoaaMap, Switch.resetNoaaMap]
    (init (samplePage true))
  obtain ⟨hmove, hzoom⟩ := runSwitches_listeners [Switch.setNoaaMap, Switch.resetNoaaMap]
    (init (samplePage true)) Surface.noaaMapboxMap
  refine ⟨?_, ?_, ?_, ?_, ?_, ?_, ?_⟩
  · exact (Switch.run_common Switch.resetNoaaMap _).1
  · rw [hc]
    simp [init, defaultCamera, samplePage, paramValue, truthy]
  · rw [hz]
    simp [init, defaultCamera, samplePage, paramValue, truthy]
  · apply (moveend_spec _ _ _).2.2
    rw [hmove]
    decide
  · apply (zoomend_spec _ _ _).2.2
    rw [hzoom]
    decide
  · intro h
    have h2 := congrArg LngLat.lng h
    simp only [JSNum.fin.injEq] at h2
    norm_num at h2
  · intro h
    simp only [JSNum.fin.injEq] at h
    norm_num at h

/-! ## Claims about the location marker across surface switches -/

/-- Well-formedness only depends on the attached markers and on `locationMarker`. -/
theorem LocationTracked.congr (s t : State) (hwf : LocationTracked s)
    (hm : t.markers = s.markers) (hl : t.locationMarker = s.locationMarker) :
    LocationTracked t := by
  intro x hx hstyle
  rw [hm] at hx
  rw [hl]
  exact hwf x hx hstyle

/-- With launch parameters that read as numbers, a switch whose `setCenter` succeeds
ends with the call `displayLocationMarker(lat, lon)` on the launch parameters. -/
theorem Switch.run_redisplay (sw : Switch) (s : State)
    (hcenter : lngLatAccepted s.defaultCenter.lng s.defaultCenter.lat = true)
    (hre : redisplaysMarker s.urlParams = true) :
    sw.run s =
      displayLocationMarker (parseFloat (paramValue s.urlParams.lat))
        (parseFloat (paramValue s.urlParams.lon)) (switchCamera sw s) := by
  simp only [redisplaysMarker, Bool.and_eq_true] at hre
  cases sw
  · simp only [Switch.run, MeteoblueMap.setNoaaMap, State.modifyMap, hcenter, if_true, getUrlParams]
    simp [hre.1.1, hre.1.2, hre.2.1, hre.2.2, switchCamera, setNoaaMapCamera]
  · simp only [Switch.run, MeteoblueMap.resetNoaaMap, State.modifyMap, hcenter, if_true, getUrlParams]
    simp [hre.1.1, hre.1.2, hre.2.1, hre.2.2, switchCamera, resetNoaaMapCamera]

/-- Without launch parameters that read as numbers, a switch whose `setCenter`
succeeds completes without touching the location marker. -/
theorem Switch.run_keep (sw : Switch) (s : State)
    (hcenter : lngLatAccepted s.defaultCenter.lng s.defaultCenter.lat = true)
    (hre : redisplaysMarker s.urlParams = false) :
    sw.run s = Outcome.ok (switchCamera sw s) := by
  cases sw
  · simp only [Switch.run, MeteoblueMap.setNoaaMap, State.modifyMap, hcenter, if_true, getUrlParams]
    split_ifs with h1 h2
    · simp [redisplaysMarker, h1, h2] at hre
    · rfl
    · rfl
  · simp only [Switch.run, MeteoblueMap.resetNoaaMap, State.modifyMap, hcenter, if_true, getUrlParams]
    split_ifs with h1 h2
    · simp [redisplaysMarker, h1, h2] at hre
    · rfl
    · rfl

theorem switchCamera_markers (sw : Switch) (s : State) :
    (switchCamera sw s).markers = s.markers ∧
    (switchCamera sw s).locationMarker = s.locationMarker ∧
    (switchCamera sw s).nextUid = s.nextUid ∧
    (switchCamera sw s).mapboxMap = some sw.target := by
  cases sw <;> exact ⟨rfl, rfl, rfl, rfl⟩

/-- Every surface switch keeps states well formed. -/
theorem Switch.run_tracked (sw : Switch) (s : State) (hwf : LocationTracked s) :
    LocationTracked (sw.run s).state := by
  cases hcenter : lngLatAccepted s.defaultCenter.lng s.defaultCenter.lat
  · cases sw
    · rw [Switch.run, MeteoblueMap.setNoaaMap_rejected s hcenter]
      exact LocationTracked.congr s _ hwf rfl rfl
    · rw [Switch.run, MeteoblueMap.resetNoaaMap_rejected s hcenter]
      exact LocationTracked.congr s _ hwf rfl rfl
  · have hcam : LocationTracked (switchCamera sw s) :=
      LocationTracked.congr s _ hwf (switchCamera_markers sw s).1 (switchCamera_markers sw s).2.1
    cases hre : redisplaysMarker s.urlParams
    · rw [Switch.run_keep sw s hcenter hre]
      exact hcam
    · rw [Switch.run_redisplay sw s hcenter hre]
      exact displayLocationMarker_tracked _ _ _ hcam

/-- C11 (as amended): a surface switch re-displays the location marker from the
launch parameters only. When `lat` and `lon` are both present and read as a point that
passes the validator, entering either surface ends with exactly one location marker,
positioned at the launch-parameter point and attached to the newly active surface,
wherever the most recent location event had placed it. When a launch parameter is
absent or does not read as a number, the switch leaves the attached markers and
`locationMarker` as they were: the marker of the most recent location event stays at
its point on the surface it was attached to. -/
theorem switch_redisplays_launch_point (sw : Switch) (s : State)
    (hcenter : lngLatAccepted s.defaultCenter.lng s.defaultCenter.lat = true)
    (hwf : LocationTracked s) :
    (redisplaysMarker s.urlParams = true →
      areCoordinatesValid (parseFloat (paramValue s.urlParams.lat))
        (parseFloat (paramValue s.urlParams.lon)) = true →
      (sw.run s).state.locationMarkers =
        [{ uid := s.nextUid, style := MarkerStyle.location,
           lngLat := { lng := parseFloat (paramValue s.urlParams.lon),
                       lat := parseFloat (paramValue s.urlParams.lat) },
           map := sw.target }]) ∧
    (redisplaysMarker s.urlParams = false →
      (sw.run s).state.mapboxMap = some sw.target ∧
      (sw.run s).state.markers = s.markers ∧
      (sw.run s).state.locationMarker = s.locationMarker) := by
  obtain ⟨hm, hl, hn, ha⟩ := switchCamera_markers sw s
  constructor
  · intro hre hvalid
    rw [Switch.run_redisplay sw s hcenter hre,
      displayLocationMarker_locationMarkers _ _ _ sw.target
        (lngLatAccepted_of_valid _ _ hvalid) ha
        (LocationTracked.congr s _ hwf hm hl), newLocationMarker, hn]
  · intro hre
    rw [Switch.run_keep sw s hcenter hre]
    exact ⟨ha, hm, hl⟩

theorem movePositionToTopCenter_frame (lat lng : JSNum) (s : State) :
    ∃ (mb no : MapState),
      (movePositionToTopCenter lat lng s).state = { s with meteoblue := mb, noaa := no } := by
  rcases Option.eq_none_or_eq_some s.mapboxMap with hactive | ⟨m, hactive⟩
  · have h : movePositionToTopCenter lat lng s = Outcome.error s := by
      unfold movePositionToTopCenter
      rw [hactive]
    rw [h]
    exact ⟨s.meteoblue, s.noaa, rfl⟩
  · rw [movePositionToTopCenter_active lat lng s m hactive]
    cases m <;> exact ⟨_, _, rfl⟩

theorem sendMessageToApp_frame (msg : JsonText) (s : State) :
    ∃ p : List JsonText, sendMessageToApp msg s = { s with posted := p } := by
  unfold sendMessageToApp
  split_ifs
  · exact ⟨_, rfl⟩
  · exact ⟨_, rfl⟩

/-- A click handler only touches the markers, the two map objects and the messages
posted to the host. -/
theorem clickHandler_frame (surface : Surface) (lat lng : JSNum) (s : State) :
    ∃ (ms : List Marker) (lm : Option Marker) (n : Nat) (mb no : MapState)
      (p : List JsonText),
      (clickHandler surface lat lng s).state =
        { s with markers := ms, locationMarker := lm, nextUid := n, meteoblue := mb,
                 noaa := no, posted := p } := by
  rw [clickHandler_unfold]
  obtain ⟨ms, lm, n, t, hd⟩ := displayLocationMarker_frame lat lng s
  rw [hd]
  unfold Outcome.andThen
  cases t
  · simp only [Bool.false_eq_true, if_false]
    obtain ⟨mb, no, hmv⟩ := movePositionToTopCenter_frame lat lng
      { s with markers := ms, locationMarker := lm, nextUid := n }
    cases hthrew : (movePositionToTopCenter lat lng
        { s with markers := ms, locationMarker := lm, nextUid := n }).threw
    · simp only [Bool.false_eq_true, if_false, Outcome.ok]
      rw [hmv]
      obtain ⟨p, hp⟩ := sendMessageToApp_frame (stringifyMapClick lat lng)
        { s with markers := ms, locationMarker := lm, nextUid := n, meteoblue := mb, noaa := no }
      exact ⟨ms, lm, n, mb, no, p, hp⟩
    · simp only [if_true]
      rw [hmv]
      exact ⟨ms, lm, n, mb, no, s.posted, rfl⟩
  · simp only [if_true]
    exact ⟨ms, lm, n, s.meteoblue, s.noaa, s.posted, rfl⟩

/-- The state after a click at (40, -74) on the reference surface of the sample
page. -/
theorem sampleClick_facts :
    redisplaysMarker (clickHandler Surface.noaaMapboxMap (JSNum.fin 40) (JSNum.fin (-74))
      (sampleState true)).state.urlParams = false ∧
    lngLatAccepted
      (clickHandler Surface.noaaMapboxMap (JSNum.fin 40) (JSNum.fin (-74))
        (sampleState true)).state.defaultCenter.lng
      (clickHandler Surface.noaaMapboxMap (JSNum.fin 40) (JSNum.fin (-74))
        (sampleState true)).state.defaultCenter.lat = true ∧
    (clickHandler Surface.noaaMapboxMap (JSNum.fin 40) (JSNum.fin (-74))
      (sampleState true)).state.locationMarkers =
      [{ uid := 0, style := MarkerStyle.location,
         lngLat := { lng := JSNum.fin (-74), lat := JSNum.fin 40 },
         map := Surface.noaaMapboxMap }] := by
  have hloc := clickHandler_active_markers Surface.noaaMapboxMap Surface.noaaMapboxMap
    (JSNum.fin 40) (JSNum.fin (-74)) (sampleState true) (by decide) (sampleState_mapboxMap true)
    (sampleState_tracked true)
  rw [newLocationMarker, sampleState_nextUid] at hloc
  obtain ⟨ms, lm, n, mb, no, p, h⟩ := clickHandler_frame Surface.noaaMapboxMap (JSNum.fin 40)
    (JSNum.fin (-74)) (sampleState true)
  refine ⟨?_, ?_, hloc⟩
  · rw [h, sampleState_eq]
    rfl
  · rw [h, sampleState_eq]
    exact defaultCamera_accepted _

/-- A click handler keeps states well formed. -/
theorem clickHandler_tracked (surface : Surface) (lat lng : JSNum) (s : State)
    (hwf : LocationTracked s) : LocationTracked (clickHandler surface lat lng s).state := by
  have hd := displayLocationMarker_tracked lat lng s hwf
  obtain ⟨mb, no, hmv⟩ := movePositionToTopCenter_frame lat lng
    (displayLocationMarker lat lng s).state
  have hmvt : LocationTracked
      (movePositionToTopCenter lat lng (displayLocationMarker lat lng s).state).state := by
    rw [hmv]
    exact LocationTracked.congr _ _ hd rfl rfl
  obtain ⟨p, hp⟩ := sendMessageToApp_frame (stringifyMapClick lat lng)
    (movePositionToTopCenter lat lng (displayLocationMarker lat lng s).state).state
  rw [clickHandler_unfold]
  unfold Outcome.andThen
  dsimp only
  split_ifs
  · exact hd
  · exact hmvt
  · simp only [Outcome.ok]
    rw [hp]
    exact LocationTracked.congr _ _ hmvt rfl rfl

/-- C11 (counterexample): on the sample page a click at the valid point (40, -74)
places the location marker there on the reference surface; after `resetNoaaMap()` the
plugin surface is the active one, and the only location marker is still that marker on
the reference surface. -/
theorem switch_leaves_marker_on_old_surface :
    areCoordinatesValid (JSNum.fin 40) (JSNum.fin (-74)) = true ∧
    (clickHandler Surface.noaaMapboxMap (JSNum.fin 40) (JSNum.fin (-74))
      (sampleState true)).state.locationMarkers =
      [{ uid := 0, style := MarkerStyle.location,
         lngLat := { lng := JSNum.fin (-74), lat := JSNum.fin 40 },
         map := Surface.noaaMapboxMap }] ∧
    (resetNoaaMap (clickHandler Surface.noaaMapboxMap (JSNum.fin 40) (JSNum.fin (-74))
      (sampleState true)).state).state.mapboxMap = some Surface.meteoblueMapboxMap ∧
    (resetNoaaMap (clickHandler Surface.noaaMapboxMap (JSNum.fin 40) (JSNum.fin (-74))
      (sampleState true)).state).state.locationMarkers =
      [{ uid := 0, style := MarkerStyle.location,
         lngLat := { lng := JSNum.fin (-74), lat := JSNum.fin 40 },
         map := Surface.noaaMapboxMap }] := by
  obtain ⟨hre, hc, hloc⟩ := sampleClick_facts
  have hkeep := Switch.run_keep Switch.resetNoaaMap _ hc hre
  simp only [Switch.run] at hkeep
  refine ⟨by decide, hloc, ?_, ?_⟩
  · rw [hkeep]
    rfl
  · rw [hkeep]
    exact hloc

theorem runMarkerOps_append (ops : List MarkerOp) (op : MarkerOp) (s : State) :
    runMarkerOps (ops ++ [op]) s = op.run (runMarkerOps ops s) := by
  induction ops generalizing s with
  | nil => rfl
  | cons o rest ih => exact ih (o.run s)

/-- Calls of `displayLocationMarker` and surface switches keep states well formed. -/
theorem runMarkerOps_tracked (ops : List MarkerOp) (s : State) (hwf : LocationTracked s) :
    LocationTracked (runMarkerOps ops s) := by
  induction ops generalizing s with
  | nil => exact hwf
  | cons o rest ih =>
    apply ih
    cases o with
    | display lat lon => exact displayLocationMarker_tracked lat lon s hwf
    | switch sw => exact Switch.run_tracked sw s hwf

/-- C12 (as amended): for every sequence of `displayLocationMarker` calls and surface
switches that starts in a well-formed state and ends with a call
`displayLocationMarker(lat, lon)`, made while a surface is active and at a position the
SDK accepts, exactly one
location marker is attached to a map afterwards: every earlier one has been removed,
and the remaining one is at the point of the last call, on the surface that was active
at that call. -/
theorem last_display_wins (ops : List MarkerOp) (lat lon : JSNum) (s : State) (m : Surface)
    (hwf : LocationTracked s) (hactive : (runMarkerOps ops s).mapboxMap = some m)
    (haccept : lngLatAccepted lon lat = true) :
    (runMarkerOps (ops ++ [MarkerOp.display lat lon]) s).locationMarkers =
      [{ uid := (runMarkerOps ops s).nextUid, style := MarkerStyle.location,
         lngLat := { lng := lon, lat := lat }, map := m }] := by
  rw [runMarkerOps_append]
  exact displayLocationMarker_locationMarkers lat lon _ m haccept hactive
    (runMarkerOps_tracked ops s hwf)

/-- Witness for C12: on the sample page, a marker at (40, -74), a switch to the plugin
surface and a marker at (10, 20). -/
theorem last_display_wins_witness :
    (runMarkerOps [MarkerOp.display (JSNum.fin 40) (JSNum.fin (-74)),
        MarkerOp.switch Switch.resetNoaaMap] (sampleState true)).mapboxMap =
      some Surface.meteoblueMapboxMap ∧
    (runMarkerOps ([MarkerOp.display (JSNum.fin 40) (JSNum.fin (-74)),
        MarkerOp.switch Switch.resetNoaaMap] ++ [MarkerOp.display (JSNum.fin 10) (JSNum.fin 20)])
        (sampleState true)).locationMarkers =
      [{ uid := (runMarkerOps [MarkerOp.display (JSNum.fin 40) (JSNum.fin (-74)),
           MarkerOp.switch Switch.resetNoaaMap] (sampleState true)).nextUid,
         style := MarkerStyle.location,
         lngLat := { lng := JSNum.fin 20, lat := JSNum.fin 10 },
         map := Surface.meteoblueMapboxMap }] := by
  have hactive : (runMarkerOps [MarkerOp.display (JSNum.fin 40) (JSNum.fin (-74)),
      MarkerOp.switch Switch.resetNoaaMap] (sampleState true)).mapboxMap =
      some Surface.meteoblueMapboxMap :=
    (Switch.run_common Switch.resetNoaaMap _).1
  exact ⟨hactive,
    last_display_wins _ (JSNum.fin 10) (JSNum.fin 20) (sampleState true)
      Surface.meteoblueMapboxMap (sampleState_tracked true) hactive (by decide)⟩

/-- C12 (counterexample): on the sample page, after the call
`displayLocationMarker(40, -74)` has attached a marker, the call
`displayLocationMarker(95, 10)` removes that marker and throws in `setLngLat`, so that
no location marker is attached afterwards; and a call made before the first surface
switch, while `mapboxMap` is still `undefined`, throws in `addTo` and attaches none. -/
theorem last_display_rejected_leaves_no_marker :
    (runMarkerOps [MarkerOp.display (JSNum.fin 40) (JSNum.fin (-74))]
      (sampleState true)).locationMarkers =
      [{ uid := 0, style := MarkerStyle.location,
         lngLat := { lng := JSNum.fin (-74), lat := JSNum.fin 40 },
         map := Surface.noaaMapboxMap }] ∧
    (displayLocationMarker (JSNum.fin 95) (JSNum.fin 10)
      (runMarkerOps [MarkerOp.display (JSNum.fin 40) (JSNum.fin (-74))]
        (sampleState true))).threw = true ∧
    (runMarkerOps [MarkerOp.display (JSNum.fin 40) (JSNum.fin (-74)),
        MarkerOp.display (JSNum.fin 95) (JSNum.fin 10)] (sampleState true)).locationMarkers =
      [] ∧
    (init (samplePage true)).mapboxMap = none ∧
    (displayLocationMarker (JSNum.fin 40) (JSNum.fin (-74)) (init (samplePage true))).threw =
      true ∧
    (runMarkerOps [MarkerOp.display (JSNum.fin 40) (JSNum.fin (-74))]
      (init (samplePage true))).locationMarkers = [] := by
  have h1 : (runMarkerOps [MarkerOp.display (JSNum.fin 40) (JSNum.fin (-74))]
      (sampleState true)) =
      (displayLocationMarker (JSNum.fin 40) (JSNum.fin (-74)) (sampleState true)).state := rfl
  have hd := displayLocationMarker_active (JSNum.fin 40) (JSNum.fin (-74)) (sampleState true)
    Surface.noaaMapboxMap (by decide) (sampleState_mapboxMap true)
  have hloc := displayLocationMarker_locationMarkers (JSNum.fin 40) (JSNum.fin (-74))
    (sampleState true) Surface.noaaMapboxMap (by decide) (sampleState_mapboxMap true)
    (sampleState_tracked true)
  have hwf := displayLocationMarker_tracked (JSNum.fin 40) (JSNum.fin (-74)) (sampleState true)
    (sampleState_tracked true)
  have hthrew : (displayLocationMarker (JSNum.fin 95) (JSNum.fin 10)
      (displayLocationMarker (JSNum.fin 40) (JSNum.fin (-74)) (sampleState true)).state).threw =
      true := by
    have hreject : lngLatAccepted (JSNum.fin 10) (JSNum.fin 95) = false := by decide
    unfold displayLocationMarker
    simp [hreject, Outcome.error]
  have hnone := removeLocationMarker_locationMarkers _ hwf
  refine ⟨?_, ?_, ?_, rfl, ?_, ?_⟩
  · rw [h1, hloc, newLocationMarker, sampleState_nextUid]
  · rw [h1]
    exact hthrew
  · show (displayLocationMarker (JSNum.fin 95) (JSNum.fin 10)
      (displayLocationMarker (JSNum.fin 40) (JSNum.fin (-74))
        (sampleState true)).state).state.locationMarkers = []
    unfold State.locationMarkers at hnone ⊢
    rw [displayLocationMarker_threw _ _ _ hthrew]
    exact hnone
  · simp [displayLocationMarker, removeLocationMarker, init, Outcome.error]
  · show (displayLocationMarker (JSNum.fin 40) (JSNum.fin (-74))
      (init (samplePage true))).state.locationMarkers = []
    simp [displayLocationMarker, removeLocationMarker, init, Outcome.error,
      State.locationMarkers]

/-! ## Claims about the launch parameters -/

theorem parseFloat_param_40 : parseFloat (paramValue (some "40")) = JSNum.fin 40 := by
  simp [paramValue, parseFloat, parseFloatJson, parseFloatString, strDecimalLiteral,
    strUnsignedDecimalLiteral, digitsValue, exponentFactor, isStrWhiteSpace]

theorem parseFloat_param_200 : parseFloat (paramValue (some "200")) = JSNum.fin 200 := by
  simp [paramValue, parseFloat, parseFloatJson, parseFloatString, strDecimalLiteral,
    strUnsignedDecimalLiteral, digitsValue, exponentFactor, isStrWhiteSpace]

/-- The launch parameters `lat=40&lon=200` fail the check at page load, and the camera
keeps its default. -/
theorem launchPage_defaultCamera :
    defaultCamera (launchPage "40" "200").urlParams =
      ({ lng := JSNum.fin (-71.13483215584), lat := JSNum.fin 42.3142475 }, JSNum.fin 8) := by
  unfold defaultCamera
  simp only [launchPage, parseFloat_param_40, parseFloat_param_200]
  rfl

/-- C18 (evaluation at the failing input): the launch parameters `lat=40&lon=200`
fail the validator and are not used for the initial camera center, yet the first
`setNoaaMap()` places a location marker at (40, 200) on the reference surface, and a
later `resetNoaaMap()` places one there on the plugin surface. -/
theorem launch_longitude_out_of_range_is_displayed :
    areCoordinatesValid (parseFloat (paramValue (launchPage "40" "200").urlParams.lat))
      (parseFloat (paramValue (launchPage "40" "200").urlParams.lon)) = false ∧
    (init (launchPage "40" "200")).defaultCenter =
      { lng := JSNum.fin (-71.13483215584), lat := JSNum.fin 42.3142475 } ∧
    (init (launchPage "40" "200")).locationMarkers = [] ∧
    (setNoaaMap (init (launchPage "40" "200"))).state.locationMarkers =
      [{ uid := 0, style := MarkerStyle.location,
         lngLat := { lng := JSNum.fin 200, lat := JSNum.fin 40 },
         map := Surface.noaaMapboxMap }] ∧
    (resetNoaaMap (setNoaaMap (init (launchPage "40" "200"))).state).state.locationMarkers =
      [{ uid := 1, style := MarkerStyle.location,
         lngLat := { lng := JSNum.fin 200, lat := JSNum.fin 40 },
         map := Surface.meteoblueMapboxMap }] := by
  have hlat : parseFloat (paramValue (launchPage "40" "200").urlParams.lat) = JSNum.fin 40 :=
    parseFloat_param_40
  have hlon : parseFloat (paramValue (launchPage "40" "200").urlParams.lon) = JSNum.fin 200 :=
    parseFloat_param_200
  have hc0 : lngLatAccepted (init (launchPage "40" "200")).defaultCenter.lng
      (init (launchPage "40" "200")).defaultCenter.lat = true := defaultCamera_accepted _
  have hre0 : redisplaysMarker (init (launchPage "40" "200")).urlParams = true := by
    show redisplaysMarker (launchPage "40" "200").urlParams = true
    unfold redisplaysMarker
    rw [hlat, hlon]
    rfl
  have h1 := Switch.run_redisplay Switch.setNoaaMap _ hc0 hre0
  have hloc1 := displayLocationMarker_locationMarkers (JSNum.fin 40) (JSNum.fin 200)
    (switchCamera Switch.setNoaaMap (init (launchPage "40" "200"))) Surface.noaaMapboxMap
    (by decide) rfl
    (LocationTracked.congr (init (launchPage "40" "200")) _
      (init_tracked (launchPage "40" "200")) rfl rfl)
  simp only [Switch.run] at h1
  have hurl : (init (launchPage "40" "200")).urlParams = (launchPage "40" "200").urlParams := rfl
  rw [hurl, hlat, hlon] at h1
  have htracked1 : LocationTracked (setNoaaMap (init (launchPage "40" "200"))).state :=
    Switch.run_tracked Switch.setNoaaMap _ (init_tracked _)
  obtain ⟨-, -, -, hc1, -⟩ := Switch.run_common Switch.setNoaaMap (init (launchPage "40" "200"))
  simp only [Switch.run] at hc1
  obtain ⟨ms, lm, n, t, hframe⟩ := displayLocationMarker_frame (JSNum.fin 40) (JSNum.fin 200)
    (switchCamera Switch.setNoaaMap (init (launchPage "40" "200")))
  have hact1 := displayLocationMarker_active (JSNum.fin 40) (JSNum.fin 200)
    (switchCamera Switch.setNoaaMap (init (launchPage "40" "200"))) Surface.noaaMapboxMap
    (by decide) rfl
  have hc1' : lngLatAccepted (setNoaaMap (init (launchPage "40" "200"))).state.defaultCenter.lng
      (setNoaaMap (init (launchPage "40" "200"))).state.defaultCenter.lat = true := by
    rw [hc1]
    exact hc0
  have hurl1 : (setNoaaMap (init (launchPage "40" "200"))).state.urlParams =
      (launchPage "40" "200").urlParams := by
    rw [h1, hact1]
    rfl
  have hre1 : redisplaysMarker (setNoaaMap (init (launchPage "40" "200"))).state.urlParams =
      true := by
    rw [hurl1]
    exact hre0
  have hnext : (setNoaaMap (init (launchPage "40" "200"))).state.nextUid = 1 := by
    rw [h1, hact1]
    rfl
  have h2 := Switch.run_redisplay Switch.resetNoaaMap _ hc1' hre1
  simp only [Switch.run] at h2
  rw [hurl1, hlat, hlon] at h2
  have hloc2 := displayLocationMarker_locationMarkers (JSNum.fin 40) (JSNum.fin 200)
    (switchCamera Switch.resetNoaaMap (setNoaaMap (init (launchPage "40" "200"))).state)
    Surface.meteoblueMapboxMap (by decide) rfl
    (LocationTracked.congr (setNoaaMap (init (launchPage "40" "200"))).state _ htracked1 rfl rfl)
  refine ⟨?_, ?_, ?_, ?_, ?_⟩
  · rw [hlat, hlon]
    decide
  · show (defaultCamera (launchPage "40" "200").urlParams).1 = _
    rw [launchPage_defaultCamera]
  · rfl
  · rw [h1, hloc1]
    rfl
  · rw [h2, hloc2, newLocationMarker]
    show _ = _
    congr 2

/-! ## Properties of the catch markers -/

theorem catchMarkersFor_length (records : List CatchRecord) (base : Nat) (m : Surface) :
    (catchMarkersFor records base m).length = records.length := by
  induction records generalizing base with
  | nil => rfl
  | cons item rest ih => simp [catchMarkersFor, ih]

theorem catchMarkersFor_positions (records : List CatchRecord) (base : Nat) (m : Surface) :
    (catchMarkersFor records base m).map (fun mk => (mk.lngLat, mk.map)) =
      records.map (fun r => (({ lng := r.longitude, lat := r.latitude } : LngLat), m)) := by
  induction records generalizing base with
  | nil => rfl
  | cons item rest ih => simp [catchMarkersFor, ih]

theorem catchMarkersFor_uid (records : List CatchRecord) (base : Nat) (m : Surface) :
    ∀ x ∈ catchMarkersFor records base m, base ≤ x.uid ∧ x.style = MarkerStyle.catchPin := by
  induction records generalizing base with
  | nil => intro x hx; cases hx
  | cons item rest ih =>
    intro x hx
    simp only [catchMarkersFor, List.mem_cons] at hx
    rcases hx with rfl | hx
    · exact ⟨le_refl _, rfl⟩
    · exact ⟨by have := (ih (base + 1) x hx).1; omega, (ih (base + 1) x hx).2⟩

theorem catchMarkersFor_cons (item : CatchRecord) (rest : List CatchRecord) (base : Nat)
    (m : Surface) :
    catchMarkersFor (item :: rest) base m =
      { uid := base, style := MarkerStyle.catchPin,
        lngLat := { lng := item.longitude, lat := item.latitude }, map := m,
        popup := some (popupContent item) } :: catchMarkersFor rest (base + 1) m := rfl

theorem catchMarkersFor_append (pre post : List CatchRecord) (base : Nat) (m : Surface) :
    catchMarkersFor (pre ++ post) base m =
      catchMarkersFor pre base m ++ catchMarkersFor post (base + pre.length) m := by
  induction pre generalizing base with
  | nil => simp [catchMarkersFor]
  | cons item rest ih =>
    have h : base + 1 + rest.length = base + (rest.length + 1) := by omega
    rw [List.cons_append, catchMarkersFor_cons, catchMarkersFor_cons, ih, List.length_cons, h,
      List.cons_append]

/-- The callback of `displayCatchMarkers` on a record the SDK accepts, while a surface
is active. -/
theorem addCatchMarker_accepted (item : CatchRecord) (s : State) (m : Surface)
    (haccept : lngLatAccepted item.longitude item.latitude = true)
    (hactive : s.mapboxMap = some m) :
    addCatchMarker item s =
      Outcome.ok
        { s with
          markers := s.markers ++ catchMarkersFor [item] s.nextUid m
          catchMarkers := s.catchMarkers ++ catchMarkersFor [item] s.nextUid m
          nextUid := s.nextUid + 1 } := by
  unfold addCatchMarker
  simp [haccept, hactive, catchMarkersFor]

/-- The callback of `displayCatchMarkers` on a record the SDK rejects. -/
theorem addCatchMarker_rejected (item : CatchRecord) (s : State)
    (hreject : lngLatAccepted item.longitude item.latitude = false) :
    addCatchMarker item s = Outcome.error { s with nextUid := s.nextUid + 1 } := by
  unfold addCatchMarker
  simp [hreject]

theorem forEachCatch_cons (item : CatchRecord) (rest : List CatchRecord) (s : State) :
    forEachCatch (item :: rest) s = (addCatchMarker item s).andThen (forEachCatch rest) := rfl

/-- The iteration over records that the SDK accepts, while a surface is active,
attaches and tracks one marker per record. -/
theorem forEachCatch_accepted (records : List CatchRecord) (s : State) (m : Surface)
    (hwell : ∀ r ∈ records, lngLatAccepted r.longitude r.latitude = true)
    (hactive : s.mapboxMap = some m) :
    forEachCatch records s =
      Outcome.ok
        { s with
          markers := s.markers ++ catchMarkersFor records s.nextUid m
          catchMarkers := s.catchMarkers ++ catchMarkersFor records s.nextUid m
          nextUid := s.nextUid + records.length } := by
  induction records generalizing s with
  | nil => simp [forEachCatch, catchMarkersFor, Outcome.ok]
  | cons item rest ih =>
    have h1 := addCatchMarker_accepted item s m (hwell item (List.mem_cons_self _ _)) hactive
    rw [forEachCatch_cons, h1]
    simp only [Outcome.andThen, Outcome.ok, Bool.false_eq_true, if_false]
    rw [ih _ (fun r hr => hwell r (List.mem_cons_of_mem _ hr)) (by exact hactive)]
    have h : s.nextUid + 1 + rest.length = s.nextUid + (rest.length + 1) := by omega
    simp only [Outcome.ok, catchMarkersFor, List.append_assoc, List.singleton_append,
      List.length_cons, List.nil_append, h]

/-- The iteration stops at the first record the SDK rejects: the records before it
have their markers, the rejected one and those after it have none. -/
theorem forEachCatch_rejected (pre post : List CatchRecord) (bad : CatchRecord) (s : State)
    (m : Surface) (hwell : ∀ r ∈ pre, lngLatAccepted r.longitude r.latitude = true)
    (hreject : lngLatAccepted bad.longitude bad.latitude = false)
    (hactive : s.mapboxMap = some m) :
    forEachCatch (pre ++ bad :: post) s =
      Outcome.error
        { s with
          markers := s.markers ++ catchMarkersFor pre s.nextUid m
          catchMarkers := s.catchMarkers ++ catchMarkersFor pre s.nextUid m
          nextUid := s.nextUid + pre.length + 1 } := by
  induction pre generalizing s with
  | nil =>
    rw [List.nil_append, forEachCatch_cons, addCatchMarker_rejected bad s hreject]
    simp only [Outcome.andThen, Outcome.error, if_true, catchMarkersFor, List.append_nil,
      List.length_nil, Nat.add_zero]
  | cons item rest ih =>
    have h1 := addCatchMarker_accepted item s m (hwell item (List.mem_cons_self _ _)) hactive
    rw [List.cons_append, forEachCatch_cons, h1]
    simp only [Outcome.andThen, Outcome.ok, Bool.false_eq_true, if_false]
    rw [ih _ (fun r hr => hwell r (List.mem_cons_of_mem _ hr)) (by exact hactive)]
    have h : s.nextUid + 1 + rest.length + 1 = s.nextUid + (rest.length + 1) + 1 := by omega
    simp only [Outcome.error, catchMarkersFor, List.append_assoc, List.singleton_append,
      List.length_cons, List.nil_append, h]

/-- The markers a fold of `remove` calls leaves attached. -/
theorem foldl_remove (l : List Marker) (s : State) :
    l.foldl (fun st mk => mk.remove st) s =
      { s with markers := s.markers.filter (fun x => !l.any (fun mk => mk.uid == x.uid)) } := by
  induction l generalizing s with
  | nil => simp
  | cons mk rest ih =>
    have key : List.filter (fun x => !rest.any (fun mk' => mk'.uid == x.uid))
        (List.filter (fun x => x.uid != mk.uid) s.markers) =
        List.filter (fun x => !(mk :: rest).any (fun mk' => mk'.uid == x.uid)) s.markers := by
      rw [List.filter_filter]
      apply List.filter_congr
      intro x _
      by_cases h : mk.uid = x.uid
      · simp [h]
      · have h' : ¬ x.uid = mk.uid := fun e => h e.symm
        have h1 : (mk.uid == x.uid) = false := by simpa using h
        have h2 : (x.uid != mk.uid) = true := by simpa using h'
        simp [h1, h2]
    rw [List.foldl_cons, ih]
    exact congrArg (fun ms => ({ s with markers := ms } : State)) key

/-- The state `clearCatchMarkers` reaches. -/
theorem clearCatchMarkers_eq (s : State) :
    clearCatchMarkers s =
      { s with
        markers := s.markers.filter (fun x => !s.catchMarkers.any (fun mk => mk.uid == x.uid))
        catchMarkers := [] } := by
  unfold clearCatchMarkers
  rw [foldl_remove]

/-- The state `displayCatchMarkers` reaches for records the SDK accepts, while a
surface is active. -/
theorem displayCatchMarkers_accepted (records : List CatchRecord) (s : State) (m : Surface)
    (hwell : ∀ r ∈ records, lngLatAccepted r.longitude r.latitude = true)
    (hactive : s.mapboxMap = some m) :
    displayCatchMarkers records s =
      Outcome.ok
        { s with
          markers := keptMarkers s ++ catchMarkersFor records s.nextUid m
          catchMarkers := catchMarkersFor records s.nextUid m
          nextUid := s.nextUid + records.length } := by
  unfold displayCatchMarkers
  rw [clearCatchMarkers_eq, forEachCatch_accepted records _ m hwell (by exact hactive)]
  simp [Outcome.ok, keptMarkers]

/-- The state `displayCatchMarkers` reaches when the first record the SDK rejects
comes after the records `pre`, while a surface is active. -/
theorem displayCatchMarkers_rejected (pre post : List CatchRecord) (bad : CatchRecord)
    (s : State) (m : Surface)
    (hwell : ∀ r ∈ pre, lngLatAccepted r.longitude r.latitude = true)
    (hreject : lngLatAccepted bad.longitude bad.latitude = false)
    (hactive : s.mapboxMap = some m) :
    displayCatchMarkers (pre ++ bad :: post) s =
      Outcome.ok
        { s with
          markers := keptMarkers s ++ catchMarkersFor pre s.nextUid m
          catchMarkers := catchMarkersFor pre s.nextUid m
          nextUid := s.nextUid + pre.length + 1 } := by
  unfold displayCatchMarkers
  rw [clearCatchMarkers_eq,
    forEachCatch_rejected pre post bad _ m hwell hreject (by exact hactive)]
  simp [Outcome.ok, Outcome.error, keptMarkers]

theorem keptMarkers_uid (s : State) :
    ∀ old ∈ s.catchMarkers, ∀ x ∈ keptMarkers s, x.uid ≠ old.uid := by
  intro old hold x hx
  simp only [keptMarkers, List.mem_filter, Bool.not_eq_true', List.any_eq_false, beq_iff_eq] at hx
  exact fun e => hx.2 old hold e.symm

/-- C13: for every list of well-formed catch records (records whose position the SDK
accepts) and every prior marker state, `displayCatchMarkers(records)` called while a
surface is active completes normally, leaves none of the previously tracked catch
markers attached, and leaves `catchMarkers` holding exactly `records.length` markers,
the i-th one positioned at `(records[i].latitude, records[i].longitude)`, each of them
attached to the active surface. -/
theorem displayCatchMarkers_spec (records : List CatchRecord) (s : State) (m : Surface)
    (hwell : ∀ r ∈ records, lngLatAccepted r.longitude r.latitude = true)
    (hactive : s.mapboxMap = some m) (hfresh : ∀ old ∈ s.catchMarkers, old.uid < s.nextUid) :
    (displayCatchMarkers records s).threw = false ∧
    (∀ old ∈ s.catchMarkers, ∀ x ∈ (displayCatchMarkers records s).state.markers,
      x.uid ≠ old.uid) ∧
    (displayCatchMarkers records s).state.catchMarkers.length = records.length ∧
    (displayCatchMarkers records s).state.catchMarkers.map (fun mk => (mk.lngLat, mk.map)) =
      records.map (fun r => (({ lng := r.longitude, lat := r.latitude } : LngLat), m)) ∧
    (∀ mk ∈ (displayCatchMarkers records s).state.catchMarkers,
      mk ∈ (displayCatchMarkers records s).state.markers ∧ mk.style = MarkerStyle.catchPin) := by
  rw [displayCatchMarkers_accepted records s m hwell hactive]
  refine ⟨rfl, ?_, catchMarkersFor_length _ _ _, catchMarkersFor_positions _ _ _, ?_⟩
  · intro old hold x hx
    simp only [Outcome.ok, List.mem_append] at hx
    rcases hx with hx | hx
    · exact keptMarkers_uid s old hold x hx
    · have h1 := (catchMarkersFor_uid records s.nextUid m x hx).1
      have h2 := hfresh old hold
      omega
  · intro mk hmk
    simp only [Outcome.ok] at hmk ⊢
    exact ⟨List.mem_append_right _ hmk, (catchMarkersFor_uid records s.nextUid m mk hmk).2⟩

/-- Witness for C13: two records on the sample page. -/
theorem displayCatchMarkers_spec_witness :
    (sampleState true).mapboxMap = some Surface.noaaMapboxMap ∧
    (displayCatchMarkers [sampleCatch (JSNum.fin 10) (JSNum.fin 20),
        sampleCatch (JSNum.fin 30) (JSNum.fin 40)] (sampleState true)).state.catchMarkers.map
        (fun mk => (mk.lngLat, mk.map)) =
      [sampleCatch (JSNum.fin 10) (JSNum.fin 20), sampleCatch (JSNum.fin 30) (JSNum.fin 40)].map
        (fun r => (({ lng := r.longitude, lat := r.latitude } : LngLat),
          Surface.noaaMapboxMap)) :=
  ⟨sampleState_mapboxMap true,
    (displayCatchMarkers_spec
      [sampleCatch (JSNum.fin 10) (JSNum.fin 20), sampleCatch (JSNum.fin 30) (JSNum.fin 40)]
      (sampleState true) Surface.noaaMapboxMap
      (by
        intro r hr
        simp only [List.mem_cons, List.mem_singleton, List.not_mem_nil, or_false] at hr
        rcases hr with rfl | rfl <;> decide)
      (sampleState_mapboxMap true)
      (by
        intro old hold
        rw [sampleState_eq] at hold
        cases hold)).2.2.2.1⟩

/-- C14 (as amended): a failure while constructing one catch marker ends the
rendering. For every record list in which the SDK rejects the position of some record,
`displayCatchMarkers` called while a surface is active lets no error escape and creates
a marker for every record before the first rejected one; it creates no marker for the
rejected record nor for any record after it. -/
theorem displayCatchMarkers_stops_at_failure (pre post : List CatchRecord) (bad : CatchRecord)
    (s : State) (m : Surface)
    (hwell : ∀ r ∈ pre, lngLatAccepted r.longitude r.latitude = true)
    (hreject : lngLatAccepted bad.longitude bad.latitude = false)
    (hactive : s.mapboxMap = some m) :
    (displayCatchMarkers (pre ++ bad :: post) s).threw = false ∧
    (displayCatchMarkers (pre ++ bad :: post) s).state.catchMarkers.length = pre.length ∧
    (displayCatchMarkers (pre ++ bad :: post) s).state.catchMarkers.map
        (fun mk => (mk.lngLat, mk.map)) =
      pre.map (fun r => (({ lng := r.longitude, lat := r.latitude } : LngLat), m)) ∧
    (displayCatchMarkers (pre ++ bad :: post) s).state.markers =
      keptMarkers s ++ (displayCatchMarkers (pre ++ bad :: post) s).state.catchMarkers := by
  rw [displayCatchMarkers_rejected pre post bad s m hwell hreject hactive]
  exact ⟨rfl, catchMarkersFor_length _ _ _, catchMarkersFor_positions _ _ _, rfl⟩

/-- Witness for C14: a record without a latitude between two well-formed records, on
the sample page. -/
theorem displayCatchMarkers_stops_at_failure_witness :
    lngLatAccepted (sampleCatch JSNum.nan (JSNum.fin 0)).longitude
      (sampleCatch JSNum.nan (JSNum.fin 0)).latitude = false ∧
    (sampleState true).mapboxMap = some Surface.noaaMapboxMap ∧
    (displayCatchMarkers ([sampleCatch (JSNum.fin 10) (JSNum.fin 20)] ++
        sampleCatch JSNum.nan (JSNum.fin 0) :: [sampleCatch (JSNum.fin 30) (JSNum.fin 40)])
        (sampleState true)).state.catchMarkers.length =
      [sampleCatch (JSNum.fin 10) (JSNum.fin 20)].length :=
  ⟨by decide, sampleState_mapboxMap true,
    (displayCatchMarkers_stops_at_failure [sampleCatch (JSNum.fin 10) (JSNum.fin 20)]
      [sampleCatch (JSNum.fin 30) (JSNum.fin 40)] (sampleCatch JSNum.nan (JSNum.fin 0))
      (sampleState true) Surface.noaaMapboxMap
      (by
        intro r hr
        simp only [List.mem_singleton] at hr
        rw [hr]
        decide)
      (by decide) (sampleState_mapboxMap true)).2.1⟩

/-- C14 (counterexample): of the three records at (10, 20), without a latitude, and at
(30, 40), `displayCatchMarkers` creates the marker of the first one only: the record at
(30, 40), which comes after the failing one, gets no marker. -/
theorem displayCatchMarkers_skips_records_after_failure :
    lngLatAccepted (sampleCatch (JSNum.fin 30) (JSNum.fin 40)).longitude
      (sampleCatch (JSNum.fin 30) (JSNum.fin 40)).latitude = true ∧
    (displayCatchMarkers [sampleCatch (JSNum.fin 10) (JSNum.fin 20),
        sampleCatch JSNum.nan (JSNum.fin 0), sampleCatch (JSNum.fin 30) (JSNum.fin 40)]
        (sampleState true)).threw = false ∧
    (displayCatchMarkers [sampleCatch (JSNum.fin 10) (JSNum.fin 20),
        sampleCatch JSNum.nan (JSNum.fin 0), sampleCatch (JSNum.fin 30) (JSNum.fin 40)]
        (sampleState true)).state.catchMarkers.map (fun mk => (mk.lngLat, mk.map)) =
      [(({ lng := JSNum.fin 20, lat := JSNum.fin 10 } : LngLat), Surface.noaaMapboxMap)] ∧
    (displayCatchMarkers [sampleCatch (JSNum.fin 10) (JSNum.fin 20),
        sampleCatch JSNum.nan (JSNum.fin 0), sampleCatch (JSNum.fin 30) (JSNum.fin 40)]
        (sampleState true)).state.attachedCatchMarkers.map (fun mk => (mk.lngLat, mk.map)) =
      [(({ lng := JSNum.fin 20, lat := JSNum.fin 10 } : LngLat), Surface.noaaMapboxMap)] := by
  have h := displayCatchMarkers_rejected [sampleCatch (JSNum.fin 10) (JSNum.fin 20)]
    [sampleCatch (JSNum.fin 30) (JSNum.fin 40)] (sampleCatch JSNum.nan (JSNum.fin 0))
    (sampleState true) Surface.noaaMapboxMap
    (by
      intro r hr
      simp only [List.mem_singleton] at hr
      rw [hr]
      decide)
    (by decide) (sampleState_mapboxMap true)
  simp only [List.singleton_append] at h
  have hkept : keptMarkers (sampleState true) = [] := by
    rw [keptMarkers, sampleState_markers]
    rfl
  rw [h, hkept]
  exact ⟨by decide, rfl, rfl, rfl⟩

/-- Whatever records it is given, the iteration of `displayCatchMarkers` attaches and
tracks the markers of a leading part of the records and nothing else. -/
theorem forEachCatch_general (records : List CatchRecord) (s : State) :
    ∃ (shown : List CatchRecord) (n : Nat) (t : Bool),
      shown <+: records ∧
      forEachCatch records s =
        { state :=
            { s with
              markers := s.markers ++
                catchMarkersFor shown s.nextUid (s.mapboxMap.getD Surface.noaaMapboxMap)
              catchMarkers := s.catchMarkers ++
                catchMarkersFor shown s.nextUid (s.mapboxMap.getD Surface.noaaMapboxMap)
              nextUid := n }
          threw := t } := by
  induction records generalizing s with
  | nil =>
    refine ⟨[], s.nextUid, false, List.prefix_refl _, ?_⟩
    simp [forEachCatch, catchMarkersFor, Outcome.ok]
  | cons item rest ih =>
    rw [forEachCatch_cons]
    cases haccept : lngLatAccepted item.longitude item.latitude with
    | false =>
      rw [addCatchMarker_rejected item s haccept]
      refine ⟨[], s.nextUid + 1, true, List.nil_prefix, ?_⟩
      simp [Outcome.andThen, Outcome.error, catchMarkersFor]
    | true =>
      rcases Option.eq_none_or_eq_some s.mapboxMap with hactive | ⟨m, hactive⟩
      · have h : addCatchMarker item s = Outcome.error { s with nextUid := s.nextUid + 1 } := by
          unfold addCatchMarker
          simp [haccept, hactive]
        rw [h]
        refine ⟨[], s.nextUid + 1, true, List.nil_prefix, ?_⟩
        simp [Outcome.andThen, Outcome.error, catchMarkersFor]
      · rw [addCatchMarker_accepted item s m haccept hactive]
        simp only [Outcome.andThen, Outcome.ok, Bool.false_eq_true, if_false]
        obtain ⟨shown, n, t, hpre, h⟩ := ih
          { s with
            markers := s.markers ++ catchMarkersFor [item] s.nextUid m
            catchMarkers := s.catchMarkers ++ catchMarkersFor [item] s.nextUid m
            nextUid := s.nextUid + 1 }
        refine ⟨item :: shown, n, t, (List.prefix_cons_inj item).2 hpre, ?_⟩
        rw [h]
        simp [hactive, catchMarkersFor]

/-- Whatever records it is given, `displayCatchMarkers` completes normally; it leaves
attached the markers that were not tracked catch markers, followed by the new catch
markers, which are those of a leading part of the records. -/
theorem displayCatchMarkers_general (records : List CatchRecord) (s : State) :
    ∃ (shown : List CatchRecord) (n : Nat),
      shown <+: records ∧
      displayCatchMarkers records s =
        Outcome.ok
          { s with
            markers := keptMarkers s ++
              catchMarkersFor shown s.nextUid (s.mapboxMap.getD Surface.noaaMapboxMap)
            catchMarkers :=
              catchMarkersFor shown s.nextUid (s.mapboxMap.getD Surface.noaaMapboxMap)
            nextUid := n } := by
  unfold displayCatchMarkers
  rw [clearCatchMarkers_eq]
  obtain ⟨shown, n, t, hpre, h⟩ := forEachCatch_general records
    { s with
      markers := s.markers.filter (fun x => !s.catchMarkers.any (fun mk => mk.uid == x.uid))
      catchMarkers := [] }
  refine ⟨shown, n, hpre, ?_⟩
  rw [h]
  simp [Outcome.ok, keptMarkers]

/-- In a state whose attached catch markers are all tracked, `clearCatchMarkers` leaves
no catch marker attached. -/
theorem keptMarkers_no_catch (s : State) (htracked : CatchTracked s) :
    (keptMarkers s).filter (fun x => decide (x.style = MarkerStyle.catchPin)) = [] := by
  rw [List.filter_eq_nil_iff]
  intro x hx hstyle
  have hstyle' : x.style = MarkerStyle.catchPin := by simpa using hstyle
  simp only [keptMarkers, List.mem_filter, Bool.not_eq_true', List.any_eq_false, beq_iff_eq]
    at hx
  obtain ⟨y, hy, hxy⟩ := htracked x hx.1 hstyle'
  exact hx.2 y hy hxy.symm

theorem catchMarkersFor_filter (records : List CatchRecord) (base : Nat) (m : Surface) :
    (catchMarkersFor records base m).filter (fun x => decide (x.style = MarkerStyle.catchPin)) =
      catchMarkersFor records base m := by
  rw [List.filter_eq_self]
  intro x hx
  simpa using (catchMarkersFor_uid records base m x hx).2

/-- After `displayCatchMarkers`, called in a state whose attached catch markers are all
tracked, the catch markers attached to the maps are exactly the tracked ones. -/
theorem displayCatchMarkers_synced (records : List CatchRecord) (s : State)
    (htracked : CatchTracked s) :
    (displayCatchMarkers records s).state.attachedCatchMarkers =
      (displayCatchMarkers records s).state.catchMarkers := by
  obtain ⟨shown, n, -, h⟩ := displayCatchMarkers_general records s
  rw [h]
  simp only [Outcome.ok, State.attachedCatchMarkers, List.filter_append,
    keptMarkers_no_catch s htracked, catchMarkersFor_filter, List.nil_append]

/-- A switch only touches the active-surface variable, the target map, the containers
and the location marker. -/
theorem Switch.run_frame (sw : Switch) (s : State) :
    (sw.run s).state.catches = s.catches ∧
    (sw.run s).state.catchMarkers = s.catchMarkers ∧
    (sw.run s).state.fetchCalls = s.fetchCalls ∧
    (sw.run s).state.pendingCatchFetches = s.pendingCatchFetches ∧
    (sw.run s).state.mapsPlugin = s.mapsPlugin ∧
    (sw.run s).state.activeElements = s.activeElements ∧
    (sw.run s).state.menuOpen = s.menuOpen ∧
    (sw.run s).state.urlParams = s.urlParams := by
  cases hcenter : lngLatAccepted s.defaultCenter.lng s.defaultCenter.lat
  · cases sw
    · rw [Switch.run, MeteoblueMap.setNoaaMap_rejected s hcenter]
      exact ⟨rfl, rfl, rfl, rfl, rfl, rfl, rfl, rfl⟩
    · rw [Switch.run, MeteoblueMap.resetNoaaMap_rejected s hcenter]
      exact ⟨rfl, rfl, rfl, rfl, rfl, rfl, rfl, rfl⟩
  · cases sw
    · obtain ⟨ms, lm, n, t, h⟩ := MeteoblueMap.setNoaaMap_eq s hcenter
      rw [Switch.run, h]
      exact ⟨rfl, rfl, rfl, rfl, rfl, rfl, rfl, rfl⟩
    · obtain ⟨ms, lm, n, t, h⟩ := MeteoblueMap.resetNoaaMap_eq s hcenter
      rw [Switch.run, h]
      exact ⟨rfl, rfl, rfl, rfl, rfl, rfl, rfl, rfl⟩

/-- The markers `displayLocationMarker` leaves attached are markers that were attached
before, or the new location marker. -/
theorem displayLocationMarker_markers_subset (lat lon : JSNum) (s : State) :
    ∀ x ∈ (displayLocationMarker lat lon s).state.markers,
      x ∈ s.markers ∨ x.style = MarkerStyle.location := by
  have hsub : ∀ x ∈ (removeLocationMarker s).markers, x ∈ s.markers := by
    intro x hx
    unfold removeLocationMarker at hx
    rcases Option.eq_none_or_eq_some s.locationMarker with h | ⟨old, h⟩
    · rw [h] at hx
      exact hx
    · rw [h] at hx
      exact (List.mem_filter.1 hx).1
  intro x hx
  cases hthrew : (displayLocationMarker lat lon s).threw with
  | true =>
    rw [displayLocationMarker_threw lat lon s hthrew] at hx
    exact Or.inl (hsub x hx)
  | false =>
    have haccept : lngLatAccepted lon lat = true := by
      by_contra hne
      simp [displayLocationMarker, hne, Outcome.error] at hthrew
    rcases Option.eq_none_or_eq_some s.mapboxMap with hactive | ⟨m, hactive⟩
    · simp [displayLocationMarker, haccept, hactive, Outcome.error] at hthrew
    · rw [displayLocationMarker_active lat lon s m haccept hactive] at hx
      simp only [Outcome.ok, List.mem_append, List.mem_singleton] at hx
      rcases hx with hx | hx
      · exact Or.inl (hsub x hx)
      · exact Or.inr (by rw [hx]; rfl)

/-- The markers a switch leaves attached are markers that were attached before, or the
location marker it re-displayed. -/
theorem Switch.run_markers_subset (sw : Switch) (s : State) :
    ∀ x ∈ (sw.run s).state.markers, x ∈ s.markers ∨ x.style = MarkerStyle.location := by
  cases hcenter : lngLatAccepted s.defaultCenter.lng s.defaultCenter.lat
  · cases sw
    · rw [Switch.run, MeteoblueMap.setNoaaMap_rejected s hcenter]
      exact fun x hx => Or.inl hx
    · rw [Switch.run, MeteoblueMap.resetNoaaMap_rejected s hcenter]
      exact fun x hx => Or.inl hx
  · cases hre : redisplaysMarker s.urlParams
    · rw [Switch.run_keep sw s hcenter hre]
      intro x hx
      exact Or.inl (by rw [← (switchCamera_markers sw s).1]; exact hx)
    · rw [Switch.run_redisplay sw s hcenter hre]
      intro x hx
      have h := displayLocationMarker_markers_subset _ _ _ x hx
      rw [(switchCamera_markers sw s).1] at h
      exact h

/-- A switch keeps the attached catch markers tracked. -/
theorem Switch.run_catchTracked (sw : Switch) (s : State) (htracked : CatchTracked s) :
    CatchTracked (sw.run s).state := by
  intro x hx hstyle
  rw [(Switch.run_frame sw s).2.1]
  rcases Switch.run_markers_subset sw s x hx with h | h
  · exact htracked x h hstyle
  · rw [hstyle] at h
    cases h

/-- A switch completes normally when the SDK accepts `defaultCenter` and the position
of the launch parameters, if they read as numbers. -/
theorem Switch.run_completes (sw : Switch) (s : State)
    (hcenter : lngLatAccepted s.defaultCenter.lng s.defaultCenter.lat = true)
    (hlaunch : redisplaysMarker s.urlParams = true →
      lngLatAccepted (parseFloat (paramValue s.urlParams.lon))
        (parseFloat (paramValue s.urlParams.lat)) = true) :
    (sw.run s).threw = false := by
  cases hre : redisplaysMarker s.urlParams
  · rw [Switch.run_keep sw s hcenter hre]
    rfl
  · rw [Switch.run_redisplay sw s hcenter hre,
      displayLocationMarker_active _ _ _ sw.target (hlaunch hre) (switchCamera_markers sw s).2.2.2]
    rfl

/-! ## Claims about the menu -/

theorem markActive_frame (target : MenuElement) (s : State) :
    ∃ A : List MenuElement, markActive target s = { s with activeElements := A } := by
  unfold markActive addActive
  split_ifs <;> exact ⟨_, rfl⟩

theorem closeMenu_frame (s : State) : ∃ b : Bool, closeMenu s = { s with menuOpen := b } := by
  unfold closeMenu
  split_ifs
  · exact ⟨_, rfl⟩
  · exact ⟨s.menuOpen, rfl⟩

/-- The function `changeMap` for a target whose computed id is not "noaaMap", once the
plugin has been constructed. -/
theorem changeMap_overlay (target : MenuElement) (s : State) (plugin : MapsPlugin)
    (hoverlay : selectedMapId target ≠ "noaaMap") (hplugin : s.mapsPlugin = some plugin) :
    changeMap target s =
      (resetNoaaMap
        { markActive target s with
          mapsPlugin := some (plugin.setMap (selectedMapId target)) }).andThen afterSwitch := by
  obtain ⟨A, hA⟩ := markActive_frame target s
  have hp : (markActive target s).mapsPlugin = some plugin := by
    rw [hA]
    exact hplugin
  unfold changeMap
  simp only [hoverlay, if_false]
  change (match (markActive target s).mapsPlugin with
    | none => Outcome.error (markActive target s)
    | some plugin =>
      resetNoaaMap { markActive target s with
        mapsPlugin := some { plugin with
          setMapCalls := plugin.setMapCalls ++ [selectedMapId target] } }).andThen afterSwitch = _
  rw [hp]
  rfl

/-- The function `changeMap` for a target whose computed id is "noaaMap". -/
theorem changeMap_reference (target : MenuElement) (s : State)
    (hreference : selectedMapId target = "noaaMap") :
    changeMap target s = (setNoaaMap (markActive target s)).andThen afterSwitch := by
  unfold changeMap
  simp only [hreference, if_true]
  rfl

/-- With stored records that the SDK accepts, the statements of `changeMap` after the
switch render exactly the stored records on the active surface and fetch nothing. -/
theorem afterSwitch_rerenders (s : State) (m : Surface) (hactive : s.mapboxMap = some m)
    (hcatches : s.catches ≠ [])
    (hwell : ∀ r ∈ s.catches, lngLatAccepted r.longitude r.latitude = true)
    (htracked : CatchTracked s) :
    (afterSwitch s).threw = false ∧
    (afterSwitch s).state.mapboxMap = some m ∧
    (afterSwitch s).state.catchMarkers.length = s.catches.length ∧
    (afterSwitch s).state.catchMarkers.map (fun mk => (mk.lngLat, mk.map)) =
      s.catches.map (fun r => (({ lng := r.longitude, lat := r.latitude } : LngLat), m)) ∧
    (afterSwitch s).state.attachedCatchMarkers = (afterSwitch s).state.catchMarkers ∧
    (afterSwitch s).state.fetchCalls = s.fetchCalls ∧
    (afterSwitch s).state.pendingCatchFetches = s.pendingCatchFetches := by
  have hlen : s.catches.length ≠ 0 := fun h => hcatches (List.length_eq_zero.1 h)
  have hsync := displayCatchMarkers_synced s.catches s htracked
  have hd := displayCatchMarkers_accepted s.catches s m hwell hactive
  unfold afterSwitch
  simp only [hlen, ne_eq, not_false_eq_true, if_true]
  rw [hd] at hsync ⊢
  simp only [Outcome.ok, Outcome.andThen, Bool.false_eq_true, if_false] at hsync ⊢
  obtain ⟨b, hb⟩ := closeMenu_frame
    { s with
      markers := keptMarkers s ++ catchMarkersFor s.catches s.nextUid m
      catchMarkers := catchMarkersFor s.catches s.nextUid m
      nextUid := s.nextUid + s.catches.length }
  rw [hb]
  exact ⟨trivial, hactive, catchMarkersFor_length _ _ _, catchMarkersFor_positions _ _ _,
    hsync, rfl, rfl⟩

/-- C15 (as amended): once the plugin has been constructed, for every state in which
the stored catches list holds N >= 1 records whose positions the SDK accepts, the
attached catch markers are the tracked ones, and the SDK accepts `defaultCenter` and
the launch-parameter position (when the parameters read as numbers), selecting a plugin
overlay ends with exactly N catch markers, one per stored record in the same order, all
attached to the plugin surface; the catch markers attached to the maps are exactly
these, so none is left on the reference surface; and no fetch is started. -/
theorem changeMap_rerenders_catches (target : MenuElement) (s : State) (plugin : MapsPlugin)
    (hoverlay : selectedMapId target ≠ "noaaMap") (hplugin : s.mapsPlugin = some plugin)
    (hcenter : lngLatAccepted s.defaultCenter.lng s.defaultCenter.lat = true)
    (hlaunch : redisplaysMarker s.urlParams = true →
      lngLatAccepted (parseFloat (paramValue s.urlParams.lon))
        (parseFloat (paramValue s.urlParams.lat)) = true)
    (hcatches : s.catches ≠ [])
    (hwell : ∀ r ∈ s.catches, lngLatAccepted r.longitude r.latitude = true)
    (htracked : CatchTracked s) :
    (changeMap target s).threw = false ∧
    (changeMap target s).state.mapboxMap = some Surface.meteoblueMapboxMap ∧
    (changeMap target s).state.catchMarkers.length = s.catches.length ∧
    (changeMap target s).state.catchMarkers.map (fun mk => (mk.lngLat, mk.map)) =
      s.catches.map (fun r =>
        (({ lng := r.longitude, lat := r.latitude } : LngLat), Surface.meteoblueMapboxMap)) ∧
    (changeMap target s).state.attachedCatchMarkers = (changeMap target s).state.catchMarkers ∧
    (changeMap target s).state.fetchCalls = s.fetchCalls ∧
    (changeMap target s).state.pendingCatchFetches = s.pendingCatchFetches := by
  obtain ⟨A, hA⟩ := markActive_frame target s
  rw [changeMap_overlay target s plugin hoverlay hplugin, hA]
  have hthrew := Switch.run_completes Switch.resetNoaaMap
    { s with activeElements := A, mapsPlugin := some (plugin.setMap (selectedMapId target)) }
    hcenter hlaunch
  have hframe := Switch.run_frame Switch.resetNoaaMap
    { s with activeElements := A, mapsPlugin := some (plugin.setMap (selectedMapId target)) }
  have hact := (Switch.run_common Switch.resetNoaaMap
    { s with activeElements := A, mapsPlugin := some (plugin.setMap (selectedMapId target)) }).1
  have htr := Switch.run_catchTracked Switch.resetNoaaMap
    { s with activeElements := A, mapsPlugin := some (plugin.setMap (selectedMapId target)) }
    htracked
  simp only [Switch.run, Switch.target] at hthrew hframe hact htr
  obtain ⟨hcat, -, hfetch, hpend, -⟩ := hframe
  have hafter := afterSwitch_rerenders _ Surface.meteoblueMapboxMap hact
    (by rw [hcat]; exact hcatches) (by rw [hcat]; exact hwell) htr
  rw [hcat, hfetch, hpend] at hafter
  simp only [Outcome.andThen, hthrew, Bool.false_eq_true, if_false]
  exact hafter

/-- A click on the `div.map-selector` itself or on one of its two spans yields the id
of the option. -/
theorem selectedMapId_direct (option : String) :
    selectedMapId { option := option, part := MenuPart.selector } = option ∧
    selectedMapId { option := option, part := MenuPart.iconSpan } = option ∧
    selectedMapId { option := option, part := MenuPart.labelSpan } = option :=
  ⟨rfl, rfl, rfl⟩

/-- After a click on the `div.map-selector` itself or on one of its two spans, that
`div` is the only `map-selector` element with the class `active`. -/
theorem markActive_direct (target : MenuElement) (s : State)
    (hdirect : target.part = MenuPart.selector ∨ target.part = MenuPart.iconSpan ∨
      target.part = MenuPart.labelSpan) :
    (markActive target s).activeElements.filter (fun e => e.isMapSelector) =
      [{ option := target.option, part := MenuPart.selector }] := by
  have hnot : ({ option := target.option, part := MenuPart.selector } : MenuElement) ∉
      s.activeElements.filter (fun e => !e.isMapSelector) := by
    intro h
    have h2 := (List.mem_filter.1 h).2
    simp [MenuElement.isMapSelector] at h2
  have hfilter : (s.activeElements.filter (fun e => !e.isMapSelector)).filter
      (fun e => e.isMapSelector) = [] := by
    rw [List.filter_filter, List.filter_eq_nil_iff]
    intro e _
    cases e.isMapSelector <;> simp
  obtain ⟨o, part⟩ := target
  simp only at hdirect
  rcases hdirect with rfl | rfl | rfl <;>
    simp [markActive, addActive, MenuElement.isMapSelector, MenuElement.parentElement, hnot,
      List.filter_append, hfilter]

theorem afterSwitch_empty (s : State) (hcatches : s.catches = []) :
    afterSwitch s = Outcome.ok (closeMenu s) := by
  unfold afterSwitch
  simp [hcatches, Outcome.ok, Outcome.andThen]

theorem userPage_load :
    noaaMapboxMapLoad (init userPage) =
      Outcome.ok
        { setNoaaMapCamera (setupMapMenu (init userPage)) with
          myCatchesActive := true
          loadingShown := true
          fetchCalls := [baseApi none ++ "/user/" ++ paramText (some "u1"),
                         baseApi none ++ "/catch/" ++ paramText (some "u1")]
          pendingCatchFetches := 1 } := by
  unfold noaaMapboxMapLoad
  rw [setNoaaMap_no_params (setupMapMenu (init userPage)) (defaultCamera_accepted _) rfl]
  rfl

theorem readyState_eq :
    readyState =
      { setNoaaMapCamera (setupMapMenu (init userPage)) with
        myCatchesActive := true
        loadingShown := true
        fetchCalls := [baseApi none ++ "/user/" ++ paramText (some "u1"),
                       baseApi none ++ "/catch/" ++ paramText (some "u1")]
        pendingCatchFetches := 1
        lengthUnit := some (Json.str "metric")
        temperatureUnit := some (Json.str "C")
        speedUnit := some (Json.str "kn")
        mapsPlugin := some { temperatureUnit := some (Json.str "C")
                             velocityUnit := some (Json.str "kn")
                             lengthUnit := some (Json.str "metric")
                             setMapCalls := [] } } := by
  unfold readyState
  rw [userPage_load]
  simp [Outcome.ok, getUserPreferencesSettled, samplePreferences, truthy, Json.getProp,
    List.lookup, strictEqualsString, getMapsPlugin]

/-- The state `changeMap` leaves on the page `userPage`, in the state `readyState`, for
a target for which it computes an id other than "noaaMap". -/
theorem readyState_changeMap (target : MenuElement)
    (hoverlay : selectedMapId target ≠ "noaaMap") :
    (changeMap target readyState).threw = false ∧
    (changeMap target readyState).state.mapboxMap = some Surface.meteoblueMapboxMap ∧
    (changeMap target readyState).state.mapsPlugin =
      some { temperatureUnit := some (Json.str "C")
             velocityUnit := some (Json.str "kn")
             lengthUnit := some (Json.str "metric")
             setMapCalls := [selectedMapId target] } ∧
    (changeMap target readyState).state.activeElements =
      (markActive target readyState).activeElements := by
  obtain ⟨A, hA⟩ := markActive_frame target readyState
  have hplugin : readyState.mapsPlugin =
      some { temperatureUnit := some (Json.str "C"), velocityUnit := some (Json.str "kn"),
             lengthUnit := some (Json.str "metric"), setMapCalls := [] } := by
    rw [readyState_eq]
  have hcenter : lngLatAccepted readyState.defaultCenter.lng readyState.defaultCenter.lat =
      true := by
    rw [readyState_eq]
    exact defaultCamera_accepted _
  have hre : redisplaysMarker readyState.urlParams = false := by
    rw [readyState_eq]
    rfl
  have hcat : readyState.catches = [] := by
    rw [readyState_eq]
    rfl
  rw [changeMap_overlay target readyState _ hoverlay hplugin, hA]
  have hkeep := Switch.run_keep Switch.resetNoaaMap
    { readyState with
      activeElements := A
      mapsPlugin := some (MapsPlugin.setMap
        { temperatureUnit := some (Json.str "C"), velocityUnit := some (Json.str "kn"),
          lengthUnit := some (Json.str "metric"), setMapCalls := [] } (selectedMapId target)) }
    hcenter hre
  simp only [Switch.run] at hkeep
  rw [hkeep]
  simp only [Outcome.ok, Outcome.andThen, Bool.false_eq_true, if_false]
  rw [afterSwitch_empty _ (by exact hcat)]
  obtain ⟨b, hb⟩ := closeMenu_frame (switchCamera Switch.resetNoaaMap
    { readyState with
      activeElements := A
      mapsPlugin := some (MapsPlugin.setMap
        { temperatureUnit := some (Json.str "C"), velocityUnit := some (Json.str "kn"),
          lengthUnit := some (Json.str "metric"), setMapCalls := [] } (selectedMapId target)) })
  simp only [Outcome.ok]
  rw [hb]
  exact ⟨trivial, rfl, rfl, rfl⟩

/-- C16 (evaluation at the failing input): for a click that lands on the `svg` of the
"NOAA Map" option, or on a `path` inside it, `changeMap` computes the empty id instead
of "noaaMap"; on the page `userPage`, where the reference surface is active after the
`load` handler, it therefore calls the plugin with the empty map id and makes the plugin
surface active. -/
theorem nested_click_selects_empty_id :
    selectedMapId { option := "noaaMap", part := MenuPart.svg } = "" ∧
    selectedMapId { option := "noaaMap", part := MenuPart.path } = "" ∧
    readyState.mapboxMap = some Surface.noaaMapboxMap ∧
    (changeMap { option := "noaaMap", part := MenuPart.svg } readyState).state.mapboxMap =
      some Surface.meteoblueMapboxMap ∧
    (changeMap { option := "noaaMap", part := MenuPart.svg } readyState).state.mapsPlugin =
      some { temperatureUnit := some (Json.str "C")
             velocityUnit := some (Json.str "kn")
             lengthUnit := some (Json.str "metric")
             setMapCalls := [""] } := by
  obtain ⟨-, h2, h3, -⟩ := readyState_changeMap { option := "noaaMap", part := MenuPart.svg }
    (by decide)
  refine ⟨rfl, rfl, ?_, h2, h3⟩
  rw [readyState_eq]
  rfl

/-- C17 (evaluation at the failing input): on the page `userPage` exactly one
`map-selector` element has the class `active` after `setupMapMenu`; after a click that
lands on the `svg` of the "Radar" option the plugin surface is active, no
`map-selector` element has the class `active`, and the class sits on the icon span of
the option. -/
theorem nested_click_leaves_no_active_option :
    readyState.activeElements = [{ option := "noaaMap", part := MenuPart.selector }] ∧
    (changeMap { option := "radar", part := MenuPart.svg } readyState).state.mapboxMap =
      some Surface.meteoblueMapboxMap ∧
    (changeMap { option := "radar", part := MenuPart.svg } readyState).state.activeElements =
      [{ option := "radar", part := MenuPart.iconSpan }] ∧
    (changeMap { option := "radar", part := MenuPart.svg }
      readyState).state.activeElements.filter (fun e => e.isMapSelector) = [] := by
  obtain ⟨-, h2, -, h4⟩ := readyState_changeMap { option := "radar", part := MenuPart.svg }
    (by decide)
  have hactive : readyState.activeElements =
      [{ option := "noaaMap", part := MenuPart.selector }] := by
    rw [readyState_eq]
    rfl
  have hmark : (markActive { option := "radar", part := MenuPart.svg } readyState).activeElements
      = [{ option := "radar", part := MenuPart.iconSpan }] := by
    simp [markActive, addActive, hactive, MenuElement.isMapSelector,
      MenuElement.parentElement]
  refine ⟨hactive, h2, ?_, ?_⟩
  · rw [h4, hmark]
  · rw [h4, hmark]
    rfl

theorem catchState_eq :
    catchState =
      { readyState with
        pendingCatchFetches := 0
        catches := [sampleCatch (JSNum.fin 42) (JSNum.fin (-71))]
        markers :=
          catchMarkersFor [sampleCatch (JSNum.fin 42) (JSNum.fin (-71))] 0 Surface.noaaMapboxMap
        catchMarkers :=
          catchMarkersFor [sampleCatch (JSNum.fin 42) (JSNum.fin (-71))] 0 Surface.noaaMapboxMap
        nextUid := 1
        loadingShown := false } := by
  have hactive : ({ readyState with
      pendingCatchFetches := readyState.pendingCatchFetches - 1
      catches := [sampleCatch (JSNum.fin 42) (JSNum.fin (-71))] } : State).mapboxMap =
      some Surface.noaaMapboxMap := by
    rw [readyState_eq]
    rfl
  unfold catchState loadUserCatchesSettled
  dsimp only
  rw [displayCatchMarkers_accepted _ _ Surface.noaaMapboxMap
    (by
      intro r hr
      simp only [List.mem_singleton] at hr
      rw [hr]
      decide)
    hactive]
  rw [readyState_eq]
  rfl

/-- Witness for C15: the "Radar" option is selected on the page `userPage` after its
catch request has delivered one record, which was rendered on the reference surface. -/
theorem changeMap_rerenders_catches_witness :
    catchState.catches = [sampleCatch (JSNum.fin 42) (JSNum.fin (-71))] ∧
    catchState.catchMarkers.map (fun mk => (mk.lngLat, mk.map)) =
      [(({ lng := JSNum.fin (-71), lat := JSNum.fin 42 } : LngLat), Surface.noaaMapboxMap)] ∧
    ((changeMap { option := "radar", part := MenuPart.selector } catchState).threw = false ∧
    (changeMap { option := "radar", part := MenuPart.selector } catchState).state.mapboxMap =
      some Surface.meteoblueMapboxMap ∧
    (changeMap { option := "radar", part := MenuPart.selector }
      catchState).state.catchMarkers.length = catchState.catches.length ∧
    (changeMap { option := "radar", part := MenuPart.selector }
      catchState).state.catchMarkers.map (fun mk => (mk.lngLat, mk.map)) =
      catchState.catches.map (fun r =>
        (({ lng := r.longitude, lat := r.latitude } : LngLat), Surface.meteoblueMapboxMap)) ∧
    (changeMap { option := "radar", part := MenuPart.selector }
      catchState).state.attachedCatchMarkers =
      (changeMap { option := "radar", part := MenuPart.selector } catchState).state.catchMarkers ∧
    (changeMap { option := "radar", part := MenuPart.selector } catchState).state.fetchCalls =
      catchState.fetchCalls ∧
    (changeMap { option := "radar", part := MenuPart.selector }
      catchState).state.pendingCatchFetches = catchState.pendingCatchFetches) :=
  ⟨by rw [catchState_eq],
    by rw [catchState_eq]; rfl,
    changeMap_rerenders_catches { option := "radar", part := MenuPart.selector } catchState
      { temperatureUnit := some (Json.str "C"), velocityUnit := some (Json.str "kn"),
        lengthUnit := some (Json.str "metric"), setMapCalls := [] }
      (by decide)
      (by rw [catchState_eq, readyState_eq])
      (by
        rw [catchState_eq, readyState_eq]
        exact defaultCamera_accepted _)
      (by
        intro h
        rw [catchState_eq, readyState_eq] at h
        cases h)
      (by
        rw [catchState_eq]
        exact List.cons_ne_nil _ _)
      (by
        intro r hr
        rw [catchState_eq] at hr
        simp only [List.mem_singleton] at hr
        rw [hr]
        decide)
      (by
        intro x hx _
        rw [catchState_eq] at hx ⊢
        exact ⟨x, hx, rfl⟩)⟩

theorem earlyCatchState_eq :
    earlyCatchState =
      { setNoaaMapCamera (setupMapMenu (init userPage)) with
        myCatchesActive := true
        fetchCalls := [baseApi none ++ "/user/" ++ paramText (some "u1"),
                       baseApi none ++ "/catch/" ++ paramText (some "u1")]
        pendingCatchFetches := 0
        catches := [sampleCatch (JSNum.fin 42) (JSNum.fin (-71))]
        markers :=
          catchMarkersFor [sampleCatch (JSNum.fin 42) (JSNum.fin (-71))] 0 Surface.noaaMapboxMap
        catchMarkers :=
          catchMarkersFor [sampleCatch (JSNum.fin 42) (JSNum.fin (-71))] 0 Surface.noaaMapboxMap
        nextUid := 1
        loadingShown := false } := by
  unfold earlyCatchState loadUserCatchesSettled
  rw [userPage_load]
  dsimp only [Outcome.ok]
  rw [displayCatchMarkers_accepted _ _ Surface.noaaMapboxMap
    (by
      intro r hr
      simp only [List.mem_singleton] at hr
      rw [hr]
      decide)
    rfl]
  rfl

/-- C15 (counterexample): on the page `userPage` the catch request of the `load`
handler delivers one record before the preference response arrives, so the record is
stored and rendered on the reference surface while `mapsPlugin` is still `undefined`.
Selecting the "Radar" overlay then throws at `mapsPlugin.setMap`: the reference surface
stays the active one, the one catch marker stays attached to it, and none is attached
to the plugin surface. -/
theorem changeMap_before_preferences_throws :
    earlyCatchState.catches.length = 1 ∧
    earlyCatchState.mapsPlugin = none ∧
    selectedMapId { option := "radar", part := MenuPart.selector } = "radar" ∧
    (changeMap { option := "radar", part := MenuPart.selector } earlyCatchState).threw = true ∧
    (changeMap { option := "radar", part := MenuPart.selector } earlyCatchState).state.mapboxMap =
      some Surface.noaaMapboxMap ∧
    (changeMap { option := "radar", part := MenuPart.selector }
      earlyCatchState).state.attachedCatchMarkers.map (fun mk => (mk.lngLat, mk.map)) =
      [(({ lng := JSNum.fin (-71), lat := JSNum.fin 42 } : LngLat), Surface.noaaMapboxMap)] ∧
    (changeMap { option := "radar", part := MenuPart.selector }
      earlyCatchState).state.catchMarkers.map (fun mk => (mk.lngLat, mk.map)) =
      [(({ lng := JSNum.fin (-71), lat := JSNum.fin 42 } : LngLat), Surface.noaaMapboxMap)] := by
  obtain ⟨A, hA⟩ := markActive_frame { option := "radar", part := MenuPart.selector }
    earlyCatchState
  have hnone : earlyCatchState.mapsPlugin = none := by
    rw [earlyCatchState_eq]
    rfl
  have hchange : changeMap { option := "radar", part := MenuPart.selector } earlyCatchState =
      Outcome.error (markActive { option := "radar", part := MenuPart.selector }
        earlyCatchState) := by
    have hp : (markActive { option := "radar", part := MenuPart.selector }
        earlyCatchState).mapsPlugin = none := by
      rw [hA]
      exact hnone
    have hoverlay : selectedMapId { option := "radar", part := MenuPart.selector } ≠
        "noaaMap" := by decide
    unfold changeMap
    simp only [hoverlay, if_false]
    change (match (markActive { option := "radar", part := MenuPart.selector }
        earlyCatchState).mapsPlugin with
      | none => Outcome.error (markActive { option := "radar", part := MenuPart.selector }
          earlyCatchState)
      | some plugin =>
        resetNoaaMap { markActive { option := "radar", part := MenuPart.selector }
            earlyCatchState with
          mapsPlugin := some { plugin with
            setMapCalls := plugin.setMapCalls ++
              [selectedMapId { option := "radar", part := MenuPart.selector }] } }).andThen
      afterSwitch = _
    rw [hp]
    rfl
  rw [hchange, hA]
  refine ⟨?_, hnone, rfl, rfl, ?_, ?_, ?_⟩
  · rw [earlyCatchState_eq]
    rfl
  · rw [earlyCatchState_eq]
    rfl
  · rw [earlyCatchState_eq]
    rfl
  · rw [earlyCatchState_eq]
    rfl

/-! ## Claims about the catch toggle -/

theorem runCatchEvents_append (evs : List CatchEvent) (ev : CatchEvent) (s : State) :
    runCatchEvents (evs ++ [ev]) s = ev.run (runCatchEvents evs s) := by
  induction evs generalizing s with
  | nil => rfl
  | cons e rest ih => exact ih (e.run s)

/-- When the catch markers attached to the maps are exactly the tracked ones, every
attached catch marker is tracked. -/
theorem catchTracked_of_synced (s : State) (hsync : s.attachedCatchMarkers = s.catchMarkers) :
    CatchTracked s := by
  intro x hx hstyle
  refine ⟨x, ?_, rfl⟩
  rw [← hsync]
  exact List.mem_filter.2 ⟨hx, by simpa using hstyle⟩

/-- A click on the toggle leaves the tracked catch markers as they are (toggle ON,
which only starts a request) or removes them all (toggle OFF). -/
theorem toggleWrapperClick_markers (s : State)
    (hsync : s.attachedCatchMarkers = s.catchMarkers) :
    (toggleWrapperClick s).attachedCatchMarkers = (toggleWrapperClick s).catchMarkers ∧
    ((toggleWrapperClick s).catchMarkers = s.catchMarkers ∨
      (toggleWrapperClick s).catchMarkers = []) := by
  have htracked := catchTracked_of_synced s hsync
  unfold toggleWrapperClick myCatchesToggleChange
  rcases Bool.eq_false_or_eq_true s.myCatchesActive with hactive | hactive
  · simp only [hactive, Bool.not_true, Bool.false_eq_true, if_false]
    obtain ⟨b, hb⟩ := closeMenu_frame
      { clearCatchMarkers { s with myCatchesActive := false } with catches := [] }
    rw [hb, clearCatchMarkers_eq]
    refine ⟨?_, Or.inr rfl⟩
    exact keptMarkers_no_catch s htracked
  · simp only [hactive, Bool.not_false, if_true]
    obtain ⟨b, hb⟩ := closeMenu_frame (loadUserCatches { s with myCatchesActive := true })
    rw [hb]
    unfold loadUserCatches
    dsimp only
    split_ifs
    · exact ⟨hsync, Or.inl rfl⟩
    · exact ⟨hsync, Or.inl rfl⟩

/-- The settling of a catch request leaves the tracked catch markers as they are (the
request was rejected) or replaces them by the markers one `displayCatchMarkers` call
constructs for a leading part of the array the request returned. -/
theorem loadUserCatchesSettled_markers (result : Option (List CatchRecord)) (s : State)
    (hsync : s.attachedCatchMarkers = s.catchMarkers) :
    (loadUserCatchesSettled result s).attachedCatchMarkers =
      (loadUserCatchesSettled result s).catchMarkers ∧
    ((loadUserCatchesSettled result s).catchMarkers = s.catchMarkers ∨
      ∃ (records shown : List CatchRecord) (base : Nat) (m : Surface),
        result = some records ∧ shown <+: records ∧
        (loadUserCatchesSettled result s).catchMarkers = catchMarkersFor shown base m) := by
  have htracked := catchTracked_of_synced s hsync
  cases result with
  | none => exact ⟨hsync, Or.inl rfl⟩
  | some records =>
    have hs := displayCatchMarkers_synced records
      { s with pendingCatchFetches := s.pendingCatchFetches - 1, catches := records } htracked
    obtain ⟨shown, n, hpre, h⟩ := displayCatchMarkers_general records
      { s with pendingCatchFetches := s.pendingCatchFetches - 1, catches := records }
    unfold loadUserCatchesSettled
    dsimp only
    rw [h] at hs ⊢
    exact ⟨hs, Or.inr ⟨records, shown, _, _, rfl, hpre, rfl⟩⟩

/-- A catch event keeps the attached catch markers equal to the tracked ones, and it
leaves the tracked ones as they are, removes them all, or replaces them by the markers
of one `displayCatchMarkers` call on the array its request returned. -/
theorem CatchEvent.run_markers (ev : CatchEvent) (s : State)
    (hsync : s.attachedCatchMarkers = s.catchMarkers) :
    (ev.run s).attachedCatchMarkers = (ev.run s).catchMarkers ∧
    ((ev.run s).catchMarkers = s.catchMarkers ∨ (ev.run s).catchMarkers = [] ∨
      ∃ (records shown : List CatchRecord) (base : Nat) (m : Surface),
        ev = CatchEvent.fetchSettled (some records) ∧ shown <+: records ∧
        (ev.run s).catchMarkers = catchMarkersFor shown base m) := by
  cases ev with
  | toggleClick =>
    obtain ⟨h1, h2⟩ := toggleWrapperClick_markers s hsync
    refine ⟨h1, ?_⟩
    rcases h2 with h2 | h2
    · exact Or.inl h2
    · exact Or.inr (Or.inl h2)
  | fetchSettled result =>
    simp only [CatchEvent.run]
    split_ifs
    · exact ⟨hsync, Or.inl rfl⟩
    · obtain ⟨h1, h2⟩ := loadUserCatchesSettled_markers result s hsync
      refine ⟨h1, ?_⟩
      rcases h2 with h2 | ⟨records, shown, base, m, hres, hpre, h2⟩
      · exact Or.inl h2
      · exact Or.inr (Or.inr ⟨records, shown, base, m, by rw [hres], hpre, h2⟩)

/-- C19: for every sequence of clicks on the "My Catches" toggle and settlings of
pending catch requests, in any interleaving, that starts in a state without catch
markers: afterwards the catch markers attached to the maps are exactly the tracked
`catchMarkers` collection, and that collection is empty or consists of the markers one
`displayCatchMarkers` call constructed, one after the other on one surface, for a
leading part of a single array that one of the requests returned. -/
theorem catch_markers_form_one_set (evs : List CatchEvent) (s : State)
    (hnone : s.catchMarkers = []) (hattached : s.attachedCatchMarkers = []) :
    (runCatchEvents evs s).attachedCatchMarkers = (runCatchEvents evs s).catchMarkers ∧
    ∃ (full shown : List CatchRecord) (base : Nat) (m : Surface),
      (runCatchEvents evs s).catchMarkers = catchMarkersFor shown base m ∧
      shown <+: full ∧
      (shown = [] ∨ CatchEvent.fetchSettled (some full) ∈ evs) := by
  induction evs using List.reverseRecOn with
  | nil =>
    refine ⟨by rw [show runCatchEvents [] s = s from rfl, hnone, hattached], ?_⟩
    exact ⟨[], [], 0, Surface.noaaMapboxMap, hnone, List.prefix_refl _, Or.inl rfl⟩
  | append_singleton evs ev ih =>
    obtain ⟨hsync, full, shown, base, m, hmk, hpre, hsrc⟩ := ih
    rw [runCatchEvents_append]
    obtain ⟨h1, h2⟩ := CatchEvent.run_markers ev (runCatchEvents evs s) hsync
    refine ⟨h1, ?_⟩
    rcases h2 with h2 | h2 | ⟨records, shown2, base2, m2, hev, hpre2, h2⟩
    · refine ⟨full, shown, base, m, by rw [h2, hmk], hpre, ?_⟩
      rcases hsrc with hsrc | hsrc
      · exact Or.inl hsrc
      · exact Or.inr (List.mem_append_left _ hsrc)
    · exact ⟨[], [], 0, Surface.noaaMapboxMap, h2, List.prefix_refl _, Or.inl rfl⟩
    · refine ⟨records, shown2, base2, m2, h2, hpre2, Or.inr ?_⟩
      rw [hev]
      exact List.mem_append_right _ (List.mem_singleton.2 rfl)

/-! ## Claims about the user preferences -/

theorem strictEqualsString_iff (v : Json) (text : String) :
    strictEqualsString (some v) text = true ↔ v = Json.str text := by
  cases v <;> simp [strictEqualsString]

/-- C20: for every preference response that has a `speedUnit` value `v`, the variable
`speedUnit` holds "kn" after `getUserPreferences` when `v` is "kts", "km/h" when `v` is
"kph", and `v` itself for every other value. -/
theorem getUserPreferences_speedUnit (data v : Json) (s : State)
    (hvalue : data.getProp "speedUnit" = some v) :
    (v = Json.str "kts" →
      (getUserPreferencesSettled data s).speedUnit = some (Json.str "kn")) ∧
    (v = Json.str "kph" →
      (getUserPreferencesSettled data s).speedUnit = some (Json.str "km/h")) ∧
    (v ≠ Json.str "kts" → v ≠ Json.str "kph" →
      (getUserPreferencesSettled data s).speedUnit = some v) := by
  have htruthy : truthy (some data) = true := by
    cases data <;> simp [Json.getProp] at hvalue
    rfl
  unfold getUserPreferencesSettled
  simp only [htruthy, if_true, hvalue]
  refine ⟨?_, ?_, ?_⟩
  · intro h
    have h1 := (strictEqualsString_iff v "kts").2 h
    simp only [h1, if_true]
  · intro h
    have h1 : strictEqualsString (some v) "kts" = false := by
      rw [h]
      decide
    have h2 := (strictEqualsString_iff v "kph").2 h
    simp only [h1, h2, Bool.false_eq_true, if_false, if_true]
  · intro hkts hkph
    have h1 : strictEqualsString (some v) "kts" = false := by
      rw [Bool.eq_false_iff]
      exact fun h => hkts ((strictEqualsString_iff v "kts").1 h)
    have h2 : strictEqualsString (some v) "kph" = false := by
      rw [Bool.eq_false_iff]
      exact fun h => hkph ((strictEqualsString_iff v "kph").1 h)
    simp only [h1, h2, Bool.false_eq_true, if_false]

/-- Witness for C20: a response with the speed unit "kts", one with "kph" and one
with "mph". -/
theorem getUserPreferences_speedUnit_witness :
    samplePreferences.getProp "speedUnit" = some (Json.str "kts") ∧
    (getUserPreferencesSettled samplePreferences (sampleState true)).speedUnit =
      some (Json.str "kn") ∧
    (getUserPreferencesSettled (Json.obj [("speedUnit", Json.str "kph")])
      (sampleState true)).speedUnit = some (Json.str "km/h") ∧
    (getUserPreferencesSettled (Json.obj [("speedUnit", Json.str "mph")])
      (sampleState true)).speedUnit = some (Json.str "mph") :=
  ⟨by simp [samplePreferences, Json.getProp, List.lookup],
    (getUserPreferences_speedUnit samplePreferences (Json.str "kts") (sampleState true)
      (by simp [samplePreferences, Json.getProp, List.lookup])).1 rfl,
    (getUserPreferences_speedUnit (Json.obj [("speedUnit", Json.str "kph")]) (Json.str "kph")
      (sampleState true) (by simp [Json.getProp, List.lookup])).2.1 rfl,
    (getUserPreferences_speedUnit (Json.obj [("speedUnit", Json.str "mph")]) (Json.str "mph")
      (sampleState true) (by simp [Json.getProp, List.lookup])).2.2 (by simp) (by simp)⟩

/-- Witness for C19: on the page `userPage`, whose `load` handler switched the toggle
on and started a catch request, the toggle is switched off and on again while that
request is pending, and then both requests deliver their arrays. -/
theorem catch_markers_form_one_set_witness :
    readyState.catchMarkers = [] ∧ readyState.attachedCatchMarkers = [] ∧
    readyState.myCatchesActive = true ∧ readyState.pendingCatchFetches = 1 ∧
    (runCatchEvents [CatchEvent.toggleClick, CatchEvent.toggleClick]
      readyState).pendingCatchFetches = 2 ∧
    (runCatchEvents
      [CatchEvent.toggleClick, CatchEvent.toggleClick,
        CatchEvent.fetchSettled (some [sampleCatch (JSNum.fin 10) (JSNum.fin 20)]),
        CatchEvent.fetchSettled (some [sampleCatch (JSNum.fin 30) (JSNum.fin 40),
          sampleCatch (JSNum.fin 50) (JSNum.fin 60)])]
      readyState).attachedCatchMarkers.map (fun mk => (mk.uid, mk.lngLat, mk.map)) =
      [(1, { lng := JSNum.fin 40, lat := JSNum.fin 30 }, Surface.noaaMapboxMap),
       (2, { lng := JSNum.fin 60, lat := JSNum.fin 50 }, Surface.noaaMapboxMap)] ∧
    ((runCatchEvents
      [CatchEvent.toggleClick, CatchEvent.toggleClick,
        CatchEvent.fetchSettled (some [sampleCatch (JSNum.fin 10) (JSNum.fin 20)]),
        CatchEvent.fetchSettled (some [sampleCatch (JSNum.fin 30) (JSNum.fin 40),
          sampleCatch (JSNum.fin 50) (JSNum.fin 60)])]
      readyState).attachedCatchMarkers =
    (runCatchEvents
      [CatchEvent.toggleClick, CatchEvent.toggleClick,
        CatchEvent.fetchSettled (some [sampleCatch (JSNum.fin 10) (JSNum.fin 20)]),
        CatchEvent.fetchSettled (some [sampleCatch (JSNum.fin 30) (JSNum.fin 40),
          sampleCatch (JSNum.fin 50) (JSNum.fin 60)])]
      readyState).catchMarkers ∧
    ∃ (full shown : List CatchRecord) (base : Nat) (m : Surface),
      (runCatchEvents
        [CatchEvent.toggleClick, CatchEvent.toggleClick,
          CatchEvent.fetchSettled (some [sampleCatch (JSNum.fin 10) (JSNum.fin 20)]),
          CatchEvent.fetchSettled (some [sampleCatch (JSNum.fin 30) (JSNum.fin 40),
            sampleCatch (JSNum.fin 50) (JSNum.fin 60)])]
        readyState).catchMarkers = catchMarkersFor shown base m ∧
      shown <+: full ∧
      (shown = [] ∨ CatchEvent.fetchSettled (some full) ∈
        [CatchEvent.toggleClick, CatchEvent.toggleClick,
          CatchEvent.fetchSettled (some [sampleCatch (JSNum.fin 10) (JSNum.fin 20)]),
          CatchEvent.fetchSettled (some [sampleCatch (JSNum.fin 30) (JSNum.fin 40),
            sampleCatch (JSNum.fin 50) (JSNum.fin 60)])])) :=
  ⟨by rw [readyState_eq]; rfl,
    by rw [readyState_eq]; rfl,
    by rw [readyState_eq],
    by rw [readyState_eq],
    by rw [readyState_eq]; rfl,
    by rw [readyState_eq]; rfl,
    catch_markers_form_one_set _ readyState (by rw [readyState_eq]; rfl)
      (by rw [readyState_eq]; rfl)⟩

/-! ## Claims about the range of the recenter -/

/-- The offset latitude of finite values. -/
theorem offsetLat_fin (a n so : ℚ) :
    offsetLat (JSNum.fin a) (JSNum.fin n) (JSNum.fin so) = JSNum.fin (a - (n - so) * 0.4) := by
  simp only [offsetLat, JSNum.sub, JSNum.neg, JSNum.add, JSNum.mul]
  congr 1
  ring

/-- For a target latitude in [-90, 90] and a viewport with `south ≤ north`, the center
latitude that `movePositionToTopCenter` requests never exceeds 90, and it lies in
[-90, 90] exactly when `lat - 0.4 * (north - south)` is at least -90. -/
theorem offsetLat_inRange_iff (a n so : ℚ) (ha : -90 ≤ a ∧ a ≤ 90) (hspan : 0 ≤ n - so) :
    (∃ c : ℚ, offsetLat (JSNum.fin a) (JSNum.fin n) (JSNum.fin so) = JSNum.fin c ∧ c ≤ 90) ∧
    (JSNum.InRange (-90) 90 (offsetLat (JSNum.fin a) (JSNum.fin n) (JSNum.fin so)) ↔
      -90 ≤ a - 0.4 * (n - so)) := by
  rw [offsetLat_fin]
  refine ⟨⟨_, rfl, by linarith [ha.2]⟩, ?_⟩
  constructor
  · rintro ⟨q, hq, h1, -⟩
    have hq2 : a - (n - so) * 0.4 = q := by
      simpa only [JSNum.fin.injEq] using hq
    linarith
  · intro h
    exact ⟨_, rfl, by linarith, by linarith [ha.2]⟩

theorem worldState_eq : worldState = setNoaaMapCamera (init worldPage) := by
  unfold worldState
  rw [setNoaaMap_no_params (init worldPage) (defaultCamera_accepted _) rfl]
  rfl

/-- C21 (evaluation at the failing input): on the page `worldPage`, whose viewport
spans the latitudes -85 to 85 (a span of 170, within [0, 180]), a click at the valid
point (-30, 25) makes `movePositionToTopCenter` request the center latitude
-30 - 0.4 * 170 = -98, which lies outside [-90, 90]: `easeTo` is called with the center
(25, -98), the SDK rejects it, the click handler throws, and no message is posted to the
host although `window.ReactNativeWebView` exists. -/
theorem recenter_latitude_below_range :
    areCoordinatesValid (JSNum.fin (-30)) (JSNum.fin 25) = true ∧
    worldState.mapboxMap = some Surface.noaaMapboxMap ∧
    (worldState.getMap Surface.noaaMapboxMap).north = JSNum.fin 85 ∧
    (worldState.getMap Surface.noaaMapboxMap).south = JSNum.fin (-85) ∧
    JSNum.InRange 0 180
      (JSNum.sub (worldState.getMap Surface.noaaMapboxMap).north
        (worldState.getMap Surface.noaaMapboxMap).south) ∧
    offsetLat (JSNum.fin (-30)) (worldState.getMap Surface.noaaMapboxMap).north
      (worldState.getMap Surface.noaaMapboxMap).south = JSNum.fin (-98) ∧
    ¬ JSNum.InRange (-90) 90 (JSNum.fin (-98)) ∧
    ((clickHandler Surface.noaaMapboxMap (JSNum.fin (-30)) (JSNum.fin 25)
        worldState).state.getMap Surface.noaaMapboxMap).easeToCalls =
      [{ center := { lng := JSNum.fin 25, lat := JSNum.fin (-98) }, duration := 500 }] ∧
    (clickHandler Surface.noaaMapboxMap (JSNum.fin (-30)) (JSNum.fin 25) worldState).threw =
      true ∧
    worldState.reactNativeWebView = true ∧
    (clickHandler Surface.noaaMapboxMap (JSNum.fin (-30)) (JSNum.fin 25)
      worldState).state.posted = [] := by
  have hactive : worldState.mapboxMap = some Surface.noaaMapboxMap := by
    rw [worldState_eq]
    rfl
  have hn : (worldState.getMap Surface.noaaMapboxMap).north = JSNum.fin 85 := by
    rw [worldState_eq]
    rfl
  have hs : (worldState.getMap Surface.noaaMapboxMap).south = JSNum.fin (-85) := by
    rw [worldState_eq]
    rfl
  have he : (worldState.getMap Surface.noaaMapboxMap).easeToCalls = [] := by
    rw [worldState_eq]
    rfl
  have hposted : worldState.posted = [] := by
    rw [worldState_eq]
    rfl
  have hoff : offsetLat (JSNum.fin (-30)) (JSNum.fin 85) (JSNum.fin (-85)) = JSNum.fin (-98) := by
    rw [offsetLat_fin]
    norm_num
  have hreject : lngLatAccepted (JSNum.fin 25) (JSNum.fin (-98)) = false := by
    simp only [lngLatAccepted, JSNum.isNaN, JSNum.gt, JSNum.lt]
    norm_num
  obtain ⟨h1, -, h3⟩ := clickHandler_active_calls Surface.noaaMapboxMap Surface.noaaMapboxMap
    (JSNum.fin (-30)) (JSNum.fin 25) worldState (by decide) hactive
  rw [hn, hs, hoff] at h3
  obtain ⟨hthrew, hp⟩ := h3 hreject
  refine ⟨by decide, hactive, hn, hs, ?_, ?_, ?_, ?_, hthrew, ?_, ?_⟩
  · rw [hn, hs]
    exact ⟨170, by simp only [JSNum.sub, JSNum.neg, JSNum.add]; norm_num, by norm_num,
      by norm_num⟩
  · rw [hn, hs, hoff]
  · rintro ⟨q, hq, hlo, -⟩
    have hq2 : (-98 : ℚ) = q := by
      simpa only [JSNum.fin.injEq] using hq
    rw [← hq2] at hlo
    norm_num at hlo
  · rw [h1, hn, hs, he, recenterOptions, hoff]
    rfl
  · rw [worldState_eq]
    rfl
  · rw [hp, hposted]

/-! ## Re-display of the launch point after a click -/

/-- The state `launchClickState`: the launch parameters are those of the page, the
SDK accepts `defaultCenter`, the state is well formed, and the only location marker is
the one of the click at (10, 30) on the reference surface. -/
theorem launchClickState_facts :
    launchClickState.urlParams = (launchPage "40" "40").urlParams ∧
    lngLatAccepted launchClickState.defaultCenter.lng launchClickState.defaultCenter.lat =
      true ∧
    LocationTracked launchClickState ∧
    launchClickState.locationMarkers.map (fun mk => (mk.lngLat, mk.map)) =
      [(({ lng := JSNum.fin 30, lat := JSNum.fin 10 } : LngLat), Surface.noaaMapboxMap)] := by
  have hframe := Switch.run_frame Switch.setNoaaMap (init (launchPage "40" "40"))
  have hcommon := Switch.run_common Switch.setNoaaMap (init (launchPage "40" "40"))
  have hwf0 := Switch.run_tracked Switch.setNoaaMap (init (launchPage "40" "40"))
    (init_tracked _)
  simp only [Switch.run, Switch.target] at hframe hcommon hwf0
  obtain ⟨ms, lm, n, mb, no, p, h⟩ := clickHandler_frame Surface.noaaMapboxMap (JSNum.fin 10)
    (JSNum.fin 30) (setNoaaMap (init (launchPage "40" "40"))).state
  have hloc := clickHandler_active_markers Surface.noaaMapboxMap Surface.noaaMapboxMap
    (JSNum.fin 10) (JSNum.fin 30) (setNoaaMap (init (launchPage "40" "40"))).state (by decide)
    hcommon.1 hwf0
  unfold launchClickState
  refine ⟨?_, ?_, clickHandler_tracked _ _ _ _ hwf0, ?_⟩
  · rw [h]
    exact hframe.2.2.2.2.2.2.2
  · rw [h]
    show lngLatAccepted (setNoaaMap (init (launchPage "40" "40"))).state.defaultCenter.lng
      (setNoaaMap (init (launchPage "40" "40"))).state.defaultCenter.lat = true
    rw [hcommon.2.2.2.1]
    exact defaultCamera_accepted _
  · rw [hloc]
    rfl

/-- Witness for C11: on the page opened with `lat=40&lon=40`, after a click at
(10, 30) on the reference surface, a switch to the plugin surface ends with one location
marker, at (40, 40) on the plugin surface; on the sample page, which has no launch
parameters, the same switch after a click at (40, -74) leaves the markers as they
were. -/
theorem switch_redisplays_launch_point_witness :
    launchClickState.locationMarkers.map (fun mk => (mk.lngLat, mk.map)) =
      [(({ lng := JSNum.fin 30, lat := JSNum.fin 10 } : LngLat), Surface.noaaMapboxMap)] ∧
    (Switch.resetNoaaMap.run launchClickState).state.locationMarkers =
      [{ uid := launchClickState.nextUid, style := MarkerStyle.location,
         lngLat := { lng := JSNum.fin 40, lat := JSNum.fin 40 },
         map := Surface.meteoblueMapboxMap }] ∧
    redisplaysMarker (clickHandler Surface.noaaMapboxMap (JSNum.fin 40) (JSNum.fin (-74))
      (sampleState true)).state.urlParams = false ∧
    (Switch.resetNoaaMap.run (clickHandler Surface.noaaMapboxMap (JSNum.fin 40)
      (JSNum.fin (-74)) (sampleState true)).state).state.markers =
      (clickHandler Surface.noaaMapboxMap (JSNum.fin 40) (JSNum.fin (-74))
        (sampleState true)).state.markers := by
  obtain ⟨hurl, hc, hwf, hloc⟩ := launchClickState_facts
  have hlat : parseFloat (paramValue (launchPage "40" "40").urlParams.lat) = JSNum.fin 40 :=
    parseFloat_param_40
  have hlon : parseFloat (paramValue (launchPage "40" "40").urlParams.lon) = JSNum.fin 40 :=
    parseFloat_param_40
  have hre : redisplaysMarker launchClickState.urlParams = true := by
    rw [hurl]
    unfold redisplaysMarker
    rw [hlat, hlon]
    rfl
  have hvalid : areCoordinatesValid (parseFloat (paramValue launchClickState.urlParams.lat))
      (parseFloat (paramValue launchClickState.urlParams.lon)) = true := by
    rw [hurl, hlat, hlon]
    decide
  have h1 := (switch_redisplays_launch_point Switch.resetNoaaMap launchClickState hc hwf).1
    hre hvalid
  rw [hurl, hlat, hlon] at h1
  obtain ⟨hre2, hc2, -⟩ := sampleClick_facts
  have h2 := (switch_redisplays_launch_point Switch.resetNoaaMap
    (clickHandler Surface.noaaMapboxMap (JSNum.fin 40) (JSNum.fin (-74))
      (sampleState true)).state hc2
    (clickHandler_tracked _ _ _ _ (sampleState_tracked true))).2 hre2
  exact ⟨hloc, h1, hre2, h2.2.1⟩

end MeteoblueMap
